import Mathlib

/-!
Verification development for the selection subsystem of a 3D plate editor
(source file: src/slic3r/GUI/Selection.cpp).

The development is a shallow embedding of the selection/transform state
machine.  The only source file available is Selection.cpp; helpers that live
elsewhere in the repository (the small one-line accessors of Selection.hpp,
the geometry toolbox of libslic3r/Geometry, the bounding-box computations of
3DScene.cpp and the undo-snapshot service of the Plater) are modelled from
the specification, each with a doc comment saying so.  Numeric quantities
are rationals; Euler rotation angles are measured in quarter turns, so that
the ninety-degrees predicate of the specification is exact.

Calls into collaborating services (undo snapshots) and the debug-build
assertions are recorded in an event log carried by the state, so that
ordering properties ("snapshot before mutation") and assertion failures are
statable.  Release semantics is used for assertions: execution continues
after the failure is logged.
-/

namespace Slic3r

/-- Three-dimensional vector of rationals, standing in for Vec3d. -/
structure Vec3 where
  x : ℚ
  y : ℚ
  z : ℚ
deriving DecidableEq, Repr, Inhabited

namespace Vec3

def zero : Vec3 := ⟨0, 0, 0⟩

def ones : Vec3 := ⟨1, 1, 1⟩

def add (a b : Vec3) : Vec3 := ⟨a.x + b.x, a.y + b.y, a.z + b.z⟩

def sub (a b : Vec3) : Vec3 := ⟨a.x - b.x, a.y - b.y, a.z - b.z⟩

def cwiseMul (a b : Vec3) : Vec3 := ⟨a.x * b.x, a.y * b.y, a.z * b.z⟩

def cwiseAbs (a : Vec3) : Vec3 := ⟨|a.x|, |a.y|, |a.z|⟩

/-- Index (0, 1 or 2) of the first component of largest absolute value,
mirroring Eigen cwiseAbs().maxCoeff(&index). -/
def argmaxAbs (a : Vec3) : Nat :=
  if |a.y| > |a.x| then
    (if |a.z| > |a.y| then 2 else 1)
  else
    (if |a.z| > |a.x| then 2 else 0)

end Vec3

/-- Selection granularity, EMode of Selection.hpp. -/
inductive EMode where
  | Volume
  | Instance
deriving DecidableEq, Repr, Inhabited

/-- Derived selection classification, EType of Selection.hpp. -/
inductive EType where
  | Invalid
  | Empty
  | WipeTower
  | SingleModifier
  | MultipleModifier
  | SingleVolume
  | MultipleVolume
  | SingleFullObject
  | MultipleFullObject
  | SingleFullInstance
  | MultipleFullInstance
  | Mixed
deriving DecidableEq, Repr, Inhabited

/-- Instrumentation events: calls out to the undo-snapshot service, actual
membership changes of the selection set, and failed debug assertions. -/
inductive Event where
  | snapshot (label : String)
  | selInsert (i : Nat)
  | selErase (i : Nat)
  | assertViol
deriving DecidableEq, Repr

/-- Modelled from the spec: Geometry::Transformation (libslic3r, absent from
src) as its four stored components.  The derived matrices of the C++ class
are recomputed on demand through GeometryOps below. -/
structure Transformation where
  offset : Vec3
  rotation : Vec3
  scaling_factor : Vec3
  mirror : Vec3
deriving DecidableEq, Repr

instance : Inhabited Transformation :=
  ⟨⟨Vec3.zero, Vec3.zero, Vec3.ones, Vec3.ones⟩⟩

/-- Renderable volume, the parts of GLVolume (3DScene.hpp, absent from src)
that Selection.cpp reads and writes: identifiers, flags, the stable geometry
id, and the volume-level and instance-level transformations.
chull_rest_min_z is modelled from the spec: the minimum Z coordinate of the
transformed convex hull bounding box equals the instance Z offset plus this
offset-independent remainder (the remainder depends on the mesh and on the
rotation/scale/mirror components, none of which ensure_on_bed changes). -/
structure GLVolume where
  object_idx : Int
  instance_idx : Int
  vol_idx : Int
  selected : Bool
  disabled : Bool
  is_modifier : Bool
  is_wipe_tower : Bool
  geometry_id : Nat × Nat
  volume_trafo : Transformation
  instance_trafo : Transformation
  chull_rest_min_z : ℚ
deriving DecidableEq, Repr

instance : Inhabited GLVolume :=
  ⟨⟨0, 0, 0, false, false, false, false, (0, 0), default, default, 0⟩⟩

/-- Relevant counts of a ModelObject of the document model (libslic3r/Model,
absent from src): how many volumes and how many instances it owns. -/
structure MObject where
  volumes_count : Nat
  instances_count : Nat
deriving DecidableEq, Repr, Inhabited

/-- Captured pre-drag state of one volume: its volume-level and
instance-level transformations, VolumeCache of Selection.hpp. -/
structure VolumeCache where
  m_volume : Transformation
  m_instance : Transformation
deriving DecidableEq, Repr, Inhabited

/-- Modelled from the spec: the transformation-type descriptor of
libslic3r/Geometry (absent from src) with its three independent flags:
world vs local frame, relative vs absolute values, joint vs independent
pivot. -/
structure TransformationType where
  world : Bool
  relative : Bool
  joint : Bool
deriving DecidableEq, Repr

namespace TransformationType

def absolute (t : TransformationType) : Bool := !t.relative

def independent (t : TransformationType) : Bool := !t.joint

end TransformationType

/-- Modelled from the spec: the matrix toolbox used by Selection.cpp that
lives in libslic3r/Geometry, Eigen and 3DScene (all absent from src).  Each
field applies one of the derived matrices to a vector:
rot_apply a v      = (rotation matrix of Euler angles a) * v,
                     also used for Eigen AngleAxisd about the Z axis via
                     rot_apply (0,0,angle);
rot_t_apply a v    = (rotation matrix of Euler angles a) transposed * v;
extract_euler_mul a b = Euler angles extracted from the product of the
                     rotation matrices of a and b;
rotation_diff_z    = the Z-axis angle delta between two Euler rotations;
inst_full_inv_apply c v = inverse of the full matrix of the cached instance
                     transformation c, applied to v;
rsm_inv_apply c v  = inverse of rotation*scale*mirror of the cached instance
                     transformation c, applied to v;
tbb_center v       = center of the transformed bounding box of a volume
                     (wipe tower rotation pivot). -/
structure GeometryOps where
  rot_apply : Vec3 → Vec3 → Vec3
  rot_t_apply : Vec3 → Vec3 → Vec3
  extract_euler_mul : Vec3 → Vec3 → Vec3
  rotation_diff_z : Vec3 → Vec3 → ℚ
  inst_full_inv_apply : Transformation → Vec3 → Vec3
  rsm_inv_apply : Transformation → Vec3 → Vec3
  tbb_center : GLVolume → Vec3

/-- Modelled from the spec: EPSILON of libslic3r (absent from src), the
absolute tolerance used by the non-uniform-scale test. -/
def EPSILON : ℚ := 1 / 10000

/-- Modelled from the spec: Geometry::is_rotation_ninety_degrees (absent
from src).  Angles are measured in quarter turns, so a rotation is a
multiple of ninety degrees exactly when every component is an integer. -/
def is_rotation_ninety_degrees (r : Vec3) : Bool :=
  r.x.den = 1 && r.y.den = 1 && r.z.den = 1

/-- Axis-aligned bounding box, BoundingBoxf3 of libslic3r (absent from src),
modelled from the spec: a min corner, a max corner and a defined flag; the
default-constructed box is the zero/empty box. -/
structure BoundingBoxf3 where
  bmin : Vec3
  bmax : Vec3
  defined : Bool
deriving DecidableEq, Repr

namespace BoundingBoxf3

def empty : BoundingBoxf3 := ⟨Vec3.zero, Vec3.zero, false⟩

/-- Modelled from the spec: merging a box into an accumulator extends the
min/max corners componentwise; merging into an undefined box replaces it. -/
def merge (a b : BoundingBoxf3) : BoundingBoxf3 :=
  if !b.defined then a
  else if !a.defined then b
  else
    ⟨⟨min a.bmin.x b.bmin.x, min a.bmin.y b.bmin.y, min a.bmin.z b.bmin.z⟩,
     ⟨max a.bmax.x b.bmax.x, max a.bmax.y b.bmax.y, max a.bmax.z b.bmax.z⟩,
     true⟩

end BoundingBoxf3

/-- Ordered insertion into the sorted duplicate-free index set m_list
(std::set of unsigned int). -/
def idxInsert (i : Nat) : List Nat → List Nat
  | [] => [i]
  | j :: t =>
    if i < j then i :: j :: t
    else if i = j then j :: t
    else j :: idxInsert i t

/-- Update of the element at a given position of a list, everything else
unchanged.  Out-of-range positions leave the list unchanged (the C++ code
never indexes out of range on the paths embedded here). -/
def updateAt {α : Type} (f : α → α) : Nat → List α → List α
  | _, [] => []
  | 0, v :: t => f v :: t
  | n + 1, v :: t => v :: updateAt f n t

/-- Sorted insertion of an instance index into the instance set of one
Content Map entry (std::set of int). -/
def instIdxInsert (i : Int) : List Int → List Int
  | [] => [i]
  | j :: t =>
    if i < j then i :: j :: t
    else if i = j then j :: t
    else j :: instIdxInsert i t

/-- Insertion into the Content Map (std::map from object index to instance
index set), keeping the entries sorted by object index as std::map does. -/
def contentInsert (obj inst : Int) : List (Int × List Int) → List (Int × List Int)
  | [] => [(obj, [inst])]
  | (o, is) :: t =>
    if obj < o then (obj, [inst]) :: (o, is) :: t
    else if obj = o then (o, instIdxInsert inst is) :: t
    else (o, is) :: contentInsert obj inst t

/-- Full state of the Selection object together with its collaborators: the
borrowed volume list and document model, the index set, the classification
cache, the transform cache, the bounding-box cache and the event log.
valid mirrors m_valid (both collaborator pointers bound);
snapshots_suppressed mirrors the Plater SuppressSnapshots guard. -/
structure SelectionState where
  valid : Bool
  mode : EMode
  type : EType
  list : List Nat
  volumes : List GLVolume
  objects : List MObject
  content : List (Int × List Int)
  cache_volumes_data : List (Nat × VolumeCache)
  dragging_center : Vec3
  m_bounding_box : BoundingBoxf3
  bounding_box_dirty : Bool
  snapshots_suppressed : Bool
  log : List Event
deriving DecidableEq, Repr

namespace SelectionState

/-- Volume at a given index of the borrowed volume list. -/
def volAt (s : SelectionState) (i : Nat) : GLVolume :=
  s.volumes.getD i default

/-- ModelObject of the document model at a given (int) object index. -/
def objAt (s : SelectionState) (i : Int) : MObject :=
  s.objects.getD i.toNat default

/-- Cached pre-drag data of a volume; std::map operator[] default-constructs
a missing entry, hence the default fallback. -/
def cacheAt (s : SelectionState) (i : Nat) : VolumeCache :=
  (s.cache_volumes_data.lookup i).getD default

/-- Modelled from the spec: Selection::contains_volume of Selection.hpp
(absent from src), membership of an index in m_list. -/
def contains_volume (s : SelectionState) (i : Nat) : Bool :=
  s.list.contains i

/-- Modelled from the spec: Selection::is_empty of Selection.hpp (absent
from src), the cached type is Empty. -/
def is_empty (s : SelectionState) : Bool :=
  s.type = EType.Empty

/-- Modelled from the spec: Selection::is_wipe_tower of Selection.hpp
(absent from src). -/
def is_wipe_tower (s : SelectionState) : Bool :=
  s.type = EType.WipeTower

/-- Modelled from the spec: Selection::is_single_modifier of Selection.hpp
(absent from src). -/
def is_single_modifier (s : SelectionState) : Bool :=
  s.type = EType.SingleModifier

/-- Modelled from the spec: Selection::is_multiple_modifier of
Selection.hpp (absent from src). -/
def is_multiple_modifier (s : SelectionState) : Bool :=
  s.type = EType.MultipleModifier

/-- Modelled from the spec: Selection::is_any_modifier of Selection.hpp
(absent from src). -/
def is_any_modifier (s : SelectionState) : Bool :=
  s.is_single_modifier || s.is_multiple_modifier

/-- Modelled from the spec: Selection::is_single_volume of Selection.hpp
(absent from src). -/
def is_single_volume (s : SelectionState) : Bool :=
  s.type = EType.SingleVolume

/-- Modelled from the spec: Selection::is_single_full_object of
Selection.hpp (absent from src). -/
def is_single_full_object (s : SelectionState) : Bool :=
  s.type = EType.SingleFullObject

/-- Single object index of a Content Map, or -1 when the map does not hold
exactly one object (std::map begin is the smallest key; the Content Map is
kept sorted). -/
def contentObjIdx : List (Int × List Int) → Int
  | [(o, _)] => o
  | _ => -1

/-- Single instance index of a Content Map, or -1. -/
def contentInstIdx : List (Int × List Int) → Int
  | [(_, [i])] => i
  | _ => -1

/-- Selection::get_object_idx: the single touched object of the Content
Map, or -1. -/
def get_object_idx (s : SelectionState) : Int :=
  contentObjIdx s.content

/-- Selection::get_instance_idx: the single touched instance of the single
touched object, or -1. -/
def get_instance_idx (s : SelectionState) : Int :=
  contentInstIdx s.content

/-- Selection::set_bounding_boxes_dirty (the model keeps one dirty flag for
the one bounding-box cache that the claims mention). -/
def set_bounding_boxes_dirty (s : SelectionState) : SelectionState :=
  { s with bounding_box_dirty := true }

/-- Modelled from the spec: Plater::take_snapshot (absent from src), the
undo checkpoint request; suppressed while a SuppressSnapshots guard is
alive, as in Plater. -/
def take_snapshot (s : SelectionState) (label : String) : SelectionState :=
  if s.snapshots_suppressed then s
  else { s with log := s.log ++ [Event.snapshot label] }

/-- Debug assertion: release semantics, the failure is logged and execution
continues. -/
def checkAssert (s : SelectionState) (ok : Bool) : SelectionState :=
  if ok then s else { s with log := s.log ++ [Event.assertViol] }

/-- Set or reset the selected flag of the volume at one index of the
borrowed list. -/
def setSelected (s : SelectionState) (i : Nat) (b : Bool) : SelectionState :=
  { s with volumes := updateAt (fun v => { v with selected := b }) i s.volumes }

/-- Selection::do_add_volume: insert the index into m_list and raise the
volume selected flag.  The selInsert event is recorded only when the set
actually grows. -/
def do_add_volume (s : SelectionState) (i : Nat) : SelectionState :=
  let s₁ := if s.list.contains i then s
            else { s with log := s.log ++ [Event.selInsert i] }
  let s₂ := { s₁ with list := idxInsert i s₁.list }
  setSelected s₂ i true

/-- Selection::do_add_volumes: add every in-range index of the given
vector. -/
def do_add_volumes (s : SelectionState) (idxs : List Nat) : SelectionState :=
  idxs.foldl (fun t i => if i < t.volumes.length then do_add_volume t i else t) s

/-- Selection::do_remove_volume: erase the index from m_list if present and
drop the volume selected flag; absent indices leave everything, the flag
included, untouched. -/
def do_remove_volume (s : SelectionState) (i : Nat) : SelectionState :=
  if s.list.contains i then
    let s₁ := { s with list := s.list.filter (fun j => j ≠ i),
                       log := s.log ++ [Event.selErase i] }
    setSelected s₁ i false
  else s

/-- Selection::do_remove_instance: remove every volume of one instance of
one object. -/
def do_remove_instance (s : SelectionState) (object_idx instance_idx : Int) : SelectionState :=
  (List.range s.volumes.length).foldl
    (fun t i =>
      if (t.volAt i).object_idx = object_idx ∧ (t.volAt i).instance_idx = instance_idx then
        do_remove_volume t i
      else t) s

/-- Selection::do_remove_object: remove every volume of one object. -/
def do_remove_object (s : SelectionState) (object_idx : Int) : SelectionState :=
  (List.range s.volumes.length).foldl
    (fun t i =>
      if (t.volAt i).object_idx = object_idx then do_remove_volume t i else t) s

/-- Selection::update_type, first phase: rebuild the Content Map from the
current index set. -/
def rebuildContent (s : SelectionState) : List (Int × List Int) :=
  s.list.foldl
    (fun c i => contentInsert (s.volAt i).object_idx (s.volAt i).instance_idx c) []

/-- Selection::update_type, classification of a single-element selection
(the m_list.size() == 1 branch): the new type, the new mode and the
disable-others flag. -/
def classifySingle (s : SelectionState) (first : GLVolume) : EType × EMode × Bool :=
  if first.is_wipe_tower then (EType.WipeTower, s.mode, false)
  else if first.is_modifier then (EType.SingleModifier, s.mode, true)
  else
    let model_object := s.objAt first.object_idx
    let volumes_count := model_object.volumes_count
    let instances_count := model_object.instances_count
    if volumes_count * instances_count = 1 then
      (EType.SingleFullObject, EMode.Instance, false)
    else if volumes_count = 1 then
      (EType.SingleFullInstance, EMode.Instance, false)
    else
      (EType.SingleVolume, s.mode, true)

/-- Selection::update_type, classification of a multi-element selection
over the freshly rebuilt Content Map. -/
def classifyMultiple (s : SelectionState) (content : List (Int × List Int)) :
    EType × EMode × Bool :=
  let sla_volumes_count := (s.list.filter (fun i => (s.volAt i).vol_idx < 0)).length
  match content with
  | [(obj, insts)] =>
    let model_object := s.objAt obj
    let model_volumes_count := model_object.volumes_count
    let instances_count := model_object.instances_count
    let selected_instances_count := insts.length
    if model_volumes_count * instances_count + sla_volumes_count = s.list.length then
      (EType.SingleFullObject, EMode.Instance, false)
    else if selected_instances_count = 1 then
      if model_volumes_count + sla_volumes_count = s.list.length then
        (EType.SingleFullInstance, EMode.Instance, false)
      else
        let modifiers_count := (s.list.filter (fun i => (s.volAt i).is_modifier)).length
        if modifiers_count = 0 then (EType.MultipleVolume, s.mode, true)
        else if modifiers_count = s.list.length then (EType.MultipleModifier, s.mode, true)
        else (EType.Mixed, s.mode, true)
    else if 1 < selected_instances_count ∧
        selected_instances_count * model_volumes_count + sla_volumes_count = s.list.length then
      (EType.MultipleFullInstance, EMode.Instance, false)
    else (EType.Mixed, s.mode, false)
  | _ =>
    let sels_cntr := content.foldl
      (fun acc oi =>
        acc + (s.objAt oi.fst).volumes_count * (s.objAt oi.fst).instances_count) 0
    if sels_cntr + sla_volumes_count = s.list.length then
      (EType.MultipleFullObject, EMode.Instance, false)
    else (EType.Mixed, s.mode, false)

/-- Selection::update_type, dispatch of the classification: Invalid when
unbound, Empty for an empty set, the single-volume classifier for one
index, the multi-volume classifier otherwise. -/
def updClassify (s : SelectionState) : EType × EMode × Bool :=
  if !s.valid then (EType.Invalid, s.mode, false)
  else match s.list with
    | [] => (EType.Empty, s.mode, false)
    | [i] => classifySingle s (s.volAt i)
    | _ => classifyMultiple s (rebuildContent s)

/-- Selection::update_type: rebuild the Content Map, classify the selection
into an EType (possibly forcing Instance mode), and rewrite every volume
disabled flag according to the disable-others decision. -/
def update_type (s : SelectionState) : SelectionState :=
  let content := rebuildContent s
  let tmr := updClassify s
  let s₁ := { s with content := content, type := tmr.1, mode := tmr.2.1 }
  let object_idx := s₁.get_object_idx
  let instance_idx := s₁.get_instance_idx
  { s₁ with volumes := s₁.volumes.map (fun v =>
      { v with disabled :=
          if tmr.2.2 then
            decide (v.object_idx ≠ object_idx ∨ v.instance_idx ≠ instance_idx)
          else false }) }

/-- Selection::clear: raise no snapshot; a no-op when invalid or already
empty, else drop every selected flag, empty the set and reclassify.  The
sidebar-cache reset it also performs is an out-of-scope UI side effect. -/
def clear (s : SelectionState) : SelectionState :=
  if !s.valid then s
  else if s.list.isEmpty then s
  else
    let s₁ := s.list.foldl (fun t i =>
      { setSelected t i false with log := t.log ++ [Event.selErase i] }) s
    let s₂ := { s₁ with list := [] }
    (update_type s₂).set_bounding_boxes_dirty

/-- Selection::get_volume_idxs_from_object: the indices of every volume of
one object, in ascending order. -/
def get_volume_idxs_from_object (s : SelectionState) (object_idx : Int) : List Nat :=
  (List.range s.volumes.length).filter (fun i => (s.volAt i).object_idx = object_idx)

/-- Selection::get_volume_idxs_from_instance: the indices of every volume
of one instance of one object. -/
def get_volume_idxs_from_instance (s : SelectionState) (object_idx instance_idx : Int) :
    List Nat :=
  (List.range s.volumes.length).filter (fun i =>
    (s.volAt i).object_idx = object_idx ∧ (s.volAt i).instance_idx = instance_idx)

/-- Selection::get_volume_idxs_from_volume: the indices of the copies of one
volume of one object; with the sentinel instance index -1 this version
selects nothing (the push is guarded by instance_idx != -1). -/
def get_volume_idxs_from_volume (s : SelectionState)
    (object_idx instance_idx volume_idx : Int) : List Nat :=
  (List.range s.volumes.length).filter (fun i =>
    (s.volAt i).object_idx = object_idx ∧ (s.volAt i).vol_idx = volume_idx ∧
    instance_idx ≠ -1 ∧ (s.volAt i).instance_idx = instance_idx)

/-- Selection::contains_all_volumes. -/
def contains_all_volumes (s : SelectionState) (idxs : List Nat) : Bool :=
  idxs.all (fun i => s.list.contains i)

/-- Selection::matches, inner counting loop. -/
def matchesAux (s : SelectionState) : List Nat → Nat → Bool
  | [], count => count = s.list.length
  | i :: t, count =>
    if s.list.contains i then matchesAux s t (count + 1) else false

/-- Selection::matches: the given indices are exactly the current set. -/
def selMatches (s : SelectionState) (idxs : List Nat) : Bool :=
  matchesAux s idxs 0

/-- Selection::add_instance. -/
def add_instance (s : SelectionState) (object_idx instance_idx : Int)
    (as_single_selection : Bool) : SelectionState :=
  if !s.valid then s
  else
    let volume_idxs := get_volume_idxs_from_instance s object_idx instance_idx
    if (!as_single_selection && contains_all_volumes s volume_idxs) ||
       (as_single_selection && selMatches s volume_idxs) then s
    else
      let s₁ := s.take_snapshot "Selection-Add Instance"
      let s₂ := if as_single_selection then clear s₁ else s₁
      let s₃ := { s₂ with mode := EMode.Instance }
      let s₄ := do_add_volumes s₃ volume_idxs
      (update_type s₄).set_bounding_boxes_dirty

/-- Selection::add: the entry point used by single-click selection. -/
def add (s : SelectionState) (volume_idx : Nat)
    (as_single_selection check_for_already_contained : Bool) : SelectionState :=
  if !s.valid || s.volumes.length ≤ volume_idx then s
  else
    let volume := s.volAt volume_idx
    if s.is_wipe_tower && volume.is_wipe_tower then s
    else
      let keep_instance_mode := s.mode = EMode.Instance && !as_single_selection
      let already_contained := check_for_already_contained && s.contains_volume volume_idx
      let needs_reset :=
        (as_single_selection && !already_contained) ||
        volume.is_wipe_tower ||
        (s.is_wipe_tower && !volume.is_wipe_tower) ||
        (as_single_selection && !s.is_any_modifier && volume.is_modifier) ||
        (s.is_any_modifier && !volume.is_modifier)
      if !already_contained || needs_reset then
        let s₁ := s.take_snapshot "Selection-Add"
        let s₂ := if needs_reset then clear s₁ else s₁
        let s₃ := if !keep_instance_mode then
            { s₂ with mode := if volume.is_modifier then EMode.Volume else EMode.Instance }
          else s₂
        let s₄ :=
          match s₃.mode with
          | EMode.Volume =>
            if volume.vol_idx ≥ 0 ∧
               (s₃.is_empty ∨ volume.instance_idx = s₃.get_instance_idx) then
              do_add_volume s₃ volume_idx
            else s₃
          | EMode.Instance =>
            let suppressed := s₃.snapshots_suppressed
            let s' := add_instance { s₃ with snapshots_suppressed := true }
              volume.object_idx volume.instance_idx as_single_selection
            { s' with snapshots_suppressed := suppressed }
        (update_type s₄).set_bounding_boxes_dirty
      else s

/-- Selection::remove. -/
def remove (s : SelectionState) (volume_idx : Nat) : SelectionState :=
  if !s.valid || s.volumes.length ≤ volume_idx then s
  else if !s.contains_volume volume_idx then s
  else
    let s₁ := s.take_snapshot "Selection-Remove"
    let volume := s₁.volAt volume_idx
    let s₂ :=
      match s₁.mode with
      | EMode.Volume => do_remove_volume s₁ volume_idx
      | EMode.Instance => do_remove_instance s₁ volume.object_idx volume.instance_idx
    (update_type s₂).set_bounding_boxes_dirty

/-- Selection::add_object. -/
def add_object (s : SelectionState) (object_idx : Int)
    (as_single_selection : Bool) : SelectionState :=
  if !s.valid then s
  else
    let volume_idxs := get_volume_idxs_from_object s object_idx
    if (!as_single_selection && contains_all_volumes s volume_idxs) ||
       (as_single_selection && selMatches s volume_idxs) then s
    else
      let s₁ := s.take_snapshot "Selection-Add Object"
      let s₂ := if as_single_selection then clear s₁ else s₁
      let s₃ := { s₂ with mode := EMode.Instance }
      let s₄ := do_add_volumes s₃ volume_idxs
      (update_type s₄).set_bounding_boxes_dirty

/-- Selection::remove_object. -/
def remove_object (s : SelectionState) (object_idx : Int) : SelectionState :=
  if !s.valid then s
  else
    let s₁ := s.take_snapshot "Selection-Remove Object"
    let s₂ := do_remove_object s₁ object_idx
    (update_type s₂).set_bounding_boxes_dirty

/-- Selection::remove_instance. -/
def remove_instance (s : SelectionState) (object_idx instance_idx : Int) : SelectionState :=
  if !s.valid then s
  else
    let s₁ := s.take_snapshot "Selection-Remove Instance"
    let s₂ := do_remove_instance s₁ object_idx instance_idx
    (update_type s₂).set_bounding_boxes_dirty

/-- Selection::add_volume: no snapshot is requested on this path. -/
def add_volume (s : SelectionState) (object_idx volume_idx instance_idx : Int)
    (as_single_selection : Bool) : SelectionState :=
  if !s.valid then s
  else
    let volume_idxs := get_volume_idxs_from_volume s object_idx instance_idx volume_idx
    if (!as_single_selection && contains_all_volumes s volume_idxs) ||
       (as_single_selection && selMatches s volume_idxs) then s
    else
      let s₁ := if as_single_selection then clear s else s
      let s₂ := { s₁ with mode := EMode.Volume }
      let s₃ := do_add_volumes s₂ volume_idxs
      (update_type s₃).set_bounding_boxes_dirty

/-- Selection::remove_volume: no snapshot is requested on this path. -/
def remove_volume (s : SelectionState) (object_idx volume_idx : Int) : SelectionState :=
  if !s.valid then s
  else
    let s₁ := (List.range s.volumes.length).foldl
      (fun t i =>
        if (t.volAt i).object_idx = object_idx ∧ (t.volAt i).vol_idx = volume_idx then
          do_remove_volume t i
        else t) s
    (update_type s₁).set_bounding_boxes_dirty

/-- Selection::add_volumes: no snapshot is requested on this path. -/
def add_volumes (s : SelectionState) (mode : EMode) (volume_idxs : List Nat)
    (as_single_selection : Bool) : SelectionState :=
  if !s.valid then s
  else if (!as_single_selection && contains_all_volumes s volume_idxs) ||
          (as_single_selection && selMatches s volume_idxs) then s
  else
    let s₁ := if as_single_selection then clear s else s
    let s₂ := { s₁ with mode := mode }
    let s₃ := volume_idxs.foldl
      (fun t i => if i < t.volumes.length then do_add_volume t i else t) s₂
    (update_type s₃).set_bounding_boxes_dirty

/-- Selection::remove_volumes: no snapshot is requested on this path. -/
def remove_volumes (s : SelectionState) (mode : EMode) (volume_idxs : List Nat) :
    SelectionState :=
  if !s.valid then s
  else
    let s₁ := { s with mode := mode }
    let s₂ := volume_idxs.foldl
      (fun t i => if i < t.volumes.length then do_remove_volume t i else t) s₁
    (update_type s₂).set_bounding_boxes_dirty

/-- Count of the non-wipe-tower volumes of the borrowed list, the target
size used by Selection::add_all. -/
def nonWipeTowerCount (s : SelectionState) : Nat :=
  ((List.range s.volumes.length).filter (fun i => !(s.volAt i).is_wipe_tower)).length

/-- Selection::add_all: select every volume except the wipe tower, unless
the selection size already equals that count. -/
def add_all (s : SelectionState) : SelectionState :=
  if !s.valid then s
  else if s.list.length = nonWipeTowerCount s then s
  else
    let s₁ := s.take_snapshot "Selection-Add All"
    let s₂ := clear { s₁ with mode := EMode.Instance }
    let s₃ := (List.range s₂.volumes.length).foldl
      (fun t i => if !(t.volAt i).is_wipe_tower then do_add_volume t i else t) s₂
    (update_type s₃).set_bounding_boxes_dirty

/-- Selection::remove_all. -/
def remove_all (s : SelectionState) : SelectionState :=
  if !s.valid then s
  else if s.is_empty then s
  else
    let s₁ := s.take_snapshot "Selection-Remove All"
    clear { s₁ with mode := EMode.Instance }

/-- Modelled from the spec: std::binary_search over the externally supplied
sorted identifier list is a membership test. -/
def binarySearchPairs (l : List (Nat × Nat)) (x : Nat × Nat) : Bool :=
  l.contains x

/-- Selection::set_deserialized: bulk restore by stable geometry id. -/
def set_deserialized (s : SelectionState) (mode : EMode)
    (volumes_and_instances : List (Nat × Nat)) : SelectionState :=
  if !s.valid then s
  else
    let s₁ := { s with mode := mode }
    let s₂ := s₁.list.foldl (fun t i =>
      { setSelected t i false with log := t.log ++ [Event.selErase i] }) s₁
    let s₃ := { s₂ with list := [] }
    let s₄ := (List.range s₃.volumes.length).foldl
      (fun t i =>
        if binarySearchPairs volumes_and_instances (t.volAt i).geometry_id then
          do_add_volume t i
        else t) s₃
    (update_type s₄).set_bounding_boxes_dirty

/-- Selection::instances_changed: external rebuild after the instance list
was regenerated.  The function only asserts validity and Instance mode; it
does not return early, so it mutates the selection even when the
subsystem is not valid (provided the volume list is still readable). -/
def instances_changed (s : SelectionState) (instance_ids_selected : List Nat) :
    SelectionState :=
  let s₀ := (s.checkAssert s.valid).checkAssert (s.mode = EMode.Instance)
  let s₁ := { s₀ with list := [] }
  let s₂ := (List.range s₁.volumes.length).foldl
    (fun t i =>
      if instance_ids_selected.contains (t.volAt i).geometry_id.snd then
        do_add_volume t i
      else t) s₁
  (update_type s₂).set_bounding_boxes_dirty

/-- Selection::volumes_changed: external rebuild after the volume list was
regenerated, remapping surviving indices; size_t(-1) is the removed
sentinel, modelled by Option.  Only asserts validity and Volume mode. -/
def volumes_changed (s : SelectionState) (map_volume_old_to_new : List (Option Nat)) :
    SelectionState :=
  let s₀ := (s.checkAssert s.valid).checkAssert (s.mode = EMode.Volume)
  let step := s₀.list.foldl
    (fun (p : SelectionState × List Nat) i =>
      match map_volume_old_to_new.getD i none with
      | some new_idx => (setSelected p.1 new_idx true, idxInsert new_idx p.2)
      | none => p) (s₀, [])
  let s₁ := { step.1 with list := step.2 }
  (update_type s₁).set_bounding_boxes_dirty

end SelectionState

/-- Coordinate axis selector, the Axis enum of libslic3r. -/
inductive Axis where
  | X
  | Y
  | Z
deriving DecidableEq, Repr

namespace Vec3

def getAxis (v : Vec3) : Axis → ℚ
  | Axis.X => v.x
  | Axis.Y => v.y
  | Axis.Z => v.z

def setAxis (v : Vec3) (a : Axis) (q : ℚ) : Vec3 :=
  match a with
  | Axis.X => { v with x := q }
  | Axis.Y => { v with y := q }
  | Axis.Z => { v with z := q }

end Vec3

namespace GLVolume

def withVolumeOffset (v : GLVolume) (o : Vec3) : GLVolume :=
  { v with volume_trafo := { v.volume_trafo with offset := o } }

def withVolumeRotation (v : GLVolume) (r : Vec3) : GLVolume :=
  { v with volume_trafo := { v.volume_trafo with rotation := r } }

def withVolumeScaling (v : GLVolume) (f : Vec3) : GLVolume :=
  { v with volume_trafo := { v.volume_trafo with scaling_factor := f } }

def withVolumeMirror (v : GLVolume) (m : Vec3) : GLVolume :=
  { v with volume_trafo := { v.volume_trafo with mirror := m } }

def withInstanceOffset (v : GLVolume) (o : Vec3) : GLVolume :=
  { v with instance_trafo := { v.instance_trafo with offset := o } }

def withInstanceRotation (v : GLVolume) (r : Vec3) : GLVolume :=
  { v with instance_trafo := { v.instance_trafo with rotation := r } }

def withInstanceScaling (v : GLVolume) (f : Vec3) : GLVolume :=
  { v with instance_trafo := { v.instance_trafo with scaling_factor := f } }

def withInstanceMirror (v : GLVolume) (m : Vec3) : GLVolume :=
  { v with instance_trafo := { v.instance_trafo with mirror := m } }

end GLVolume

/-- Center of a bounding box, BoundingBoxf3::center. -/
def BoundingBoxf3.center (b : BoundingBoxf3) : Vec3 :=
  ⟨(b.bmin.x + b.bmax.x) / 2, (b.bmin.y + b.bmax.y) / 2, (b.bmin.z + b.bmax.z) / 2⟩

/-- Rotation-synchronization policy of the Synchronizer,
Selection::SyncRotationType. -/
inductive SyncRotationType where
  | NONE
  | FULL
  | GENERAL
deriving DecidableEq, Repr

namespace SelectionState

def setVolumeOffset (s : SelectionState) (i : Nat) (o : Vec3) : SelectionState :=
  { s with volumes := updateAt (fun v => v.withVolumeOffset o) i s.volumes }

def setVolumeRotation (s : SelectionState) (i : Nat) (r : Vec3) : SelectionState :=
  { s with volumes := updateAt (fun v => v.withVolumeRotation r) i s.volumes }

def setVolumeScaling (s : SelectionState) (i : Nat) (f : Vec3) : SelectionState :=
  { s with volumes := updateAt (fun v => v.withVolumeScaling f) i s.volumes }

def setVolumeMirror (s : SelectionState) (i : Nat) (m : Vec3) : SelectionState :=
  { s with volumes := updateAt (fun v => v.withVolumeMirror m) i s.volumes }

def setInstanceOffset (s : SelectionState) (i : Nat) (o : Vec3) : SelectionState :=
  { s with volumes := updateAt (fun v => v.withInstanceOffset o) i s.volumes }

def setInstanceRotation (s : SelectionState) (i : Nat) (r : Vec3) : SelectionState :=
  { s with volumes := updateAt (fun v => v.withInstanceRotation r) i s.volumes }

def setInstanceScaling (s : SelectionState) (i : Nat) (f : Vec3) : SelectionState :=
  { s with volumes := updateAt (fun v => v.withInstanceScaling f) i s.volumes }

def setInstanceMirror (s : SelectionState) (i : Nat) (m : Vec3) : SelectionState :=
  { s with volumes := updateAt (fun v => v.withInstanceMirror m) i s.volumes }

/-- Selection::is_single_full_instance, translated from Selection.cpp: the
cached type answers directly when it can, otherwise the index set is
checked to cover exactly the volumes of one instance of one object. -/
def is_single_full_instance (s : SelectionState) : Bool :=
  if s.type = EType.SingleFullInstance then true
  else if s.type = EType.SingleFullObject then s.get_instance_idx ≠ -1
  else if s.list.isEmpty || s.volumes.isEmpty then false
  else
    let object_idx : Int := if s.valid then s.get_object_idx else -1
    if object_idx < 0 || s.objects.length ≤ object_idx.toNat then false
    else
      let instance_idx := (s.volAt (s.list.headD 0)).instance_idx
      if s.list.all (fun i =>
          (s.volAt i).object_idx = object_idx ∧ (s.volAt i).instance_idx = instance_idx) then
        let volumes_idxs :=
          ((s.list.filter (fun i => (s.volAt i).vol_idx ≥ 0)).map
            (fun i => (s.volAt i).vol_idx)).dedup
        (s.objAt object_idx).volumes_count = volumes_idxs.length
      else false

/-- Selection::is_from_fully_selected_instance: the selection contains
every model volume of the instance owning the given volume. -/
def is_from_fully_selected_instance (s : SelectionState) (volume_idx : Nat) : Bool :=
  if s.volumes.length ≤ volume_idx then false
  else
    let volume := s.volAt volume_idx
    if s.objects.length ≤ volume.object_idx.toNat then false
    else
      let count := (s.list.filter (fun i =>
        (s.volAt i).vol_idx ≥ 0 ∧ (s.volAt i).object_idx = volume.object_idx ∧
        (s.volAt i).instance_idx = volume.instance_idx)).length
      count = (s.objAt volume.object_idx).volumes_count

/-- Selection::calc_bounding_box, parametrized by the transformed convex
hull bounding box of a volume (computed in 3DScene.cpp, absent from src):
the merge of the boxes of the selected volumes, or the default empty box
when the subsystem is not valid. -/
def computeBoundingBox (f : GLVolume → BoundingBoxf3) (s : SelectionState) : BoundingBoxf3 :=
  if s.valid then
    s.list.foldl (fun bb i => bb.merge (f (s.volAt i))) BoundingBoxf3.empty
  else BoundingBoxf3.empty

/-- Selection::get_bounding_box with its recompute-if-dirty memoization:
the returned box together with the updated cache state. -/
def get_bounding_box_state (f : GLVolume → BoundingBoxf3) (s : SelectionState) :
    BoundingBoxf3 × SelectionState :=
  if s.bounding_box_dirty then
    let bb := computeBoundingBox f s
    (bb, { s with m_bounding_box := bb, bounding_box_dirty := false })
  else (s.m_bounding_box, s)

/-- Value returned by Selection::get_bounding_box. -/
def get_bounding_box (f : GLVolume → BoundingBoxf3) (s : SelectionState) : BoundingBoxf3 :=
  (get_bounding_box_state f s).1

/-- Selection::set_caches: snapshot the transformation of every volume and
record the current bounding-box center as the dragging pivot. -/
def set_caches (f : GLVolume → BoundingBoxf3) (s : SelectionState) : SelectionState :=
  let data := (List.range s.volumes.length).map
    (fun i => (i, VolumeCache.mk (s.volAt i).volume_trafo (s.volAt i).instance_trafo))
  let bbs := get_bounding_box_state f s
  { bbs.2 with cache_volumes_data := data, dragging_center := bbs.1.center }

/-- Selection::start_dragging. -/
def start_dragging (f : GLVolume → BoundingBoxf3) (s : SelectionState) : SelectionState :=
  if !s.valid then s else set_caches f s

/-- Selection::synchronize_unselected_instances: propagate the instance
scale and mirror of every selected volume to the not-yet-processed sibling
instances of the same object, with rotation handled per the three-way
policy.  The done-set early exits of the C++ loops are pure optimizations
(every skipped index is already in the done set) and are not reproduced;
the debug-build xy-synchronization assertions are not modelled. -/
def synchronize_unselected_instances (G : GeometryOps) (sync_rotation_type : SyncRotationType)
    (s : SelectionState) : SelectionState :=
  (s.list.foldl (fun (p : SelectionState × List Nat) i =>
    let t := p.1
    let volume := t.volAt i
    let object_idx := volume.object_idx
    if object_idx ≥ 1000 then p
    else
      let instance_idx := volume.instance_idx
      let rotation := volume.instance_trafo.rotation
      let scaling_factor := volume.instance_trafo.scaling_factor
      let mirror := volume.instance_trafo.mirror
      (List.range t.volumes.length).foldl (fun (q : SelectionState × List Nat) j =>
        if q.2.contains j then q
        else
          let v := q.1.volAt j
          if v.object_idx ≠ object_idx ∨ v.instance_idx = instance_idx then q
          else
            let q₁ :=
              match sync_rotation_type with
              | SyncRotationType.NONE => q.1
              | SyncRotationType.FULL => setInstanceRotation q.1 j rotation
              | SyncRotationType.GENERAL =>
                let z_diff := G.rotation_diff_z (q.1.cacheAt i).m_instance.rotation
                  (q.1.cacheAt j).m_instance.rotation
                setInstanceRotation q.1 j ⟨rotation.x, rotation.y, rotation.z + z_diff⟩
            let q₂ := setInstanceMirror (setInstanceScaling q₁ j scaling_factor) j mirror
            (q₂, idxInsert j q.2)) (t, p.2)) (s, s.list)).1

/-- Selection::synchronize_unselected_volumes: copy the volume transform of
every selected volume verbatim to the other copies of the same part. -/
def synchronize_unselected_volumes (s : SelectionState) : SelectionState :=
  s.list.foldl (fun t i =>
    let volume := t.volAt i
    if volume.object_idx ≥ 1000 then t
    else
      let volume_idx := volume.vol_idx
      let offset := volume.volume_trafo.offset
      let rotation := volume.volume_trafo.rotation
      let scaling_factor := volume.volume_trafo.scaling_factor
      let mirror := volume.volume_trafo.mirror
      (List.range t.volumes.length).foldl (fun u j =>
        if j = i then u
        else
          let v := u.volAt j
          if v.object_idx ≠ volume.object_idx ∨ v.vol_idx ≠ volume_idx then u
          else
            setVolumeMirror
              (setVolumeScaling (setVolumeRotation (setVolumeOffset u j offset) j rotation)
                j scaling_factor) j mirror) t) s

/-- Selection::translate(displacement, local): move selected volumes or
instances from their cached positions; a partially selected instance
degrades the synchronization target from Instance to Volume. -/
def translate (G : GeometryOps) (displacement : Vec3) (is_local : Bool)
    (s : SelectionState) : SelectionState :=
  if !s.valid then s
  else
    let step := s.list.foldl (fun (p : SelectionState × EMode) i =>
      let t := p.1
      if t.mode = EMode.Volume || (t.volAt i).is_wipe_tower then
        if is_local then
          (setVolumeOffset t i ((t.cacheAt i).m_volume.offset.add displacement), p.2)
        else
          let local_displacement := G.rsm_inv_apply (t.cacheAt i).m_instance displacement
          (setVolumeOffset t i ((t.cacheAt i).m_volume.offset.add local_displacement), p.2)
      else
        if is_from_fully_selected_instance t i then
          (setInstanceOffset t i ((t.cacheAt i).m_instance.offset.add displacement), p.2)
        else
          let local_displacement := G.rsm_inv_apply (t.cacheAt i).m_instance displacement
          (setVolumeOffset t i ((t.cacheAt i).m_volume.offset.add local_displacement),
            EMode.Volume)) (s, s.mode)
    let s₁ := step.1
    let s₂ :=
      if step.2 = EMode.Instance then
        synchronize_unselected_instances G SyncRotationType.NONE s₁
      else synchronize_unselected_volumes s₁
    s₂.set_bounding_boxes_dirty

/-- One step of the rotate_instance lambda of Selection::rotate; the second
component of the accumulator is the object_instance_first array. -/
def rotate_instance_step (G : GeometryOps) (rot : Vec3) (tt : TransformationType)
    (rot_axis_max : Nat) (p : SelectionState × List Int) (i : Nat) :
    SelectionState × List Int :=
  let t := p.1
  let volume := t.volAt i
  let first_volume_idx := p.2.getD volume.object_idx.toNat (-1)
  if rot_axis_max ≠ 2 ∧ first_volume_idx ≠ -1 then
    let first_volume := t.volAt first_volume_idx.toNat
    let rotation := first_volume.instance_trafo.rotation
    let z_diff := G.rotation_diff_z (t.cacheAt first_volume_idx.toNat).m_instance.rotation
      (t.cacheAt i).m_instance.rotation
    (setInstanceRotation t i ⟨rotation.x, rotation.y, rotation.z + z_diff⟩, p.2)
  else
    let new_rotation :=
      if tt.world then G.extract_euler_mul rot (t.cacheAt i).m_instance.rotation
      else if tt.absolute then rot
      else rot.add (t.cacheAt i).m_instance.rotation
    let t₁ :=
      if rot_axis_max = 2 ∧ tt.joint then
        let z_diff := G.rotation_diff_z (t.cacheAt i).m_instance.rotation new_rotation
        setInstanceOffset t i (t.dragging_center.add
          (G.rot_apply ⟨0, 0, z_diff⟩ ((t.cacheAt i).m_instance.offset.sub t.dragging_center)))
      else t
    (setInstanceRotation t₁ i new_rotation, p.2.set volume.object_idx.toNat (Int.ofNat i))

/-- The whole loop body of Selection::rotate for a nonzero rotation: per
selection shape and mode it dispatches to the rotate_instance lambda
(rotate_instance_step) or to the rotate-volume paths. -/
def rotate_step (G : GeometryOps) (rot : Vec3) (tt : TransformationType)
    (rot_axis_max : Nat) (p : SelectionState × List Int) (i : Nat) :
    SelectionState × List Int :=
  let t := p.1
  if is_single_full_instance t then rotate_instance_step G rot tt rot_axis_max p i
  else if t.is_single_volume || t.is_single_modifier then
    if tt.independent then
      (setVolumeRotation t i ((t.volAt i).volume_trafo.rotation.add rot), p.2)
    else
      (setVolumeRotation t i (G.extract_euler_mul rot (t.cacheAt i).m_volume.rotation),
        p.2)
  else if t.mode = EMode.Instance then rotate_instance_step G rot tt rot_axis_max p i
  else
    let new_rotation := G.extract_euler_mul rot (t.cacheAt i).m_volume.rotation
    let t₁ :=
      if tt.joint then
        let local_pivot := G.inst_full_inv_apply (t.cacheAt i).m_instance
          t.dragging_center
        let offset := G.rot_apply rot ((t.cacheAt i).m_volume.offset.sub local_pivot)
        setVolumeOffset t i (local_pivot.add offset)
      else t
    (setVolumeRotation t₁ i new_rotation, p.2)

/-- Selection::rotate: a zero rotation restores the cached transforms; a
nonzero rotation dispatches per selection shape and mode, then triggers
instance synchronization with policy NONE for a dominant Z axis and
GENERAL otherwise; a selected wipe tower instead spins about its own
transformed bounding-box center. -/
def rotate (G : GeometryOps) (rot : Vec3) (tt : TransformationType)
    (s : SelectionState) : SelectionState :=
  if !s.valid then s
  else
    let s₀ := s.checkAssert (!tt.world || tt.relative)
    if !s₀.is_wipe_tower then
      let rot_axis_max := if rot = Vec3.zero then 0 else rot.argmaxAbs
      let s₁ :=
        if rot = Vec3.zero then
          s₀.list.foldl (fun t i =>
            if t.mode = EMode.Instance then
              setInstanceOffset (setInstanceRotation t i (t.cacheAt i).m_instance.rotation) i
                (t.cacheAt i).m_instance.offset
            else
              setVolumeOffset (setVolumeRotation t i (t.cacheAt i).m_volume.rotation) i
                (t.cacheAt i).m_volume.offset) s₀
        else
          (s₀.list.foldl (rotate_step G rot tt rot_axis_max)
            (s₀, (List.replicate s₀.objects.length (-1 : Int)))).1
      let s₂ :=
        if s₁.mode = EMode.Instance then
          synchronize_unselected_instances G
            (if rot_axis_max = 2 then SyncRotationType.NONE else SyncRotationType.GENERAL) s₁
        else synchronize_unselected_volumes s₁
      s₂.set_bounding_boxes_dirty
    else
      let i := s₀.list.headD 0
      let volume := s₀.volAt i
      let center_local := (G.tbb_center volume).sub volume.volume_trafo.offset
      let center_local_new :=
        G.rot_apply ⟨0, 0, rot.z - volume.volume_trafo.rotation.z⟩ center_local
      let s₁ := setVolumeRotation s₀ i rot
      let s₂ := setVolumeOffset s₁ i
        (((s₁.volAt i).volume_trafo.offset.add center_local).sub center_local_new)
      s₂.set_bounding_boxes_dirty

/-- The volume written by the dominant-Z joint branch of
rotate_instance_step: the instance offset is revolved about the dragging
center through the Z-angle difference between the cached rotation and the
new rotation, and the instance rotation becomes the relative rotation added
to the cached rotation. -/
abbrev rotZWritten (G : GeometryOps) (θ : ℚ) (s : SelectionState) (k : Nat) : GLVolume :=
  ((s.volAt k).withInstanceOffset
    (s.dragging_center.add (G.rot_apply
      ⟨0, 0, G.rotation_diff_z (s.cacheAt k).m_instance.rotation
        ((⟨0, 0, θ⟩ : Vec3).add (s.cacheAt k).m_instance.rotation)⟩
      ((s.cacheAt k).m_instance.offset.sub s.dragging_center)))).withInstanceRotation
    ((⟨0, 0, θ⟩ : Vec3).add (s.cacheAt k).m_instance.rotation)

/-- Invariant of the rotate loop for a dominant Z axis: the running state
agrees with the start state on every field the per-step dispatch reads, and
every volume is either still untouched or already carries the dominant-Z
joint write. -/
abbrev RotZInv (G : GeometryOps) (θ : ℚ) (s u : SelectionState) : Prop :=
  u.type = s.type ∧ u.list = s.list ∧ u.mode = s.mode ∧ u.valid = s.valid ∧
  u.objects = s.objects ∧ u.content = s.content ∧
  u.volumes.length = s.volumes.length ∧
  u.cache_volumes_data = s.cache_volumes_data ∧
  u.dragging_center = s.dragging_center ∧
  ∀ k, u.volAt k = s.volAt k ∨ u.volAt k = rotZWritten G θ s k

/-- Modelled from the spec: the minimum Z of the transformed convex hull
bounding box of a volume (3DScene.cpp absent from src) decomposes as the
instance Z offset plus an offset-independent remainder carried by the
volume. -/
def tchb_min_z (v : GLVolume) : ℚ :=
  v.instance_trafo.offset.z + v.chull_rest_min_z

/-- Insert-or-min update of the InstancesToZMap of Selection::ensure_on_bed;
the DBL_MAX initial entry of the C++ code is immediately overwritten by
min(DBL_MAX, z) = z, so a fresh key maps directly to z. -/
def updateMinMap (m : List ((Int × Int) × ℚ)) (key : Int × Int) (z : ℚ) :
    List ((Int × Int) × ℚ) :=
  match m with
  | [] => [(key, z)]
  | (k, w) :: t => if k = key then (k, min w z) :: t else (k, w) :: updateMinMap t key z

/-- Selection::ensure_on_bed: drop every instance back onto the bed by
subtracting, per instance, the minimum transformed Z of its non-modifier,
non-wipe-tower volumes. -/
def ensure_on_bed (s : SelectionState) : SelectionState :=
  let instances_min_z := s.volumes.foldl (fun m v =>
    if !v.is_wipe_tower && !v.is_modifier then
      updateMinMap m (v.object_idx, v.instance_idx) (tchb_min_z v)
    else m) []
  { s with volumes := s.volumes.map (fun v =>
      match instances_min_z.lookup (v.object_idx, v.instance_idx) with
      | some mz => v.withInstanceOffset
          { v.instance_trafo.offset with z := v.instance_trafo.offset.z - mz }
      | none => v) }

/-- Selection::scale: direct scaling for a single full instance or single
volume/modifier, otherwise composition with the cached scale matrix.  The
cached scale matrices are diagonal (TransformCache builds them from the
scaling factors alone), so the column norms of the composed matrix are the
absolute values of the componentwise products.  The world-space non-uniform
branch transforms the factors through the transposed instance rotation
matrix and asserts a ninety-degree rotation. -/
def scale (G : GeometryOps) (scal : Vec3) (tt : TransformationType)
    (s : SelectionState) : SelectionState :=
  if !s.valid then s
  else
    let s₁ := s.list.foldl (fun t i =>
      let volume := t.volAt i
      if is_single_full_instance t then
        if tt.relative then
          let new_scale := (scal.cwiseMul (t.cacheAt i).m_instance.scaling_factor).cwiseAbs
          let t₁ :=
            if tt.joint then
              setInstanceOffset t i (t.dragging_center.add
                (scal.cwiseMul ((t.cacheAt i).m_instance.offset.sub t.dragging_center)))
            else t
          setInstanceScaling t₁ i new_scale
        else
          if tt.world ∧ (|scal.x - scal.y| > EPSILON ∨ |scal.x - scal.z| > EPSILON) then
            let t₁ := t.checkAssert (is_rotation_ninety_degrees volume.instance_trafo.rotation)
            setInstanceScaling t₁ i
              ((G.rot_t_apply volume.instance_trafo.rotation scal).cwiseAbs)
          else setInstanceScaling t i scal
      else if t.is_single_volume || t.is_single_modifier then
        setVolumeScaling t i scal
      else if t.mode = EMode.Instance then
        let new_scale := (scal.cwiseMul (t.cacheAt i).m_instance.scaling_factor).cwiseAbs
        let t₁ :=
          if tt.joint then
            setInstanceOffset t i (t.dragging_center.add
              (scal.cwiseMul ((t.cacheAt i).m_instance.offset.sub t.dragging_center)))
          else t
        setInstanceScaling t₁ i new_scale
      else
        let new_scale := (scal.cwiseMul (t.cacheAt i).m_volume.scaling_factor).cwiseAbs
        let t₁ :=
          if tt.joint then
            let offset := scal.cwiseMul
              (((t.cacheAt i).m_volume.offset.add (t.cacheAt i).m_instance.offset).sub
                t.dragging_center)
            setVolumeOffset t i
              ((t.dragging_center.sub (t.cacheAt i).m_instance.offset).add offset)
          else t
        setVolumeScaling t₁ i new_scale) s
    let s₂ :=
      if s₁.mode = EMode.Instance then
        synchronize_unselected_instances G SyncRotationType.NONE s₁
      else synchronize_unselected_volumes s₁
    (ensure_on_bed s₂).set_bounding_boxes_dirty

/-- Selection::mirror: flip the mirror factor on one axis, at instance
granularity for a single full instance or at volume granularity in Volume
mode.  The single-full-instance test is evaluated once, before the loop. -/
def mirror (G : GeometryOps) (axis : Axis) (s : SelectionState) : SelectionState :=
  if !s.valid then s
  else
    let single_full_instance := is_single_full_instance s
    let s₁ := s.list.foldl (fun t i =>
      if single_full_instance then
        setInstanceMirror t i ((t.volAt i).instance_trafo.mirror.setAxis axis
          (-(t.volAt i).instance_trafo.mirror.getAxis axis))
      else if t.mode = EMode.Volume then
        setVolumeMirror t i ((t.volAt i).volume_trafo.mirror.setAxis axis
          (-(t.volAt i).volume_trafo.mirror.getAxis axis))
      else t) s
    let s₂ :=
      if s₁.mode = EMode.Instance then
        synchronize_unselected_instances G SyncRotationType.NONE s₁
      else synchronize_unselected_volumes s₁
    s₂.set_bounding_boxes_dirty

/-- Coherence of the bounding-box memoization: a clean dirty flag means the
cached box agrees with a recomputation (every write path raises the flag,
every read path recomputes when it is raised, so reachable states satisfy
this). -/
def BBoxCoherent (f : GLVolume → BoundingBoxf3) (s : SelectionState) : Prop :=
  s.bounding_box_dirty = false → s.m_bounding_box = computeBoundingBox f s

/-- Log extension: the second state carries the log of the first plus some
suffix; every embedded operation only appends to the log. -/
def LogExt (a b : SelectionState) : Prop :=
  ∃ d, b.log = a.log ++ d

/-- The selection invariant of the specification: every index of m_list is
in range and a volume selected flag is raised exactly when its index is a
member of m_list. -/
def SelInv (s : SelectionState) : Prop :=
  (∀ i ∈ s.list, i < s.volumes.length) ∧
  (∀ i, i < s.volumes.length → (((s.volAt i).selected = true) ↔ i ∈ s.list))

/-- The sequence-of-operations alphabet of the membership Mutators named by
the invariant claim. -/
inductive SelOp where
  | add (volume_idx : Nat) (as_single_selection check_for_already_contained : Bool)
  | remove (volume_idx : Nat)
  | add_object (object_idx : Int) (as_single_selection : Bool)
  | add_instance (object_idx instance_idx : Int) (as_single_selection : Bool)
  | add_volume (object_idx volume_idx instance_idx : Int) (as_single_selection : Bool)
  | add_volumes (mode : EMode) (volume_idxs : List Nat) (as_single_selection : Bool)
  | remove_volumes (mode : EMode) (volume_idxs : List Nat)
  | clear
  | set_deserialized (mode : EMode) (volumes_and_instances : List (Nat × Nat))

/-- Interpretation of one Mutator of the alphabet. -/
def applySelOp (s : SelectionState) : SelOp → SelectionState
  | SelOp.add i b c => s.add i b c
  | SelOp.remove i => s.remove i
  | SelOp.add_object oi b => s.add_object oi b
  | SelOp.add_instance oi ii b => s.add_instance oi ii b
  | SelOp.add_volume oi vi ii b => s.add_volume oi vi ii b
  | SelOp.add_volumes m l b => s.add_volumes m l b
  | SelOp.remove_volumes m l => s.remove_volumes m l
  | SelOp.clear => s.clear
  | SelOp.set_deserialized m l => s.set_deserialized m l

/-- Predicate of the snapshot-ordering claim over one emitted event
segment: no membership mutation happens strictly before the first snapshot
request of the same call. -/
def mutationsPreceded : List Event → Bool
  | [] => true
  | Event.snapshot _ :: _ => true
  | Event.selInsert _ :: _ => false
  | Event.selErase _ :: _ => false
  | Event.assertViol :: rest => mutationsPreceded rest

/-- The membership Mutators of the snapshot-ordering claim that do route
through take_snapshot before mutating. -/
inductive SnapOp : Type
  | add (i : Nat) (b c : Bool)
  | remove (i : Nat)
  | add_object (oi : Int) (b : Bool)
  | remove_object (oi : Int)
  | add_instance (oi ii : Int) (b : Bool)
  | remove_instance (oi ii : Int)
  | add_all
  | remove_all

/-- Application of one snapshot-taking membership Mutator. -/
def applySnapOp (s : SelectionState) : SnapOp → SelectionState
  | SnapOp.add i b c => s.add i b c
  | SnapOp.remove i => s.remove i
  | SnapOp.add_object oi b => s.add_object oi b
  | SnapOp.remove_object oi => s.remove_object oi
  | SnapOp.add_instance oi ii b => s.add_instance oi ii b
  | SnapOp.remove_instance oi ii => s.remove_instance oi ii
  | SnapOp.add_all => s.add_all
  | SnapOp.remove_all => s.remove_all

/-- Mode and sorted stable-identifier list recorded for undo, modelled from
the spec: the serialized form of a selection is the pair of the mode and
the sorted list of the geometry ids of the selected volumes. -/
def recordIds (s : SelectionState) : List (Nat × Nat) :=
  (s.list.map (fun i => (s.volAt i).geometry_id)).insertionSort
    (fun a b => a.1 < b.1 ∨ (a.1 = b.1 ∧ a.2 ≤ b.2))

/-- Geometry ids are pairwise distinct across the volume list (one GLVolume
per model volume and instance). -/
def GeomIdsInjective (s : SelectionState) : Prop :=
  ∀ i, i < s.volumes.length → ∀ j, j < s.volumes.length →
    (s.volAt i).geometry_id = (s.volAt j).geometry_id → i = j

/-- Combination of an optional accumulated minimum with an optional list
minimum. -/
def optMin : Option ℚ → Option ℚ → Option ℚ
  | none, o => o
  | some w, none => some w
  | some w, some z => some (min w z)

/-- Minimum of a list of rationals, folded like the InstancesToZMap update
loop. -/
def listMinQ : List ℚ → Option ℚ
  | [] => none
  | z :: t => match listMinQ t with
    | none => some z
    | some w => some (min z w)

/-- The non-modifier, non-wipe-tower volumes of one instance, the volumes
over which ensure_on_bed computes the per-instance minimum. -/
def bedVols (s : SelectionState) (key : Int × Int) : List GLVolume :=
  s.volumes.filter (fun v =>
    (!v.is_wipe_tower && !v.is_modifier) && (v.object_idx, v.instance_idx) = key)

end SelectionState

/-! Concrete data used by the witnesses and counterexamples. -/

/-- A unit wipe-tower volume record. -/
def wipeVol : GLVolume :=
  { (default : GLVolume) with is_wipe_tower := true, object_idx := 1000, selected := true }

/-- A plain volume of object 0, instance k, volume 0, with geometry id
(7, 40 + k). -/
def plainVol (k : Int) : GLVolume :=
  { (default : GLVolume) with
      object_idx := 0, instance_idx := k, vol_idx := 0,
      geometry_id := (7, (40 + k).toNat) }

/-- A baseline valid state: empty selection over two plain volumes of a
one-volume, two-instance object. -/
def baseState : SelectionState :=
  { valid := true, mode := EMode.Instance, type := EType.Empty, list := [],
    volumes := [plainVol 0, plainVol 1], objects := [⟨1, 2⟩], content := [],
    cache_volumes_data := [], dragging_center := Vec3.zero,
    m_bounding_box := BoundingBoxf3.empty, bounding_box_dirty := true,
    snapshots_suppressed := false, log := [] }

/-- An invalid state (the document model is unbound) whose volume list is
still populated and whose selection is nonempty. -/
def invalidState : SelectionState :=
  { baseState with
      valid := false, list := [0],
      volumes := [{ plainVol 0 with selected := true }, plainVol 1] }

/-- A wipe-tower-only selection over a list that also holds one plain
volume: the selection size equals the non-wipe-tower count. -/
def wipeTowerState : SelectionState :=
  { baseState with
      type := EType.WipeTower, list := [0],
      volumes := [wipeVol, plainVol 0] }

/-- The base state with its first volume selected: a single-volume
selection over a one-volume, two-instance object. -/
def singleSelState : SelectionState :=
  { baseState with
      list := [0],
      volumes := [{ plainVol 0 with selected := true }, plainVol 1] }

/-- The base state with its first volume floated to instance Z offset 3 and
hull-bottom remainder 1, so that its instance sits at transformed minimum
Z = 4 before ensure_on_bed. -/
def bedState : SelectionState :=
  { baseState with
      volumes := [
        { plainVol 0 with
            instance_trafo := { (default : Transformation) with offset := ⟨0, 0, 3⟩ },
            chull_rest_min_z := 1 },
        plainVol 1] }

/-- A selected volume carrying a quarter-turn (90 degrees) instance
rotation about Z. -/
def c8Vol : GLVolume :=
  { plainVol 0 with
      selected := true,
      instance_trafo := { (default : Transformation) with rotation := ⟨0, 0, 1⟩ } }

/-- A single-full-instance selection whose selected volume is rotated a
quarter turn about Z. -/
def c8State : SelectionState :=
  { baseState with
      type := EType.SingleFullInstance, list := [0],
      volumes := [c8Vol, plainVol 1] }

/-- A two-instance object with its first instance fully selected and cached
transforms recorded: the rotate counterexample state. -/
def c2State : SelectionState :=
  { baseState with
      type := EType.SingleFullInstance, list := [0],
      volumes := [{ plainVol 0 with selected := true }, plainVol 1],
      cache_volumes_data := [(0, default), (1, default)] }

/-- A three-instance object with its first two instances selected and cached
transforms recorded: a multi-instance rotate witness state. -/
def c2StateM : SelectionState :=
  { baseState with
      type := EType.MultipleFullInstance, list := [0, 1],
      volumes := [{ plainVol 0 with selected := true },
        { plainVol 1 with selected := true }, plainVol 2],
      objects := [⟨1, 3⟩],
      cache_volumes_data := [(0, default), (1, default), (2, default)] }

/-- A trivial bounding-box function for witnesses. -/
def bboxZero : GLVolume → BoundingBoxf3 := fun _ => BoundingBoxf3.empty

/-- A concrete GeometryOps instantiation for witnesses and counterexamples:
the Z-angle difference is the difference of the Z Euler components (the
spec model of rotation_diff_z); the matrix actions are instantiated with
the identity action, which the parametric theorems never constrain. -/
def geomOpsId : GeometryOps :=
  { rot_apply := fun _ v => v, rot_t_apply := fun _ v => v,
    extract_euler_mul := fun a b => a.add b,
    rotation_diff_z := fun a b => b.z - a.z,
    inst_full_inv_apply := fun _ v => v, rsm_inv_apply := fun _ v => v,
    tbb_center := fun _ => Vec3.zero }

/-- Local-frame relative joint transformation type. -/
def ttLocalJoint : TransformationType := ⟨false, true, true⟩

/-- World-frame absolute independent transformation type. -/
def ttWorldAbs : TransformationType := ⟨true, false, false⟩

/-- Geometry ops whose transposed-rotation action realizes the quarter-turn
about Z: the transpose of Rz(90) maps (x, y, z) to (y, -x, z). -/
def geomOpsZQuarter : GeometryOps :=
  { geomOpsId with
      rot_t_apply := fun r v =>
        if r.x = 0 ∧ r.y = 0 ∧ r.z = 1 then ⟨v.y, -v.x, v.z⟩ else v }

/-! Basic lemmas about the list helpers. -/

theorem updateAt_length {α : Type} (f : α → α) (n : Nat) (l : List α) :
    (updateAt f n l).length = l.length := by
  induction l generalizing n with
  | nil => simp [updateAt]
  | cons v t ih =>
    cases n with
    | zero => rfl
    | succ m => simpa [updateAt] using ih m

theorem getElem?_updateAt {α : Type} (f : α → α) (n : Nat) (l : List α) (i : Nat) :
    (updateAt f n l)[i]? = if i = n then (l[i]?).map f else l[i]? := by
  induction l generalizing n i with
  | nil => simp [updateAt]
  | cons v t ih =>
    cases n with
    | zero =>
      cases i with
      | zero => simp [updateAt]
      | succ k => simp [updateAt]
    | succ m =>
      cases i with
      | zero => simp [updateAt]
      | succ k => simpa [updateAt] using ih m k

theorem mem_idxInsert (i j : Nat) (l : List Nat) :
    j ∈ idxInsert i l ↔ j = i ∨ j ∈ l := by
  induction l with
  | nil => simp [idxInsert]
  | cons k t ih =>
    unfold idxInsert
    split
    · simp only [List.mem_cons]
      try tauto
    · split
      · next h1 h2 =>
        subst h2
        simp only [List.mem_cons]
        try tauto
      · simp only [List.mem_cons, ih]
        try tauto

theorem idxInsert_sorted (i : Nat) (l : List Nat) (h : l.Sorted (· < ·)) :
    (idxInsert i l).Sorted (· < ·) := by
  induction l with
  | nil => simp [idxInsert]
  | cons k t ih =>
    rw [List.sorted_cons] at h
    by_cases h1 : i < k
    · simp only [idxInsert, if_pos h1, List.sorted_cons]
      refine ⟨?_, h⟩
      intro b hb
      rcases List.mem_cons.1 hb with rfl | hb
      · exact h1
      · exact h1.trans (h.1 b hb)
    · by_cases h2 : i = k
      · simpa [idxInsert, h1, h2, List.sorted_cons] using h
      · simp only [idxInsert, if_neg h1, if_neg h2, List.sorted_cons]
        refine ⟨?_, ih h.2⟩
        intro b hb
        rcases (mem_idxInsert i b t).1 hb with rfl | hb
        · omega
        · exact h.1 b hb

namespace SelectionState

/-! Projections of update_type: the classification pass rewrites only the
Content Map, the type, the mode and the disabled flags. -/

theorem update_type_list (s : SelectionState) : (update_type s).list = s.list := by
  simp [update_type]

theorem update_type_valid (s : SelectionState) : (update_type s).valid = s.valid := by
  simp [update_type]

theorem update_type_log (s : SelectionState) : (update_type s).log = s.log := by
  simp [update_type]

theorem update_type_objects (s : SelectionState) : (update_type s).objects = s.objects := by
  simp [update_type]

theorem update_type_cache (s : SelectionState) :
    (update_type s).cache_volumes_data = s.cache_volumes_data := by
  simp [update_type]

theorem update_type_suppressed (s : SelectionState) :
    (update_type s).snapshots_suppressed = s.snapshots_suppressed := by
  simp [update_type]

theorem update_type_volumes_length (s : SelectionState) :
    (update_type s).volumes.length = s.volumes.length := by
  simp [update_type]

theorem getD_map_proj {β : Type} (g : GLVolume → GLVolume) (p : GLVolume → β)
    (hg : ∀ v, p (g v) = p v) (l : List GLVolume) (i : Nat) :
    p ((l.map g).getD i default) = p (l.getD i default) := by
  induction l generalizing i with
  | nil => rfl
  | cons v t ih =>
    cases i with
    | zero => simpa using hg v
    | succ k => simpa using ih k

theorem update_type_volumes (s : SelectionState) :
    ∃ d : GLVolume → Bool,
      (update_type s).volumes = s.volumes.map (fun v => { v with disabled := d v }) :=
  ⟨_, rfl⟩

theorem update_type_selected (s : SelectionState) (i : Nat) :
    ((update_type s).volAt i).selected = (s.volAt i).selected := by
  obtain ⟨d, hd⟩ := update_type_volumes s
  unfold volAt
  rw [hd]
  exact getD_map_proj (fun v => { v with disabled := d v }) (fun v => v.selected)
    (fun v => rfl) s.volumes i

theorem update_type_idx_fields (s : SelectionState) (i : Nat) :
    ((update_type s).volAt i).object_idx = (s.volAt i).object_idx ∧
    ((update_type s).volAt i).instance_idx = (s.volAt i).instance_idx ∧
    ((update_type s).volAt i).vol_idx = (s.volAt i).vol_idx ∧
    ((update_type s).volAt i).is_wipe_tower = (s.volAt i).is_wipe_tower ∧
    ((update_type s).volAt i).is_modifier = (s.volAt i).is_modifier ∧
    ((update_type s).volAt i).geometry_id = (s.volAt i).geometry_id := by
  obtain ⟨d, hd⟩ := update_type_volumes s
  unfold volAt
  rw [hd]
  exact ⟨getD_map_proj (fun v => { v with disabled := d v }) (fun v => v.object_idx)
      (fun v => rfl) s.volumes i,
    getD_map_proj (fun v => { v with disabled := d v }) (fun v => v.instance_idx)
      (fun v => rfl) s.volumes i,
    getD_map_proj (fun v => { v with disabled := d v }) (fun v => v.vol_idx)
      (fun v => rfl) s.volumes i,
    getD_map_proj (fun v => { v with disabled := d v }) (fun v => v.is_wipe_tower)
      (fun v => rfl) s.volumes i,
    getD_map_proj (fun v => { v with disabled := d v }) (fun v => v.is_modifier)
      (fun v => rfl) s.volumes i,
    getD_map_proj (fun v => { v with disabled := d v }) (fun v => v.geometry_id)
      (fun v => rfl) s.volumes i⟩

theorem classifySingle_mode (s : SelectionState) (v : GLVolume) :
    (classifySingle s v).2.1 = s.mode ∨ (classifySingle s v).2.1 = EMode.Instance := by
  unfold classifySingle
  dsimp only
  split
  · exact Or.inl rfl
  · split
    · exact Or.inl rfl
    · split
      · exact Or.inr rfl
      · split
        · exact Or.inr rfl
        · exact Or.inl rfl

theorem classifyMultiple_mode (s : SelectionState) (c : List (Int × List Int)) :
    (classifyMultiple s c).2.1 = s.mode ∨ (classifyMultiple s c).2.1 = EMode.Instance := by
  unfold classifyMultiple
  dsimp only
  split
  · split
    · exact Or.inr rfl
    · split
      · split
        · exact Or.inr rfl
        · split
          · exact Or.inl rfl
          · split
            · exact Or.inl rfl
            · exact Or.inl rfl
      · split
        · exact Or.inr rfl
        · exact Or.inl rfl
  · split
    · exact Or.inr rfl
    · exact Or.inl rfl

theorem updClassify_mode (s : SelectionState) :
    (updClassify s).2.1 = s.mode ∨ (updClassify s).2.1 = EMode.Instance := by
  unfold updClassify
  split
  · left; rfl
  · split
    · left; rfl
    · exact classifySingle_mode s _
    · exact classifyMultiple_mode s _

theorem update_type_mode_eq (s : SelectionState) :
    (update_type s).mode = (updClassify s).2.1 := rfl

theorem update_type_mode (s : SelectionState) :
    (update_type s).mode = s.mode ∨ (update_type s).mode = EMode.Instance := by
  rw [update_type_mode_eq]
  exact updClassify_mode s

/-! Projections of the dirty-flag setter and the snapshot primitive. -/

theorem set_bounding_boxes_dirty_list (s : SelectionState) :
    s.set_bounding_boxes_dirty.list = s.list := rfl

theorem set_bounding_boxes_dirty_valid (s : SelectionState) :
    s.set_bounding_boxes_dirty.valid = s.valid := rfl

theorem take_snapshot_list (s : SelectionState) (lbl : String) :
    (s.take_snapshot lbl).list = s.list := by
  unfold take_snapshot; split <;> rfl

theorem take_snapshot_valid (s : SelectionState) (lbl : String) :
    (s.take_snapshot lbl).valid = s.valid := by
  unfold take_snapshot; split <;> rfl

/-! Projections of clear. -/

theorem setSelected_list (s : SelectionState) (i : Nat) (b : Bool) :
    (setSelected s i b).list = s.list := rfl

theorem setSelected_valid (s : SelectionState) (i : Nat) (b : Bool) :
    (setSelected s i b).valid = s.valid := rfl

theorem clearFlags_fold_list (s : SelectionState) (l : List Nat) :
    (l.foldl (fun t i =>
      { setSelected t i false with log := t.log ++ [Event.selErase i] }) s).list = s.list := by
  induction l generalizing s with
  | nil => rfl
  | cons i t ih => simpa [setSelected] using ih _

theorem clearFlags_fold_valid (s : SelectionState) (l : List Nat) :
    (l.foldl (fun t i =>
      { setSelected t i false with log := t.log ++ [Event.selErase i] }) s).valid = s.valid := by
  induction l generalizing s with
  | nil => rfl
  | cons i t ih => simpa [setSelected] using ih _

theorem clear_list (s : SelectionState) : (clear s).list = s.list ∨ (clear s).list = [] := by
  unfold clear
  split
  · left; rfl
  · split
    · left; rfl
    · right
      simp [set_bounding_boxes_dirty_list, update_type_list]

theorem clear_valid (s : SelectionState) : (clear s).valid = s.valid := by
  unfold clear
  split
  · rfl
  · split
    · rfl
    · simp [set_bounding_boxes_dirty_valid, update_type_valid, clearFlags_fold_valid]

theorem clear_of_invalid (s : SelectionState) (h : s.valid = false) : clear s = s := by
  simp [clear, h]

theorem clear_of_empty (s : SelectionState) (h : s.list = []) : clear s = s := by
  unfold clear
  split
  · rfl
  · simp [h]

theorem clear_list_of_nonempty (s : SelectionState) (hv : s.valid = true)
    (h : s.list ≠ []) : (clear s).list = [] := by
  unfold clear
  rw [hv]
  simp only [Bool.not_true, Bool.false_eq_true, if_false]
  rw [if_neg (by simpa [List.isEmpty_iff] using h)]
  simp [set_bounding_boxes_dirty_list, update_type_list]

/-! Log-extension lemmas: every embedded operation only appends events. -/

theorem logExt_refl (s : SelectionState) : LogExt s s :=
  ⟨[], (List.append_nil _).symm⟩

theorem logExt_trans {a b c : SelectionState} (h1 : LogExt a b) (h2 : LogExt b c) :
    LogExt a c := by
  obtain ⟨d1, hd1⟩ := h1
  obtain ⟨d2, hd2⟩ := h2
  exact ⟨d1 ++ d2, by rw [hd2, hd1, List.append_assoc]⟩

theorem mem_log_of_logExt {e : Event} {a b : SelectionState}
    (h : e ∈ a.log) (hx : LogExt a b) : e ∈ b.log := by
  obtain ⟨d, hd⟩ := hx
  rw [hd]
  exact List.mem_append_left _ h

theorem do_add_volume_log (s : SelectionState) (i : Nat) :
    (do_add_volume s i).log = s.log ∨
    (do_add_volume s i).log = s.log ++ [Event.selInsert i] := by
  unfold do_add_volume setSelected
  dsimp only
  split
  · left; rfl
  · right; rfl

theorem logExt_do_add_volume (s : SelectionState) (i : Nat) :
    LogExt s (do_add_volume s i) := by
  rcases do_add_volume_log s i with h | h
  · exact ⟨[], by rw [h, List.append_nil]⟩
  · exact ⟨[Event.selInsert i], h⟩

theorem logExt_foldl {β : Type} (body : SelectionState → β → SelectionState)
    (hb : ∀ t x, LogExt t (body t x)) (l : List β) (s : SelectionState) :
    LogExt s (l.foldl body s) := by
  induction l generalizing s with
  | nil => exact logExt_refl s
  | cons x t ih => exact logExt_trans (hb s x) (ih (body s x))

theorem logExt_update_type (s : SelectionState) : LogExt s (update_type s) :=
  ⟨[], by rw [update_type_log, List.append_nil]⟩

theorem logExt_set_dirty (s : SelectionState) : LogExt s s.set_bounding_boxes_dirty :=
  ⟨[], (List.append_nil _).symm⟩

theorem logExt_set_list (s : SelectionState) (l : List Nat) :
    LogExt s { s with list := l } :=
  ⟨[], (List.append_nil _).symm⟩

theorem mem_assert_checkAssert_false (s : SelectionState) (c2 : Bool) :
    Event.assertViol ∈ ((s.checkAssert false).checkAssert c2).log := by
  unfold checkAssert
  split <;> simp

theorem instances_changed_logExt (s : SelectionState) (ids : List Nat) :
    LogExt ((s.checkAssert s.valid).checkAssert (decide (s.mode = EMode.Instance)))
      (instances_changed s ids) := by
  unfold instances_changed
  dsimp only
  exact logExt_trans
    (logExt_trans (logExt_set_list _ _)
      (logExt_foldl _ (fun t x => by
        split
        · exact logExt_do_add_volume _ _
        · exact logExt_refl _) _ _))
    (logExt_trans (logExt_update_type _) (logExt_set_dirty _))

theorem volumes_changed_fold_log (vmap : List (Option Nat)) (l : List Nat)
    (p : SelectionState × List Nat) :
    ((l.foldl (fun (q : SelectionState × List Nat) i =>
      match vmap.getD i none with
      | some new_idx => (setSelected q.1 new_idx true, idxInsert new_idx q.2)
      | none => q) p).1).log = p.1.log := by
  induction l generalizing p with
  | nil => rfl
  | cons i t ih =>
    rw [List.foldl_cons, ih]
    rcases h : vmap.getD i none with _ | n <;> simp [h, setSelected]

theorem volumes_changed_logExt (s : SelectionState) (vmap : List (Option Nat)) :
    LogExt ((s.checkAssert s.valid).checkAssert (decide (s.mode = EMode.Volume)))
      (volumes_changed s vmap) := by
  unfold volumes_changed
  dsimp only
  refine ⟨[], ?_⟩
  rw [List.append_nil]
  have hd : ∀ x : SelectionState, x.set_bounding_boxes_dirty.log = x.log := fun _ => rfl
  rw [hd, update_type_log]
  exact volumes_changed_fold_log vmap _ _

/-! Bounding-box helper lemmas for the clear claim. -/

theorem computeBoundingBox_of_nil (f : GLVolume → BoundingBoxf3) (s : SelectionState)
    (h : s.list = []) : computeBoundingBox f s = BoundingBoxf3.empty := by
  unfold computeBoundingBox
  rw [h]
  split <;> rfl

theorem computeBoundingBox_of_invalid (f : GLVolume → BoundingBoxf3) (s : SelectionState)
    (h : s.valid = false) : computeBoundingBox f s = BoundingBoxf3.empty := by
  unfold computeBoundingBox
  rw [h]
  rfl

theorem clear_dirty_of_nonempty (s : SelectionState) (hv : s.valid = true)
    (h : s.list ≠ []) : (clear s).bounding_box_dirty = true := by
  unfold clear
  rw [hv]
  simp only [Bool.not_true, Bool.false_eq_true, if_false]
  rw [if_neg (by simpa [List.isEmpty_iff] using h)]
  rfl

theorem get_bounding_box_empty_aux (f : GLVolume → BoundingBoxf3) (s : SelectionState)
    (hc : BBoxCoherent f s) (h : s.valid = false ∨ s.list = []) :
    get_bounding_box f s = BoundingBoxf3.empty := by
  unfold get_bounding_box get_bounding_box_state
  have hend : computeBoundingBox f s = BoundingBoxf3.empty := by
    rcases h with h | h
    · exact computeBoundingBox_of_invalid f s h
    · exact computeBoundingBox_of_nil f s h
  by_cases hd : s.bounding_box_dirty = true
  · simp only [hd, if_true]
    exact hend
  · have hdf : s.bounding_box_dirty = false := by
      revert hd; cases s.bounding_box_dirty <;> simp
    simp only [hdf, Bool.false_eq_true, if_false]
    rw [hc hdf, hend]

/-! Generic lemmas about conditional do_add_volume folds: the pattern shared
by add_all, set_deserialized and instances_changed.  The condition reads
only selected-independent fields of the indexed volume. -/

theorem getD_updateAt {α : Type} [Inhabited α] (f : α → α) (k i : Nat) (l : List α)
    (hi : i < l.length) :
    (updateAt f k l).getD i default =
      if i = k then f (l.getD i default) else l.getD i default := by
  have hx : l[i]? = some l[i] := List.getElem?_eq_getElem hi
  rw [List.getD, List.getD, List.get?_eq_getElem?, List.get?_eq_getElem?, getElem?_updateAt]
  by_cases h : i = k
  · subst h
    simp [hx]
  · simp [h]

theorem setSelected_volAt (t : SelectionState) (k : Nat) (b : Bool) (i : Nat)
    (hi : i < t.volumes.length) :
    (setSelected t k b).volAt i =
      if i = k then { t.volAt i with selected := b } else t.volAt i := by
  unfold setSelected volAt
  exact getD_updateAt _ k i t.volumes hi

theorem do_add_volume_list (t : SelectionState) (k : Nat) :
    (do_add_volume t k).list = idxInsert k t.list := by
  unfold do_add_volume
  dsimp only
  split <;> rfl

theorem do_add_volume_volAt (t : SelectionState) (k i : Nat)
    (hi : i < t.volumes.length) :
    (do_add_volume t k).volAt i =
      if i = k then { t.volAt i with selected := true } else t.volAt i := by
  unfold do_add_volume volAt setSelected
  dsimp only
  split <;> exact getD_updateAt _ k i t.volumes hi

theorem do_add_volume_mode (t : SelectionState) (k : Nat) :
    (do_add_volume t k).mode = t.mode := by
  unfold do_add_volume setSelected
  dsimp only
  split <;> rfl

theorem do_add_volume_valid (t : SelectionState) (k : Nat) :
    (do_add_volume t k).valid = t.valid := by
  unfold do_add_volume setSelected
  dsimp only
  split <;> rfl

theorem do_add_volume_length (t : SelectionState) (k : Nat) :
    (do_add_volume t k).volumes.length = t.volumes.length := by
  unfold do_add_volume setSelected
  dsimp only
  split <;> exact updateAt_length _ _ _

theorem do_add_volume_objects (t : SelectionState) (k : Nat) :
    (do_add_volume t k).objects = t.objects := by
  unfold do_add_volume setSelected
  dsimp only
  split <;> rfl

theorem volAt_of_length_le (t : SelectionState) (i : Nat)
    (h : t.volumes.length ≤ i) : t.volAt i = default := by
  unfold volAt
  rw [List.getD_eq_default]
  exact h

theorem do_add_volume_volAt_proj {β : Type} (p : GLVolume → β)
    (hp : ∀ v b, p { v with selected := b } = p v) (t : SelectionState) (k i : Nat) :
    p ((do_add_volume t k).volAt i) = p (t.volAt i) := by
  by_cases hi : i < t.volumes.length
  · rw [do_add_volume_volAt t k i hi]
    by_cases h : i = k
    · rw [if_pos h]
      exact hp _ _
    · rw [if_neg h]
  · have h1 : (do_add_volume t k).volAt i = default := by
      apply volAt_of_length_le
      rw [do_add_volume_length]
      omega
    have h2 : t.volAt i = default := volAt_of_length_le t i (by omega)
    rw [h1, h2]

/-! The conditional insertion fold shared by add_all, set_deserialized and
instances_changed: membership, order and untouched fields of the result. -/

theorem condAddFold_volAt_proj {β : Type} (C : GLVolume → Bool) (p : GLVolume → β)
    (hp : ∀ v b, p { v with selected := b } = p v)
    (l : List Nat) (t : SelectionState) (i : Nat) :
    p ((l.foldl (fun u j => if C (u.volAt j) then do_add_volume u j else u) t).volAt i) =
      p (t.volAt i) := by
  induction l generalizing t with
  | nil => rfl
  | cons j l' ih =>
    rw [List.foldl_cons, ih]
    by_cases h : C (t.volAt j) = true
    · rw [if_pos h]
      exact do_add_volume_volAt_proj p hp t j i
    · rw [if_neg h]

theorem condAddFold_C (C : GLVolume → Bool)
    (hC : ∀ v b, C { v with selected := b } = C v)
    (l : List Nat) (t : SelectionState) (i : Nat) :
    C ((l.foldl (fun u j => if C (u.volAt j) then do_add_volume u j else u) t).volAt i) =
      C (t.volAt i) :=
  condAddFold_volAt_proj C C hC l t i

theorem condAddFold_mem (C : GLVolume → Bool)
    (hC : ∀ v b, C { v with selected := b } = C v)
    (l : List Nat) (t : SelectionState) (j : Nat) :
    (j ∈ (l.foldl (fun u i => if C (u.volAt i) then do_add_volume u i else u) t).list) ↔
      (j ∈ t.list ∨ (j ∈ l ∧ C (t.volAt j) = true)) := by
  induction l generalizing t with
  | nil => simp
  | cons i l' ih =>
    rw [List.foldl_cons]
    by_cases h : C (t.volAt i) = true
    · rw [if_pos h, ih]
      rw [do_add_volume_list]
      have hCj := do_add_volume_volAt_proj C (fun v b => hC v b) t i j
      rw [hCj, mem_idxInsert]
      constructor
      · rintro ((rfl | hm) | ⟨hm, hc⟩)
        · exact Or.inr ⟨List.mem_cons_self _ _, h⟩
        · exact Or.inl hm
        · exact Or.inr ⟨List.mem_cons_of_mem _ hm, hc⟩
      · rintro (hm | ⟨hm, hc⟩)
        · exact Or.inl (Or.inr hm)
        · rcases List.mem_cons.1 hm with rfl | hm
          · exact Or.inl (Or.inl rfl)
          · exact Or.inr ⟨hm, hc⟩
    · rw [if_neg h, ih]
      constructor
      · rintro (hm | ⟨hm, hc⟩)
        · exact Or.inl hm
        · exact Or.inr ⟨List.mem_cons_of_mem _ hm, hc⟩
      · rintro (hm | ⟨hm, hc⟩)
        · exact Or.inl hm
        · rcases List.mem_cons.1 hm with rfl | hm
          · exact absurd hc h
          · exact Or.inr ⟨hm, hc⟩

theorem condAddFold_sorted (C : GLVolume → Bool) (l : List Nat) (t : SelectionState)
    (hs : t.list.Sorted (· < ·)) :
    ((l.foldl (fun u i => if C (u.volAt i) then do_add_volume u i else u) t).list).Sorted
      (· < ·) := by
  induction l generalizing t with
  | nil => exact hs
  | cons i l' ih =>
    rw [List.foldl_cons]
    by_cases h : C (t.volAt i) = true
    · rw [if_pos h]
      apply ih
      rw [do_add_volume_list]
      exact idxInsert_sorted i t.list hs
    · rw [if_neg h]
      exact ih t hs

theorem condAddFold_mode (C : GLVolume → Bool) (l : List Nat) (t : SelectionState) :
    ((l.foldl (fun u i => if C (u.volAt i) then do_add_volume u i else u) t).mode) =
      t.mode := by
  induction l generalizing t with
  | nil => rfl
  | cons i l' ih =>
    rw [List.foldl_cons, ih]
    by_cases h : C (t.volAt i) = true
    · rw [if_pos h, do_add_volume_mode]
    · rw [if_neg h]

/-- Extensionality of strictly sorted index lists: equal membership means
equal lists. -/
theorem sorted_lt_ext (l₁ l₂ : List Nat) (h₁ : l₁.Sorted (· < ·)) (h₂ : l₂.Sorted (· < ·))
    (hm : ∀ x, x ∈ l₁ ↔ x ∈ l₂) : l₁ = l₂ := by
  induction l₁ generalizing l₂ with
  | nil =>
    cases l₂ with
    | nil => rfl
    | cons b t₂ => exact absurd ((hm b).2 (List.mem_cons_self _ _)) (List.not_mem_nil b)
  | cons a t₁ ih =>
    cases l₂ with
    | nil => exact absurd ((hm a).1 (List.mem_cons_self _ _)) (List.not_mem_nil a)
    | cons b t₂ =>
      rw [List.sorted_cons] at h₁ h₂
      have hab : a = b := by
        rcases List.mem_cons.1 ((hm a).1 (List.mem_cons_self _ _)) with h | h
        · exact h
        · rcases List.mem_cons.1 ((hm b).2 (List.mem_cons_self _ _)) with h' | h'
          · exact h'.symm
          · have := h₂.1 a h
            have := h₁.1 b h'
            omega
      subst hab
      have htails : ∀ x, x ∈ t₁ ↔ x ∈ t₂ := by
        intro x
        constructor
        · intro hx
          rcases List.mem_cons.1 ((hm x).1 (List.mem_cons_of_mem _ hx)) with h | h
          · subst h
            exact absurd (h₁.1 x hx) (lt_irrefl x)
          · exact h
        · intro hx
          rcases List.mem_cons.1 ((hm x).2 (List.mem_cons_of_mem _ hx)) with h | h
          · subst h
            exact absurd (h₂.1 x hx) (lt_irrefl x)
          · exact h
      rw [ih t₂ h₁.2 h₂.2 htails]

/-! Projections of take_snapshot and clear used by the claims. -/

theorem take_snapshot_volumes (s : SelectionState) (lbl : String) :
    (s.take_snapshot lbl).volumes = s.volumes := by
  unfold take_snapshot
  split <;> rfl

theorem take_snapshot_mode (s : SelectionState) (lbl : String) :
    (s.take_snapshot lbl).mode = s.mode := by
  unfold take_snapshot
  split <;> rfl

theorem setSelected_volAt_proj {β : Type} (p : GLVolume → β)
    (hp : ∀ v b, p { v with selected := b } = p v) (t : SelectionState) (k : Nat)
    (b : Bool) (i : Nat) : p ((setSelected t k b).volAt i) = p (t.volAt i) := by
  by_cases hi : i < t.volumes.length
  · rw [setSelected_volAt t k b i hi]
    by_cases h : i = k
    · rw [if_pos h]
      exact hp _ _
    · rw [if_neg h]
  · have h1 : (setSelected t k b).volAt i = default := by
      apply volAt_of_length_le
      show (updateAt _ _ _).length ≤ i
      rw [updateAt_length]
      omega
    have h2 : t.volAt i = default := volAt_of_length_le t i (by omega)
    rw [h1, h2]

theorem clearFlags_fold_volAt_proj {β : Type} (p : GLVolume → β)
    (hp : ∀ v b, p { v with selected := b } = p v) (l : List Nat) (t : SelectionState)
    (i : Nat) :
    p ((l.foldl (fun u j =>
      { setSelected u j false with log := u.log ++ [Event.selErase j] }) t).volAt i) =
      p (t.volAt i) := by
  induction l generalizing t with
  | nil => rfl
  | cons j l' ih =>
    rw [List.foldl_cons, ih]
    exact setSelected_volAt_proj p hp t j false i

theorem clearFlags_fold_mode (s : SelectionState) (l : List Nat) :
    (l.foldl (fun t i =>
      { setSelected t i false with log := t.log ++ [Event.selErase i] }) s).mode = s.mode := by
  induction l generalizing s with
  | nil => rfl
  | cons i t ih => simpa [setSelected] using ih _

theorem clearFlags_fold_length (s : SelectionState) (l : List Nat) :
    (l.foldl (fun t i =>
      { setSelected t i false with log := t.log ++ [Event.selErase i] }) s).volumes.length =
      s.volumes.length := by
  induction l generalizing s with
  | nil => rfl
  | cons i t ih =>
    rw [List.foldl_cons, ih]
    exact updateAt_length _ _ _

theorem update_type_volAt_proj {β : Type} (p : GLVolume → β)
    (hp : ∀ v b, p { v with disabled := b } = p v) (s : SelectionState) (i : Nat) :
    p ((update_type s).volAt i) = p (s.volAt i) := by
  obtain ⟨d, hd⟩ := update_type_volumes s
  unfold volAt
  rw [hd]
  exact getD_map_proj _ p (fun v => hp v (d v)) s.volumes i

theorem clear_volAt_proj {β : Type} (p : GLVolume → β)
    (hpsel : ∀ v b, p { v with selected := b } = p v)
    (hpdis : ∀ v b, p { v with disabled := b } = p v) (s : SelectionState) (i : Nat) :
    p ((clear s).volAt i) = p (s.volAt i) := by
  unfold clear
  split
  · rfl
  · split
    · rfl
    · dsimp only
      rw [show ∀ x : SelectionState, x.set_bounding_boxes_dirty.volAt i = x.volAt i
          from fun _ => rfl]
      rw [update_type_volAt_proj p hpdis]
      rw [show ∀ (x : SelectionState) (l : List Nat), SelectionState.volAt { x with list := l } i = x.volAt i
          from fun _ _ => rfl]
      exact clearFlags_fold_volAt_proj p hpsel s.list s i

theorem clear_length (s : SelectionState) : (clear s).volumes.length = s.volumes.length := by
  unfold clear
  split
  · rfl
  · split
    · rfl
    · dsimp only
      rw [show ∀ x : SelectionState, x.set_bounding_boxes_dirty.volumes = x.volumes
          from fun _ => rfl]
      rw [update_type_volumes_length]
      exact clearFlags_fold_length s s.list

theorem clear_mode_instance (s : SelectionState) (h : s.mode = EMode.Instance) :
    (clear s).mode = EMode.Instance := by
  unfold clear
  split
  · exact h
  · split
    · exact h
    · dsimp only
      rw [show ∀ x : SelectionState, x.set_bounding_boxes_dirty.mode = x.mode
          from fun _ => rfl]
      rcases update_type_mode ({ (s.list.foldl (fun t i =>
        { setSelected t i false with log := t.log ++ [Event.selErase i] }) s) with
          list := ([] : List Nat) }) with hm | hm
      · rw [hm]
        show (s.list.foldl _ s).mode = EMode.Instance
        rw [clearFlags_fold_mode]
        exact h
      · exact hm

/-- C5 (amended): every mutating operation that is guarded by the validity
test (add, remove, add_object, add_instance, add_volume, remove_all, clear,
set_deserialized, translate, rotate, scale, mirror) leaves the state
unchanged when the subsystem is not valid; the externally driven rebuilds
instances_changed and volumes_changed are not guarded — they only record a
debug-build assertion violation, and may still mutate the selection. -/
theorem C5_invalid_operations_noop (s : SelectionState) (h : s.valid = false)
    (G : GeometryOps) (i : Nat) (oi ii vi : Int) (b b2 : Bool) (m : EMode)
    (pairs : List (Nat × Nat)) (dsp rotv scal : Vec3) (tt : TransformationType)
    (ax : Axis) (ids : List Nat) (vmap : List (Option Nat)) (is_local : Bool) :
    s.add i b b2 = s ∧ s.remove i = s ∧ s.add_object oi b = s ∧
    s.add_instance oi ii b = s ∧ s.add_volume oi vi ii b = s ∧
    s.remove_all = s ∧ s.clear = s ∧ s.set_deserialized m pairs = s ∧
    translate G dsp is_local s = s ∧ rotate G rotv tt s = s ∧
    scale G scal tt s = s ∧ mirror G ax s = s ∧
    Event.assertViol ∈ (instances_changed s ids).log ∧
    Event.assertViol ∈ (volumes_changed s vmap).log := by
  refine ⟨?_, ?_, ?_, ?_, ?_, ?_, ?_, ?_, ?_, ?_, ?_, ?_, ?_, ?_⟩
  · simp [SelectionState.add, h]
  · simp [SelectionState.remove, h]
  · simp [SelectionState.add_object, h]
  · simp [SelectionState.add_instance, h]
  · simp [SelectionState.add_volume, h]
  · simp [SelectionState.remove_all, h]
  · simp [SelectionState.clear, h]
  · simp [SelectionState.set_deserialized, h]
  · simp [SelectionState.translate, h]
  · simp [SelectionState.rotate, h]
  · simp [SelectionState.scale, h]
  · simp [SelectionState.mirror, h]
  · have hx := instances_changed_logExt s ids
    rw [h] at hx
    exact mem_log_of_logExt (mem_assert_checkAssert_false s _) hx
  · have hx := volumes_changed_logExt s vmap
    rw [h] at hx
    exact mem_log_of_logExt (mem_assert_checkAssert_false s _) hx

/-- C5 counterexample: in a state whose document-model binding is gone
(valid = false) but whose volume list is still readable, instances_changed
empties the selection set — the state is mutated, refuting the claim that
instances_changed is a no-op on an invalid subsystem. -/
theorem C5_counterexample :
    invalidState.valid = false ∧
    instances_changed invalidState [] ≠ invalidState := by
  refine ⟨rfl, ?_⟩
  decide

/-- C5 witness: the no-op conclusions applied to a concrete invalid
state. -/
theorem C5_witness :
    invalidState.valid = false ∧ SelectionState.clear invalidState = invalidState :=
  ⟨rfl, (C5_invalid_operations_noop invalidState rfl geomOpsId 0 0 0 0 true true
    EMode.Volume [] Vec3.zero Vec3.zero Vec3.zero ttLocalJoint Axis.X [] []
    false).2.2.2.2.2.2.1⟩

/-- C9: clear is idempotent (a second clear finds an empty selection and
returns without touching anything), and get_bounding_box after clear
returns the default empty/zero box, assuming the bounding-box memoization
is coherent (clean flag implies cached value matches a recomputation). -/
theorem C9_clear_idempotent_empty_bbox (f : GLVolume → BoundingBoxf3)
    (s : SelectionState) (hc : BBoxCoherent f s) :
    clear (clear s) = clear s ∧
    get_bounding_box f (clear s) = BoundingBoxf3.empty := by
  constructor
  · by_cases hv : s.valid = true
    · by_cases hl : s.list = []
      · rw [clear_of_empty s hl]
        exact clear_of_empty s hl
      · exact clear_of_empty _ (clear_list_of_nonempty s hv hl)
    · have hv' : s.valid = false := by
        revert hv
        cases s.valid <;> simp
      rw [clear_of_invalid s hv']
      exact clear_of_invalid s hv'
  · by_cases hv : s.valid = true
    · by_cases hl : s.list = []
      · rw [clear_of_empty s hl]
        exact get_bounding_box_empty_aux f s hc (Or.inr hl)
      · have hd := clear_dirty_of_nonempty s hv hl
        have hls := clear_list_of_nonempty s hv hl
        unfold get_bounding_box get_bounding_box_state
        simp only [hd, if_true]
        exact computeBoundingBox_of_nil f _ hls
    · have hv' : s.valid = false := by
        revert hv
        cases s.valid <;> simp
      rw [clear_of_invalid s hv']
      exact get_bounding_box_empty_aux f s hc (Or.inl hv')

/-- C9 witness: idempotence and the empty box on a concrete dirty state. -/
theorem C9_witness :
    BBoxCoherent bboxZero baseState ∧
    (clear (clear baseState) = clear baseState ∧
      get_bounding_box bboxZero (clear baseState) = BoundingBoxf3.empty) :=
  ⟨fun hx => absurd hx (by decide),
    C9_clear_idempotent_empty_bbox bboxZero baseState (fun hx => absurd hx (by decide))⟩

theorem addAllFold_sorted (t : SelectionState) (l : List Nat)
    (hs : t.list.Sorted (· < ·)) :
    ((l.foldl (fun u i => if !(u.volAt i).is_wipe_tower then do_add_volume u i else u)
      t).list).Sorted (· < ·) :=
  condAddFold_sorted (fun v => !v.is_wipe_tower) l t hs

theorem addAllFold_mem (t : SelectionState) (l : List Nat) (j : Nat) :
    (j ∈ (l.foldl (fun u i => if !(u.volAt i).is_wipe_tower then do_add_volume u i else u)
        t).list) ↔
      (j ∈ t.list ∨ (j ∈ l ∧ (!(t.volAt j).is_wipe_tower) = true)) :=
  condAddFold_mem (fun v => !v.is_wipe_tower) (fun _ _ => rfl) l t j

theorem addAllFold_mode (t : SelectionState) (l : List Nat) :
    ((l.foldl (fun u i => if !(u.volAt i).is_wipe_tower then do_add_volume u i else u)
      t).mode) = t.mode :=
  condAddFold_mode (fun v => !v.is_wipe_tower) l t

/-- C10 (amended): when the selection size differs from the number of
non-wipe-tower volumes, add_all selects exactly the indices of the volumes
whose wipe-tower flag is false and forces Instance mode; when the sizes
agree the call is a complete no-op — even if, as with a selected wipe
tower, the selection is not actually the non-wipe-tower set. -/
theorem C10_add_all_spec (s : SelectionState) (hv : s.valid = true) :
    (s.list.length = nonWipeTowerCount s → add_all s = s) ∧
    (s.list.length ≠ nonWipeTowerCount s →
      (add_all s).list =
        (List.range s.volumes.length).filter (fun i => !(s.volAt i).is_wipe_tower) ∧
      (add_all s).mode = EMode.Instance) := by
  have hC : ∀ (v : GLVolume) (b : Bool),
      (fun v => !v.is_wipe_tower) { v with selected := b } =
        (fun v => !v.is_wipe_tower) v := fun _ _ => rfl
  constructor
  · intro h
    unfold add_all
    rw [hv]
    simp only [Bool.not_true, Bool.false_eq_true, if_false]
    rw [if_pos h]
  · intro h
    unfold add_all
    rw [hv]
    simp only [Bool.not_true, Bool.false_eq_true, if_false]
    rw [if_neg h]
    set x : SelectionState :=
      { take_snapshot s "Selection-Add All" with mode := EMode.Instance } with hxdef
    set s₂ : SelectionState := clear x with hs2def
    set s₃ : SelectionState := (List.range s₂.volumes.length).foldl
      (fun t i => if !(t.volAt i).is_wipe_tower then do_add_volume t i else t) s₂ with hs3def
    have hxvalid : x.valid = true := by
      rw [hxdef]
      show (take_snapshot s _).valid = true
      rw [take_snapshot_valid]
      exact hv
    have hxvolAt : ∀ j, x.volAt j = s.volAt j := by
      intro j
      rw [hxdef]
      show (take_snapshot s _).volAt j = s.volAt j
      unfold volAt
      rw [take_snapshot_volumes]
    have hs2list : s₂.list = [] := by
      rw [hs2def]
      by_cases hxl : x.list = []
      · rw [clear_of_empty x hxl]
        exact hxl
      · exact clear_list_of_nonempty x hxvalid hxl
    have hs2len : s₂.volumes.length = s.volumes.length := by
      rw [hs2def, clear_length, hxdef]
      show (take_snapshot s _).volumes.length = _
      rw [take_snapshot_volumes]
    have hs2C : ∀ j, (s₂.volAt j).is_wipe_tower = (s.volAt j).is_wipe_tower := by
      intro j
      rw [hs2def]
      have h1 := clear_volAt_proj (fun v => v.is_wipe_tower) (fun _ _ => rfl)
        (fun _ _ => rfl) x j
      rw [show ((fun (v : GLVolume) => v.is_wipe_tower) ((clear x).volAt j) =
          (fun (v : GLVolume) => v.is_wipe_tower) (x.volAt j)) =
          (((clear x).volAt j).is_wipe_tower = (x.volAt j).is_wipe_tower) from rfl] at h1
      rw [h1, hxvolAt j]
    have hlist : s₃.list =
        (List.range s.volumes.length).filter (fun i => !(s.volAt i).is_wipe_tower) := by
      apply sorted_lt_ext
      · rw [hs3def]
        exact addAllFold_sorted s₂ _ (by rw [hs2list]; exact List.sorted_nil)
      · exact (List.pairwise_lt_range _).filter _
      · intro j
        rw [hs3def, addAllFold_mem, hs2list]
        simp only [List.not_mem_nil, false_or, List.mem_filter, List.mem_range, hs2len]
        rw [show (!(s₂.volAt j).is_wipe_tower) = (!(s.volAt j).is_wipe_tower) by rw [hs2C j]]
    have hmode : s₃.mode = EMode.Instance := by
      rw [hs3def, addAllFold_mode, hs2def]
      apply clear_mode_instance
      rfl
    constructor
    · show (update_type s₃).set_bounding_boxes_dirty.list = _
      rw [set_bounding_boxes_dirty_list, update_type_list]
      exact hlist
    · show (update_type s₃).set_bounding_boxes_dirty.mode = _
      rw [show (update_type s₃).set_bounding_boxes_dirty.mode = (update_type s₃).mode
          from rfl]
      rcases update_type_mode s₃ with hm | hm
      · rw [hm]
        exact hmode
      · exact hm

/-- C10 counterexample: with the wipe tower alone selected next to one
plain volume, the selection size (1) equals the non-wipe-tower count (1),
so add_all returns without doing anything and the selection is not the set
of non-wipe-tower indices the claim promises for every valid state. -/
theorem C10_counterexample :
    wipeTowerState.valid = true ∧
    add_all wipeTowerState = wipeTowerState ∧
    (add_all wipeTowerState).list ≠
      (List.range wipeTowerState.volumes.length).filter
        (fun i => !(wipeTowerState.volAt i).is_wipe_tower) := by
  refine ⟨rfl, by decide, by decide⟩

/-- C10 witness: the amended statement applied to the base state, where the
sizes differ and add_all selects both plain volumes. -/
theorem C10_witness :
    baseState.valid = true ∧
    (baseState.list.length ≠ nonWipeTowerCount baseState ∧
      (add_all baseState).list =
        (List.range baseState.volumes.length).filter
          (fun i => !(baseState.volAt i).is_wipe_tower) ∧
      (add_all baseState).mode = EMode.Instance) :=
  ⟨rfl, by decide, (C10_add_all_spec baseState rfl).2 (by decide)⟩

theorem rebuildContent_single (s : SelectionState) (i : Nat) (hl : s.list = [i]) :
    rebuildContent s = [((s.volAt i).object_idx, [(s.volAt i).instance_idx])] := by
  unfold rebuildContent
  rw [hl]
  rfl

theorem getD_map_of_lt (g : GLVolume → GLVolume) (l : List GLVolume) (j : Nat)
    (h : j < l.length) : (l.map g).getD j default = g (l.getD j default) := by
  have hx : l[j]? = some l[j] := List.getElem?_eq_getElem h
  rw [List.getD, List.getD, List.get?_eq_getElem?, List.get?_eq_getElem?,
    List.getElem?_map, hx]
  rfl

theorem update_type_type_eq (s : SelectionState) :
    (update_type s).type = (updClassify s).1 := rfl

theorem update_type_disabled (s : SelectionState) (j : Nat) (hj : j < s.volumes.length) :
    ((update_type s).volAt j).disabled =
      (if (updClassify s).2.2 then
        decide ((s.volAt j).object_idx ≠ contentObjIdx (rebuildContent s) ∨
          (s.volAt j).instance_idx ≠ contentInstIdx (rebuildContent s))
       else false) := by
  show ((update_type s).volumes.getD j default).disabled = _
  rw [show (update_type s).volumes = s.volumes.map (fun v =>
      { v with disabled :=
          if (updClassify s).2.2 then
            decide (v.object_idx ≠ contentObjIdx (rebuildContent s) ∨
              v.instance_idx ≠ contentInstIdx (rebuildContent s))
          else false }) from rfl]
  rw [getD_map_of_lt _ _ _ hj]
  rfl

theorem updClassify_single (s : SelectionState) (i : Nat)
    (hv : s.valid = true) (hl : s.list = [i]) :
    updClassify s = classifySingle s (s.volAt i) := by
  unfold updClassify
  rw [hv, hl]
  rfl


theorem classifySingle_spec (s : SelectionState) (v : GLVolume)
    (hic : 1 ≤ (s.objAt v.object_idx).instances_count) :
    (classifySingle s v).1 =
      (if v.is_wipe_tower then EType.WipeTower
       else if v.is_modifier then EType.SingleModifier
       else if (s.objAt v.object_idx).volumes_count *
           (s.objAt v.object_idx).instances_count = 1 then EType.SingleFullObject
       else if (s.objAt v.object_idx).volumes_count = 1 ∧
           1 < (s.objAt v.object_idx).instances_count then EType.SingleFullInstance
       else EType.SingleVolume) ∧
    (classifySingle s v).2.1 =
      (if ¬v.is_wipe_tower = true ∧ ¬v.is_modifier = true ∧
          ((s.objAt v.object_idx).volumes_count *
            (s.objAt v.object_idx).instances_count = 1 ∨
           ((s.objAt v.object_idx).volumes_count = 1 ∧
            1 < (s.objAt v.object_idx).instances_count)) then EMode.Instance
       else s.mode) ∧
    ((classifySingle s v).2.2 = true ↔
      ((¬v.is_wipe_tower = true ∧ v.is_modifier = true) ∨
       (¬v.is_wipe_tower = true ∧ ¬v.is_modifier = true ∧
        ¬((s.objAt v.object_idx).volumes_count *
          (s.objAt v.object_idx).instances_count = 1) ∧
        ¬((s.objAt v.object_idx).volumes_count = 1 ∧
          1 < (s.objAt v.object_idx).instances_count)))) := by
  unfold classifySingle
  dsimp only
  by_cases hw : v.is_wipe_tower = true
  · simp [hw]
  · by_cases hm : v.is_modifier = true
    · simp [hw, hm]
    · by_cases h1 : (s.objAt v.object_idx).volumes_count *
          (s.objAt v.object_idx).instances_count = 1
      · simp [hw, hm, h1]
      · by_cases h2 : (s.objAt v.object_idx).volumes_count = 1
        · have h2' : (s.objAt v.object_idx).volumes_count = 1 ∧
              1 < (s.objAt v.object_idx).instances_count := by
            refine ⟨h2, ?_⟩
            rcases Nat.lt_or_ge 1 (s.objAt v.object_idx).instances_count with h | h
            · exact h
            · exfalso
              apply h1
              rw [h2, Nat.one_mul]
              omega
          have hne : (s.objAt v.object_idx).instances_count ≠ 1 := by omega
          simp [hw, hm, h1, h2, h2', hne]
        · have h2' : ¬((s.objAt v.object_idx).volumes_count = 1 ∧
              1 < (s.objAt v.object_idx).instances_count) := fun hx => h2 hx.1
          simp [hw, hm, h1, h2, h2']

/-- C4: for every valid state whose selection holds exactly one in-range
volume index, update_type classifies as the claim describes: WipeTower for
the wipe-tower proxy; SingleModifier with disable-others forced for a
modifier; SingleFullObject with mode forced to Instance when the owning
object has volumes x instances = 1; SingleFullInstance with mode forced to
Instance when volumes = 1 (and hence more than one instance); and
SingleVolume with disable-others forced in every remaining case, the
disabled flag of every volume being raised exactly when it lies outside
the selected object and instance.  The owning object of a rendered volume
has at least one instance. -/
theorem C4_update_type_single (s : SelectionState) (i : Nat)
    (hv : s.valid = true) (hl : s.list = [i]) (_hi : i < s.volumes.length)
    (hic : 1 ≤ (s.objAt (s.volAt i).object_idx).instances_count) :
    ((update_type s).type =
      (if (s.volAt i).is_wipe_tower then EType.WipeTower
       else if (s.volAt i).is_modifier then EType.SingleModifier
       else if (s.objAt (s.volAt i).object_idx).volumes_count *
           (s.objAt (s.volAt i).object_idx).instances_count = 1 then EType.SingleFullObject
       else if (s.objAt (s.volAt i).object_idx).volumes_count = 1 ∧
           1 < (s.objAt (s.volAt i).object_idx).instances_count then
         EType.SingleFullInstance
       else EType.SingleVolume)) ∧
    ((update_type s).mode =
      (if ¬(s.volAt i).is_wipe_tower = true ∧ ¬(s.volAt i).is_modifier = true ∧
          ((s.objAt (s.volAt i).object_idx).volumes_count *
            (s.objAt (s.volAt i).object_idx).instances_count = 1 ∨
           ((s.objAt (s.volAt i).object_idx).volumes_count = 1 ∧
            1 < (s.objAt (s.volAt i).object_idx).instances_count)) then EMode.Instance
       else s.mode)) ∧
    (∀ j, j < s.volumes.length →
      ((update_type s).volAt j).disabled =
        (if (¬(s.volAt i).is_wipe_tower = true ∧ (s.volAt i).is_modifier = true) ∨
            (¬(s.volAt i).is_wipe_tower = true ∧ ¬(s.volAt i).is_modifier = true ∧
             ¬((s.objAt (s.volAt i).object_idx).volumes_count *
               (s.objAt (s.volAt i).object_idx).instances_count = 1) ∧
             ¬((s.objAt (s.volAt i).object_idx).volumes_count = 1 ∧
               1 < (s.objAt (s.volAt i).object_idx).instances_count)) then
          decide ((s.volAt j).object_idx ≠ (s.volAt i).object_idx ∨
            (s.volAt j).instance_idx ≠ (s.volAt i).instance_idx)
         else false)) := by
  obtain ⟨ht, hmo, hdis⟩ := classifySingle_spec s (s.volAt i) hic
  refine ⟨?_, ?_, ?_⟩
  · rw [update_type_type_eq, updClassify_single s i hv hl]
    exact ht
  · rw [update_type_mode_eq, updClassify_single s i hv hl]
    exact hmo
  · intro j hj
    rw [update_type_disabled s j hj, updClassify_single s i hv hl]
    rw [rebuildContent_single s i hl]
    rw [show contentObjIdx [((s.volAt i).object_idx, [(s.volAt i).instance_idx])] =
      (s.volAt i).object_idx from rfl]
    rw [show contentInstIdx [((s.volAt i).object_idx, [(s.volAt i).instance_idx])] =
      (s.volAt i).instance_idx from rfl]
    simp only [hdis]

/-- C4 witness: the single selected volume of a one-volume, two-instance
object classifies as SingleFullInstance. -/
theorem C4_witness :
    singleSelState.valid = true ∧ singleSelState.list = [0] ∧
    0 < singleSelState.volumes.length ∧
    1 ≤ (singleSelState.objAt (singleSelState.volAt 0).object_idx).instances_count ∧
    (update_type singleSelState).type = EType.SingleFullInstance :=
  ⟨rfl, rfl, by decide, by decide, by
    have hc := C4_update_type_single singleSelState 0 rfl rfl (by decide) (by decide)
    rw [hc.1]
    decide⟩

/-! Preservation of the selection invariant by every Mutator of the claim
alphabet. -/

theorem selInv_congr (s t : SelectionState) (hl : t.list = s.list)
    (hv : t.volumes = s.volumes) (h : SelInv s) : SelInv t := by
  unfold SelInv volAt at *
  rw [hl, hv]
  exact h

theorem selInv_do_add_volume (s : SelectionState) (i : Nat)
    (hi : i < s.volumes.length) (h : SelInv s) : SelInv (do_add_volume s i) := by
  obtain ⟨hb, hs⟩ := h
  constructor
  · intro j hj
    rw [do_add_volume_list, mem_idxInsert] at hj
    rw [do_add_volume_length]
    rcases hj with rfl | hj
    · exact hi
    · exact hb j hj
  · intro j hj
    rw [do_add_volume_length] at hj
    rw [do_add_volume_volAt s i j hj, do_add_volume_list, mem_idxInsert]
    by_cases hji : j = i
    · subst hji
      simp
    · rw [if_neg hji]
      rw [hs j hj]
      constructor
      · exact Or.inr
      · rintro (rfl | hj')
        · exact absurd rfl hji
        · exact hj'

theorem do_remove_volume_length (t : SelectionState) (k : Nat) :
    (do_remove_volume t k).volumes.length = t.volumes.length := by
  unfold do_remove_volume setSelected
  dsimp only
  split
  · exact updateAt_length _ _ _
  · rfl

theorem do_remove_volume_volAt (t : SelectionState) (k i : Nat)
    (hi : i < t.volumes.length) :
    (do_remove_volume t k).volAt i =
      (if t.list.contains k then
        (if i = k then { t.volAt i with selected := false } else t.volAt i)
       else t.volAt i) := by
  unfold do_remove_volume setSelected volAt
  dsimp only
  split
  · exact getD_updateAt _ k i t.volumes hi
  · rfl

theorem do_remove_volume_list (t : SelectionState) (k : Nat) :
    (do_remove_volume t k).list =
      (if t.list.contains k then t.list.filter (fun j => j ≠ k) else t.list) := by
  unfold do_remove_volume setSelected
  dsimp only
  split
  · rfl
  · rfl

theorem selInv_do_remove_volume (s : SelectionState) (i : Nat) (h : SelInv s) :
    SelInv (do_remove_volume s i) := by
  obtain ⟨hb, hs⟩ := h
  by_cases hc : s.list.contains i
  · constructor
    · intro j hj
      rw [do_remove_volume_list, if_pos hc, List.mem_filter] at hj
      rw [do_remove_volume_length]
      exact hb j hj.1
    · intro j hj
      rw [do_remove_volume_length] at hj
      rw [do_remove_volume_volAt s i j hj, do_remove_volume_list, if_pos hc, if_pos hc,
        List.mem_filter]
      by_cases hji : j = i
      · subst hji
        simp
      · rw [if_neg hji, hs j hj]
        constructor
        · intro hm
          exact ⟨hm, by simpa using hji⟩
        · intro hm
          exact hm.1
  · constructor
    · intro j hj
      rw [do_remove_volume_list, if_neg hc] at hj
      rw [do_remove_volume_length]
      exact hb j hj
    · intro j hj
      rw [do_remove_volume_length] at hj
      rw [do_remove_volume_volAt s i j hj, do_remove_volume_list, if_neg hc, if_neg hc]
      exact hs j hj

theorem selInv_update_type (s : SelectionState) (h : SelInv s) : SelInv (update_type s) := by
  obtain ⟨hb, hs⟩ := h
  constructor
  · intro j hj
    rw [update_type_list] at hj
    rw [update_type_volumes_length]
    exact hb j hj
  · intro j hj
    rw [update_type_volumes_length] at hj
    rw [update_type_selected, update_type_list]
    exact hs j hj

theorem selInv_set_dirty (s : SelectionState) (h : SelInv s) :
    SelInv s.set_bounding_boxes_dirty :=
  selInv_congr s _ rfl rfl h

theorem selInv_take_snapshot (s : SelectionState) (lbl : String) (h : SelInv s) :
    SelInv (s.take_snapshot lbl) :=
  selInv_congr s _ (take_snapshot_list s lbl) (take_snapshot_volumes s lbl) h

theorem clearFlags_fold_selected (l : List Nat) (t : SelectionState) (j : Nat)
    (hj : j < t.volumes.length) :
    ((l.foldl (fun u k =>
      { setSelected u k false with log := u.log ++ [Event.selErase k] }) t).volAt j).selected =
      (if j ∈ l then false else (t.volAt j).selected) := by
  induction l generalizing t with
  | nil => simp
  | cons k l' ih =>
    rw [List.foldl_cons]
    have hlen : ({ setSelected t k false with
        log := t.log ++ [Event.selErase k] } : SelectionState).volumes.length =
        t.volumes.length := updateAt_length _ _ _
    rw [ih _ (by rw [hlen]; exact hj)]
    have hsel : ({ setSelected t k false with
        log := t.log ++ [Event.selErase k] } : SelectionState).volAt j =
        (setSelected t k false).volAt j := rfl
    rw [hsel, setSelected_volAt t k false j hj]
    by_cases hjk : j = k
    · subst hjk
      by_cases hjl : j ∈ l' <;> simp [hjl]
    · by_cases hjl : j ∈ l' <;> simp [hjl, hjk]

theorem selInv_clear (s : SelectionState) (h : SelInv s) : SelInv (clear s) := by
  unfold clear
  split
  · exact h
  · split
    · exact h
    · next hne =>
      dsimp only
      apply selInv_set_dirty
      apply selInv_update_type
      constructor
      · intro j hj
        exact absurd hj (List.not_mem_nil j)
      · intro j hj
        have hlen : (s.list.foldl (fun u k =>
            { setSelected u k false with log := u.log ++ [Event.selErase k] })
              s).volumes.length = s.volumes.length := clearFlags_fold_length s s.list
        rw [show ({ (s.list.foldl (fun u k =>
            { setSelected u k false with log := u.log ++ [Event.selErase k] }) s) with
              list := ([] : List Nat) } : SelectionState).volAt j =
            (s.list.foldl (fun u k =>
              { setSelected u k false with log := u.log ++ [Event.selErase k] }) s).volAt j
          from rfl]
        rw [clearFlags_fold_selected s.list s j (by rw [hlen] at hj; exact hj)]
        constructor
        · intro hx
          by_cases hm : j ∈ s.list
          · rw [if_pos hm] at hx
            exact absurd hx (by simp)
          · rw [if_neg hm] at hx
            rw [hlen] at hj
            rw [(h.2 j hj)] at hx
            exact absurd hx hm
        · intro hx
          exact absurd hx (List.not_mem_nil j)

theorem selInv_foldl {β : Type} (body : SelectionState → β → SelectionState)
    (P : SelectionState → Prop) (l : List β)
    (hb : ∀ t x, x ∈ l → P t → P (body t x)) :
    ∀ t, P t → P (l.foldl body t) := by
  induction l with
  | nil => intro t h; exact h
  | cons x l' ih =>
    intro t h
    rw [List.foldl_cons]
    exact ih (fun u y hy hu => hb u y (List.mem_cons_of_mem _ hy) hu)
      _ (hb t x (List.mem_cons_self _ _) h)

theorem selInv_ite (c : Prop) [Decidable c] (a b : SelectionState) (ha : SelInv a)
    (hb : SelInv b) : SelInv (if c then a else b) := by
  split
  · exact ha
  · exact hb

theorem selInv_set_mode (x : SelectionState) (m : EMode) (h : SelInv x) :
    SelInv { x with mode := m } :=
  selInv_congr x _ rfl rfl h

theorem selInv_set_suppressed (x : SelectionState) (b : Bool) (h : SelInv x) :
    SelInv { x with snapshots_suppressed := b } :=
  selInv_congr x _ rfl rfl h

theorem selInv_do_add_volumes (t : SelectionState) (idxs : List Nat) (h : SelInv t) :
    SelInv (do_add_volumes t idxs) := by
  unfold do_add_volumes
  refine selInv_foldl _ SelInv idxs (fun u x _ hu => ?_) t h
  split
  · next hlt => exact selInv_do_add_volume u x hlt hu
  · exact hu

theorem selInv_do_remove_instance (t : SelectionState) (oi ii : Int) (h : SelInv t) :
    SelInv (do_remove_instance t oi ii) := by
  unfold do_remove_instance
  refine selInv_foldl _ SelInv _ (fun u x _ hu => ?_) t h
  split
  · exact selInv_do_remove_volume u x hu
  · exact hu

theorem selInv_do_remove_object (t : SelectionState) (oi : Int) (h : SelInv t) :
    SelInv (do_remove_object t oi) := by
  unfold do_remove_object
  refine selInv_foldl _ SelInv _ (fun u x _ hu => ?_) t h
  split
  · exact selInv_do_remove_volume u x hu
  · exact hu

theorem length_ite {n : Nat} (c : Prop) [Decidable c] (a b : SelectionState)
    (ha : a.volumes.length = n) (hb : b.volumes.length = n) :
    (if c then a else b).volumes.length = n := by
  split
  · exact ha
  · exact hb

theorem length_take_snapshot (s : SelectionState) (lbl : String) :
    (s.take_snapshot lbl).volumes.length = s.volumes.length := by
  rw [take_snapshot_volumes]

theorem selInv_condAddFold_range (C : GLVolume → Bool) (n : Nat) (t : SelectionState)
    (hn : t.volumes.length = n) (h : SelInv t) :
    SelInv ((List.range n).foldl
      (fun u i => if C (u.volAt i) then do_add_volume u i else u) t) :=
  (selInv_foldl (fun u i => if C (u.volAt i) then do_add_volume u i else u)
    (fun u => SelInv u ∧ u.volumes.length = n) (List.range n)
    (fun u x hx hu => by
      obtain ⟨hu1, hu2⟩ := hu
      dsimp only
      split
      · exact ⟨selInv_do_add_volume u x (by rw [hu2]; exact List.mem_range.1 hx) hu1,
          by rw [do_add_volume_length]; exact hu2⟩
      · exact ⟨hu1, hu2⟩) t ⟨h, hn⟩).1

/-! The invariant through every public Mutator of the claim alphabet. -/

theorem selInv_add_instance (s : SelectionState) (oi ii : Int) (b : Bool)
    (h : SelInv s) : SelInv (s.add_instance oi ii b) := by
  unfold add_instance
  by_cases hv : (!s.valid) = true
  · rw [if_pos hv]
    exact h
  · rw [if_neg hv]
    dsimp only
    by_cases hg : (!b && s.contains_all_volumes (s.get_volume_idxs_from_instance oi ii) ||
        b && s.selMatches (s.get_volume_idxs_from_instance oi ii)) = true
    · rw [if_pos hg]
      exact h
    · rw [if_neg hg]
      apply selInv_set_dirty
      apply selInv_update_type
      apply selInv_do_add_volumes
      apply selInv_set_mode
      apply selInv_ite
      · exact selInv_clear _ (selInv_take_snapshot s _ h)
      · exact selInv_take_snapshot s _ h

theorem updClassify_mode_of_nil (y : SelectionState) (hy : y.list = []) :
    (updClassify y).2.1 = y.mode := by
  unfold updClassify
  split
  · rfl
  · rw [hy]

theorem clear_mode (x : SelectionState) : (clear x).mode = x.mode := by
  unfold clear
  split
  · rfl
  · split
    · rfl
    · dsimp only
      rw [show ∀ y : SelectionState, y.set_bounding_boxes_dirty.mode = y.mode
          from fun _ => rfl]
      rw [update_type_mode_eq]
      rw [updClassify_mode_of_nil _ rfl]
      show (x.list.foldl (fun t i =>
        { setSelected t i false with log := t.log ++ [Event.selErase i] }) x).mode = x.mode
      rw [clearFlags_fold_mode]

theorem selInv_instance_wrap (t : SelectionState) (oi ii : Int) (b sup : Bool)
    (h : SelInv t) :
    SelInv { add_instance { t with snapshots_suppressed := true } oi ii b with
      snapshots_suppressed := sup } :=
  selInv_set_suppressed _ sup (selInv_add_instance _ oi ii b (selInv_set_suppressed t true h))

theorem selInv_add (s : SelectionState) (i : Nat) (b c : Bool) (h : SelInv s) :
    SelInv (s.add i b c) := by
  unfold add
  by_cases hguard : (!s.valid || decide (s.volumes.length ≤ i)) = true
  · rw [if_pos hguard]
    exact h
  · rw [if_neg hguard]
    have hlt : i < s.volumes.length := by
      by_cases hx : s.volumes.length ≤ i
      · exfalso
        apply hguard
        simp [hx]
      · omega
    dsimp only
    by_cases hw : (s.is_wipe_tower && (s.volAt i).is_wipe_tower) = true
    · rw [if_pos hw]
      exact h
    · rw [if_neg hw]
      by_cases hm : (!(c && s.contains_volume i) ||
          (b && !(c && s.contains_volume i) || (s.volAt i).is_wipe_tower ||
           s.is_wipe_tower && !(s.volAt i).is_wipe_tower ||
           b && !s.is_any_modifier && (s.volAt i).is_modifier ||
           s.is_any_modifier && !(s.volAt i).is_modifier)) = true
      · rw [if_pos hm]
        apply selInv_set_dirty
        apply selInv_update_type
        by_cases hnr : (b && !(c && s.contains_volume i) || (s.volAt i).is_wipe_tower ||
            s.is_wipe_tower && !(s.volAt i).is_wipe_tower ||
            b && !s.is_any_modifier && (s.volAt i).is_modifier ||
            s.is_any_modifier && !(s.volAt i).is_modifier) = true
        · rw [if_pos hnr]
          by_cases hkeep : (!(decide (s.mode = EMode.Instance) && !b)) = true
          · rw [if_pos hkeep]
            by_cases hmod : (s.volAt i).is_modifier = true
            · rw [if_pos hmod]
              dsimp only
              split
              · refine selInv_do_add_volume _ i ?_ ?_
                · show i < (clear (s.take_snapshot "Selection-Add")).volumes.length
                  rw [clear_length, length_take_snapshot]
                  exact hlt
                · exact selInv_set_mode _ _ (selInv_clear _ (selInv_take_snapshot s _ h))
              · exact selInv_set_mode _ _ (selInv_clear _ (selInv_take_snapshot s _ h))
            · rw [if_neg hmod]
              dsimp only
              exact selInv_instance_wrap
                { clear (s.take_snapshot "Selection-Add") with mode := EMode.Instance }
                (s.volAt i).object_idx (s.volAt i).instance_idx b
                (clear (s.take_snapshot "Selection-Add")).snapshots_suppressed
                (selInv_set_mode _ _ (selInv_clear _ (selInv_take_snapshot s _ h)))
          · rw [if_neg hkeep]
            have hsks : (decide (s.mode = EMode.Instance) && !b) = true := by
              revert hkeep
              cases hval : (decide (s.mode = EMode.Instance) && !b) <;> simp
            have hsmode : s.mode = EMode.Instance := by
              have hx := hsks
              simp only [Bool.and_eq_true, decide_eq_true_eq] at hx
              exact hx.1
            rw [clear_mode, take_snapshot_mode, hsmode]
            dsimp only
            exact selInv_instance_wrap
              { clear (s.take_snapshot "Selection-Add") with mode := EMode.Instance }
              (s.volAt i).object_idx (s.volAt i).instance_idx b
              (clear (s.take_snapshot "Selection-Add")).snapshots_suppressed
              (selInv_set_mode _ _ (selInv_clear _ (selInv_take_snapshot s _ h)))
        · rw [if_neg hnr]
          by_cases hkeep : (!(decide (s.mode = EMode.Instance) && !b)) = true
          · rw [if_pos hkeep]
            by_cases hmod : (s.volAt i).is_modifier = true
            · rw [if_pos hmod]
              dsimp only
              split
              · refine selInv_do_add_volume _ i ?_ ?_
                · show i < (s.take_snapshot "Selection-Add").volumes.length
                  rw [length_take_snapshot]
                  exact hlt
                · exact selInv_set_mode _ _ (selInv_take_snapshot s _ h)
              · exact selInv_set_mode _ _ (selInv_take_snapshot s _ h)
            · rw [if_neg hmod]
              dsimp only
              exact selInv_instance_wrap
                { s.take_snapshot "Selection-Add" with mode := EMode.Instance }
                (s.volAt i).object_idx (s.volAt i).instance_idx b
                (s.take_snapshot "Selection-Add").snapshots_suppressed
                (selInv_set_mode _ _ (selInv_take_snapshot s _ h))
          · rw [if_neg hkeep]
            have hsks : (decide (s.mode = EMode.Instance) && !b) = true := by
              revert hkeep
              cases hval : (decide (s.mode = EMode.Instance) && !b) <;> simp
            have hsmode : s.mode = EMode.Instance := by
              have hx := hsks
              simp only [Bool.and_eq_true, decide_eq_true_eq] at hx
              exact hx.1
            rw [take_snapshot_mode, hsmode]
            dsimp only
            exact selInv_instance_wrap
              { s.take_snapshot "Selection-Add" with mode := EMode.Instance }
              (s.volAt i).object_idx (s.volAt i).instance_idx b
              (s.take_snapshot "Selection-Add").snapshots_suppressed
              (selInv_set_mode _ _ (selInv_take_snapshot s _ h))
      · rw [if_neg hm]
        exact h

theorem selInv_remove (s : SelectionState) (i : Nat) (h : SelInv s) :
    SelInv (s.remove i) := by
  unfold remove
  by_cases hv : (!s.valid || decide (s.volumes.length ≤ i)) = true
  · rw [if_pos hv]
    exact h
  · rw [if_neg hv]
    by_cases hc : (!s.contains_volume i) = true
    · rw [if_pos hc]
      exact h
    · rw [if_neg hc]
      dsimp only
      apply selInv_set_dirty
      apply selInv_update_type
      split
      · exact selInv_do_remove_volume _ _ (selInv_take_snapshot s _ h)
      · exact selInv_do_remove_instance _ _ _ (selInv_take_snapshot s _ h)

theorem selInv_add_object (s : SelectionState) (oi : Int) (b : Bool) (h : SelInv s) :
    SelInv (s.add_object oi b) := by
  unfold add_object
  by_cases hv : (!s.valid) = true
  · rw [if_pos hv]
    exact h
  · rw [if_neg hv]
    dsimp only
    by_cases hg : (!b && s.contains_all_volumes (s.get_volume_idxs_from_object oi) ||
        b && s.selMatches (s.get_volume_idxs_from_object oi)) = true
    · rw [if_pos hg]
      exact h
    · rw [if_neg hg]
      apply selInv_set_dirty
      apply selInv_update_type
      apply selInv_do_add_volumes
      apply selInv_set_mode
      apply selInv_ite
      · exact selInv_clear _ (selInv_take_snapshot s _ h)
      · exact selInv_take_snapshot s _ h

theorem selInv_add_volume (s : SelectionState) (oi vi ii : Int) (b : Bool)
    (h : SelInv s) : SelInv (s.add_volume oi vi ii b) := by
  unfold add_volume
  by_cases hv : (!s.valid) = true
  · rw [if_pos hv]
    exact h
  · rw [if_neg hv]
    dsimp only
    by_cases hg : (!b && s.contains_all_volumes (s.get_volume_idxs_from_volume oi ii vi) ||
        b && s.selMatches (s.get_volume_idxs_from_volume oi ii vi)) = true
    · rw [if_pos hg]
      exact h
    · rw [if_neg hg]
      apply selInv_set_dirty
      apply selInv_update_type
      apply selInv_do_add_volumes
      apply selInv_set_mode
      apply selInv_ite
      · exact selInv_clear _ h
      · exact h

theorem selInv_add_volumes (s : SelectionState) (m : EMode) (idxs : List Nat)
    (b : Bool) (h : SelInv s) : SelInv (s.add_volumes m idxs b) := by
  unfold add_volumes
  by_cases hv : (!s.valid) = true
  · rw [if_pos hv]
    exact h
  · rw [if_neg hv]
    by_cases hg : (!b && s.contains_all_volumes idxs || b && s.selMatches idxs) = true
    · rw [if_pos hg]
      exact h
    · rw [if_neg hg]
      dsimp only
      apply selInv_set_dirty
      apply selInv_update_type
      refine selInv_foldl _ SelInv idxs (fun u x _ hu => ?_) _ ?_
      · dsimp only
        split
        · next hx => exact selInv_do_add_volume u x hx hu
        · exact hu
      · apply selInv_set_mode
        apply selInv_ite
        · exact selInv_clear _ h
        · exact h

theorem selInv_remove_volumes (s : SelectionState) (m : EMode) (idxs : List Nat)
    (h : SelInv s) : SelInv (s.remove_volumes m idxs) := by
  unfold remove_volumes
  by_cases hv : (!s.valid) = true
  · rw [if_pos hv]
    exact h
  · rw [if_neg hv]
    dsimp only
    apply selInv_set_dirty
    apply selInv_update_type
    refine selInv_foldl _ SelInv idxs (fun u x _ hu => ?_) _ ?_
    · dsimp only
      split
      · exact selInv_do_remove_volume u x hu
      · exact hu
    · exact selInv_set_mode s m h

theorem selInv_set_deserialized (s : SelectionState) (m : EMode)
    (pairs : List (Nat × Nat)) (h : SelInv s) : SelInv (s.set_deserialized m pairs) := by
  unfold set_deserialized
  by_cases hv : (!s.valid) = true
  · rw [if_pos hv]
    exact h
  · rw [if_neg hv]
    dsimp only
    apply selInv_set_dirty
    apply selInv_update_type
    have hlen2 : (({ s with mode := m } : SelectionState).list.foldl (fun t i =>
        { setSelected t i false with log := t.log ++ [Event.selErase i] })
          ({ s with mode := m } : SelectionState)).volumes.length = s.volumes.length :=
      clearFlags_fold_length _ _
    have hinv3 : SelInv ({ (({ s with mode := m } : SelectionState).list.foldl (fun t i =>
        { setSelected t i false with log := t.log ++ [Event.selErase i] })
          ({ s with mode := m } : SelectionState)) with list := ([] : List Nat) }) := by
      constructor
      · intro j hj
        exact absurd hj (List.not_mem_nil j)
      · intro j hj
        rw [show ({ (({ s with mode := m } : SelectionState).list.foldl (fun t i =>
            { setSelected t i false with log := t.log ++ [Event.selErase i] })
              ({ s with mode := m } : SelectionState)) with
                list := ([] : List Nat) } : SelectionState).volAt j =
            ((({ s with mode := m } : SelectionState).list.foldl (fun t i =>
              { setSelected t i false with log := t.log ++ [Event.selErase i] })
                ({ s with mode := m } : SelectionState)).volAt j) from rfl]
        have hj' : j < ({ s with mode := m } : SelectionState).volumes.length := by
          have : ({ (({ s with mode := m } : SelectionState).list.foldl (fun t i =>
              { setSelected t i false with log := t.log ++ [Event.selErase i] })
                ({ s with mode := m } : SelectionState)) with
                  list := ([] : List Nat) } : SelectionState).volumes.length =
              s.volumes.length := hlen2
          rw [this] at hj
          exact hj
        rw [clearFlags_fold_selected _ _ j hj']
        constructor
        · intro hx
          by_cases hmem : j ∈ ({ s with mode := m } : SelectionState).list
          · rw [if_pos hmem] at hx
            exact absurd hx (by simp)
          · rw [if_neg hmem] at hx
            have hx' : (s.volAt j).selected = true := hx
            rw [(h.2 j hj')] at hx'
            exact absurd hx' hmem
        · intro hx
          exact absurd hx (List.not_mem_nil j)
    exact selInv_condAddFold_range
      (fun v => binarySearchPairs pairs v.geometry_id) _ _ rfl hinv3

theorem selInv_applySelOp (s : SelectionState) (op : SelOp) (h : SelInv s) :
    SelInv (applySelOp s op) := by
  cases op with
  | add i b c => exact selInv_add s i b c h
  | remove i => exact selInv_remove s i h
  | add_object oi b => exact selInv_add_object s oi b h
  | add_instance oi ii b => exact selInv_add_instance s oi ii b h
  | add_volume oi vi ii b => exact selInv_add_volume s oi vi ii b h
  | add_volumes m l b => exact selInv_add_volumes s m l b h
  | remove_volumes m l => exact selInv_remove_volumes s m l h
  | clear => exact selInv_clear s h
  | set_deserialized m l => exact selInv_set_deserialized s m l h

/-- C1: starting from any state satisfying the selected-iff-member
invariant, every sequence of the membership Mutators (add, remove,
add_object, add_instance, add_volume, add_volumes, remove_volumes, clear,
set_deserialized) preserves it: afterwards a volume's selected flag is
true exactly when its index is a member of m_list. -/
theorem C1_selection_invariant (s : SelectionState) (h : SelInv s) (ops : List SelOp) :
    ∀ i, i < (ops.foldl applySelOp s).volumes.length →
      (((ops.foldl applySelOp s).volAt i).selected = true ↔
        i ∈ (ops.foldl applySelOp s).list) := by
  have hfin : SelInv (ops.foldl applySelOp s) :=
    selInv_foldl applySelOp SelInv ops (fun t x _ ht => selInv_applySelOp t x ht) s h
  exact hfin.2

/-- C1 witness: the invariant holds after a concrete add and clear starting
from the base state. -/
theorem C1_witness :
    SelInv baseState ∧
    (∀ i, i < (([SelOp.add 0 true true, SelOp.clear].foldl applySelOp
        baseState)).volumes.length →
      (((([SelOp.add 0 true true, SelOp.clear].foldl applySelOp
          baseState)).volAt i).selected = true ↔
        i ∈ (([SelOp.add 0 true true, SelOp.clear].foldl applySelOp baseState)).list)) :=
  ⟨by unfold SelInv; decide, C1_selection_invariant baseState (by unfold SelInv; decide)
    [SelOp.add 0 true true, SelOp.clear]⟩

/-! Log-shape lemmas for the snapshot-ordering claim. -/

theorem logExt_take_snapshot (s : SelectionState) (lbl : String) :
    LogExt s (s.take_snapshot lbl) := by
  unfold take_snapshot
  split
  · exact logExt_refl s
  · exact ⟨[Event.snapshot lbl], rfl⟩

theorem logExt_set_mode (x : SelectionState) (m : EMode) :
    LogExt x { x with mode := m } :=
  ⟨[], (List.append_nil _).symm⟩

theorem logExt_set_suppressed (x : SelectionState) (b : Bool) :
    LogExt x { x with snapshots_suppressed := b } :=
  ⟨[], (List.append_nil _).symm⟩

theorem logExt_do_remove_volume (s : SelectionState) (i : Nat) :
    LogExt s (do_remove_volume s i) := by
  unfold do_remove_volume setSelected
  split
  · exact ⟨[Event.selErase i], rfl⟩
  · exact logExt_refl s

theorem logExt_do_remove_instance (s : SelectionState) (oi ii : Int) :
    LogExt s (do_remove_instance s oi ii) := by
  unfold do_remove_instance
  refine logExt_foldl _ (fun t x => ?_) _ s
  dsimp only
  split
  · exact logExt_do_remove_volume t x
  · exact logExt_refl t

theorem logExt_do_remove_object (s : SelectionState) (oi : Int) :
    LogExt s (do_remove_object s oi) := by
  unfold do_remove_object
  refine logExt_foldl _ (fun t x => ?_) _ s
  dsimp only
  split
  · exact logExt_do_remove_volume t x
  · exact logExt_refl t

theorem logExt_do_add_volumes (s : SelectionState) (idxs : List Nat) :
    LogExt s (do_add_volumes s idxs) := by
  unfold do_add_volumes
  refine logExt_foldl _ (fun t x => ?_) _ s
  dsimp only
  split
  · exact logExt_do_add_volume t x
  · exact logExt_refl t

theorem logExt_clear (s : SelectionState) : LogExt s (clear s) := by
  unfold clear
  split
  · exact logExt_refl s
  · split
    · exact logExt_refl s
    · dsimp only
      refine logExt_trans (logExt_foldl _ (fun t x => ⟨[Event.selErase x], rfl⟩) _ _)
        (logExt_trans (logExt_set_list _ _)
          (logExt_trans (logExt_update_type _) (logExt_set_dirty _)))

theorem logExt_add_instance (s : SelectionState) (oi ii : Int) (b : Bool) :
    LogExt s (s.add_instance oi ii b) := by
  unfold add_instance
  split
  · exact logExt_refl s
  · dsimp only
    split
    · exact logExt_refl s
    · refine logExt_trans (logExt_take_snapshot s "Selection-Add Instance") ?_
      refine logExt_trans ?_ (logExt_trans (logExt_update_type _) (logExt_set_dirty _))
      refine logExt_trans ?_ (logExt_do_add_volumes _ _)
      split
      · exact logExt_clear (s.take_snapshot "Selection-Add Instance")
      · exact logExt_refl (s.take_snapshot "Selection-Add Instance")

theorem mutationsPreceded_refl_log (s : SelectionState) :
    mutationsPreceded (s.log.drop s.log.length) = true := by
  rw [List.drop_length]
  rfl

theorem mutationsPreceded_of_snapExt (s t : SelectionState) (lbl : String)
    (hsup : s.snapshots_suppressed = false)
    (hext : LogExt (s.take_snapshot lbl) t) :
    mutationsPreceded (t.log.drop s.log.length) = true := by
  obtain ⟨d, hd⟩ := hext
  have hlog : (s.take_snapshot lbl).log = s.log ++ [Event.snapshot lbl] := by
    unfold take_snapshot
    rw [if_neg (by rw [hsup]; simp)]
  rw [hd, hlog, List.append_assoc, List.drop_left]
  rfl

theorem snapFirst_add (s : SelectionState) (i : Nat) (b c : Bool)
    (hsup : s.snapshots_suppressed = false) :
    mutationsPreceded ((s.add i b c).log.drop s.log.length) = true := by
  unfold add
  split
  · exact mutationsPreceded_refl_log s
  · dsimp only
    split
    · exact mutationsPreceded_refl_log s
    · by_cases hm : (!(c && s.contains_volume i) ||
          (b && !(c && s.contains_volume i) || (s.volAt i).is_wipe_tower ||
           s.is_wipe_tower && !(s.volAt i).is_wipe_tower ||
           b && !s.is_any_modifier && (s.volAt i).is_modifier ||
           s.is_any_modifier && !(s.volAt i).is_modifier)) = true
      · rw [if_pos hm]
        refine mutationsPreceded_of_snapExt s _ "Selection-Add" hsup ?_
        by_cases hnr : (b && !(c && s.contains_volume i) || (s.volAt i).is_wipe_tower ||
            s.is_wipe_tower && !(s.volAt i).is_wipe_tower ||
            b && !s.is_any_modifier && (s.volAt i).is_modifier ||
            s.is_any_modifier && !(s.volAt i).is_modifier) = true
        · rw [if_pos hnr]
          by_cases hkeep : (!(decide (s.mode = EMode.Instance) && !b)) = true
          · rw [if_pos hkeep]
            by_cases hmod : (s.volAt i).is_modifier = true
            · rw [if_pos hmod]
              dsimp only
              split
              · exact logExt_trans
                  (show LogExt (s.take_snapshot "Selection-Add")
                      { clear (s.take_snapshot "Selection-Add") with
                        mode := EMode.Volume } from
                    logExt_clear (s.take_snapshot "Selection-Add"))
                  (logExt_do_add_volume
                    { clear (s.take_snapshot "Selection-Add") with
                      mode := EMode.Volume } i)
              · exact logExt_clear (s.take_snapshot "Selection-Add")
            · rw [if_neg hmod]
              dsimp only
              exact logExt_trans
                (show LogExt (s.take_snapshot "Selection-Add")
                    { clear (s.take_snapshot "Selection-Add") with
                      mode := EMode.Instance, snapshots_suppressed := true } from
                  logExt_clear (s.take_snapshot "Selection-Add"))
                (logExt_add_instance
                  { clear (s.take_snapshot "Selection-Add") with
                    mode := EMode.Instance, snapshots_suppressed := true }
                  (s.volAt i).object_idx (s.volAt i).instance_idx b)
          · rw [if_neg hkeep]
            have hsks : (decide (s.mode = EMode.Instance) && !b) = true := by
              revert hkeep
              cases hval : (decide (s.mode = EMode.Instance) && !b) <;> simp
            have hsmode : s.mode = EMode.Instance := by
              have hx := hsks
              simp only [Bool.and_eq_true, decide_eq_true_eq] at hx
              exact hx.1
            rw [clear_mode, take_snapshot_mode, hsmode]
            dsimp only
            exact logExt_trans
              (show LogExt (s.take_snapshot "Selection-Add")
                  { clear (s.take_snapshot "Selection-Add") with
                    mode := EMode.Instance, snapshots_suppressed := true } from
                logExt_clear (s.take_snapshot "Selection-Add"))
              (logExt_add_instance
                { clear (s.take_snapshot "Selection-Add") with
                  mode := EMode.Instance, snapshots_suppressed := true }
                (s.volAt i).object_idx (s.volAt i).instance_idx b)
        · rw [if_neg hnr]
          by_cases hkeep : (!(decide (s.mode = EMode.Instance) && !b)) = true
          · rw [if_pos hkeep]
            by_cases hmod : (s.volAt i).is_modifier = true
            · rw [if_pos hmod]
              dsimp only
              split
              · exact logExt_do_add_volume
                  { s.take_snapshot "Selection-Add" with mode := EMode.Volume } i
              · exact logExt_refl (s.take_snapshot "Selection-Add")
            · rw [if_neg hmod]
              dsimp only
              exact logExt_add_instance
                { s.take_snapshot "Selection-Add" with
                  mode := EMode.Instance, snapshots_suppressed := true }
                (s.volAt i).object_idx (s.volAt i).instance_idx b
          · rw [if_neg hkeep]
            have hsks : (decide (s.mode = EMode.Instance) && !b) = true := by
              revert hkeep
              cases hval : (decide (s.mode = EMode.Instance) && !b) <;> simp
            have hsmode : s.mode = EMode.Instance := by
              have hx := hsks
              simp only [Bool.and_eq_true, decide_eq_true_eq] at hx
              exact hx.1
            rw [take_snapshot_mode, hsmode]
            dsimp only
            exact logExt_add_instance
              { s.take_snapshot "Selection-Add" with
                mode := EMode.Instance, snapshots_suppressed := true }
              (s.volAt i).object_idx (s.volAt i).instance_idx b
      · rw [if_neg hm]
        exact mutationsPreceded_refl_log s

theorem snapFirst_remove (s : SelectionState) (i : Nat)
    (hsup : s.snapshots_suppressed = false) :
    mutationsPreceded ((s.remove i).log.drop s.log.length) = true := by
  unfold remove
  split
  · exact mutationsPreceded_refl_log s
  · split
    · exact mutationsPreceded_refl_log s
    · dsimp only
      refine mutationsPreceded_of_snapExt s _ "Selection-Remove" hsup ?_
      refine logExt_trans ?_ (logExt_trans (logExt_update_type _) (logExt_set_dirty _))
      split
      · exact logExt_do_remove_volume _ _
      · exact logExt_do_remove_instance _ _ _

theorem snapFirst_add_object (s : SelectionState) (oi : Int) (b : Bool)
    (hsup : s.snapshots_suppressed = false) :
    mutationsPreceded ((s.add_object oi b).log.drop s.log.length) = true := by
  unfold add_object
  split
  · exact mutationsPreceded_refl_log s
  · dsimp only
    split
    · exact mutationsPreceded_refl_log s
    · refine mutationsPreceded_of_snapExt s _ "Selection-Add Object" hsup ?_
      refine logExt_trans ?_ (logExt_trans (logExt_set_mode _ _)
        (logExt_trans (logExt_do_add_volumes _ _)
          (logExt_trans (logExt_update_type _) (logExt_set_dirty _))))
      split
      · exact logExt_clear _
      · exact logExt_refl _

theorem snapFirst_remove_object (s : SelectionState) (oi : Int)
    (hsup : s.snapshots_suppressed = false) :
    mutationsPreceded ((s.remove_object oi).log.drop s.log.length) = true := by
  unfold remove_object
  split
  · exact mutationsPreceded_refl_log s
  · refine mutationsPreceded_of_snapExt s _ "Selection-Remove Object" hsup ?_
    exact logExt_trans (logExt_do_remove_object _ _)
      (logExt_trans (logExt_update_type _) (logExt_set_dirty _))

theorem snapFirst_add_instance (s : SelectionState) (oi ii : Int) (b : Bool)
    (hsup : s.snapshots_suppressed = false) :
    mutationsPreceded ((s.add_instance oi ii b).log.drop s.log.length) = true := by
  unfold add_instance
  split
  · exact mutationsPreceded_refl_log s
  · dsimp only
    split
    · exact mutationsPreceded_refl_log s
    · refine mutationsPreceded_of_snapExt s _ "Selection-Add Instance" hsup ?_
      refine logExt_trans ?_ (logExt_trans (logExt_set_mode _ _)
        (logExt_trans (logExt_do_add_volumes _ _)
          (logExt_trans (logExt_update_type _) (logExt_set_dirty _))))
      split
      · exact logExt_clear _
      · exact logExt_refl _

theorem snapFirst_remove_instance (s : SelectionState) (oi ii : Int)
    (hsup : s.snapshots_suppressed = false) :
    mutationsPreceded ((s.remove_instance oi ii).log.drop s.log.length) = true := by
  unfold remove_instance
  split
  · exact mutationsPreceded_refl_log s
  · refine mutationsPreceded_of_snapExt s _ "Selection-Remove Instance" hsup ?_
    exact logExt_trans (logExt_do_remove_instance _ _ _)
      (logExt_trans (logExt_update_type _) (logExt_set_dirty _))

theorem snapFirst_add_all (s : SelectionState)
    (hsup : s.snapshots_suppressed = false) :
    mutationsPreceded (s.add_all.log.drop s.log.length) = true := by
  unfold add_all
  split
  · exact mutationsPreceded_refl_log s
  · split
    · exact mutationsPreceded_refl_log s
    · refine mutationsPreceded_of_snapExt s _ "Selection-Add All" hsup ?_
      refine logExt_trans ?_ (logExt_trans (logExt_update_type _) (logExt_set_dirty _))
      refine logExt_trans ?_ (logExt_foldl _ (fun t x => ?_) _ _)
      · exact logExt_clear
          { s.take_snapshot "Selection-Add All" with mode := EMode.Instance }
      · dsimp only
        split
        · exact logExt_do_add_volume t x
        · exact logExt_refl t

theorem snapFirst_remove_all (s : SelectionState)
    (hsup : s.snapshots_suppressed = false) :
    mutationsPreceded (s.remove_all.log.drop s.log.length) = true := by
  unfold remove_all
  split
  · exact mutationsPreceded_refl_log s
  · split
    · exact mutationsPreceded_refl_log s
    · refine mutationsPreceded_of_snapExt s _ "Selection-Remove All" hsup ?_
      exact logExt_trans (logExt_set_mode _ _) (logExt_clear _)

/-- C3 (amended): of the membership Mutators, add, remove, add_object,
remove_object, add_instance, remove_instance, add_all and remove_all
request the external undo snapshot before any membership mutation: when
snapshots are not suppressed, the event segment each call emits is either
empty or begins with a snapshot request, so no selInsert or selErase
precedes the first snapshot of the call.  The remaining listed Mutators
add_volume, add_volumes and remove_volumes mutate membership without ever
requesting a snapshot. -/
theorem C3_snapshot_before_mutation (s : SelectionState) (op : SnapOp)
    (hsup : s.snapshots_suppressed = false) :
    mutationsPreceded ((applySnapOp s op).log.drop s.log.length) = true := by
  cases op with
  | add i b c => exact snapFirst_add s i b c hsup
  | remove i => exact snapFirst_remove s i hsup
  | add_object oi b => exact snapFirst_add_object s oi b hsup
  | remove_object oi => exact snapFirst_remove_object s oi hsup
  | add_instance oi ii b => exact snapFirst_add_instance s oi ii b hsup
  | remove_instance oi ii => exact snapFirst_remove_instance s oi ii hsup
  | add_all => exact snapFirst_add_all s hsup
  | remove_all => exact snapFirst_remove_all s hsup

/-- C3 counterexample: add_volume changes the membership of a valid state
while emitting no snapshot request at all: the emitted segment starts with
the membership mutation itself. -/
theorem C3_counterexample :
    baseState.snapshots_suppressed = false ∧
    (baseState.add_volume 0 0 0 false).list ≠ baseState.list ∧
    mutationsPreceded ((baseState.add_volume 0 0 0 false).log.drop
      baseState.log.length) = false := by
  refine ⟨rfl, ?_, ?_⟩
  · decide
  · decide

/-- C3 witness: a concrete add on the base state emits its snapshot request
first. -/
theorem C3_witness :
    baseState.snapshots_suppressed = false ∧
    mutationsPreceded ((applySnapOp baseState (SnapOp.add 0 true true)).log.drop
      baseState.log.length) = true :=
  ⟨rfl, C3_snapshot_before_mutation baseState (SnapOp.add 0 true true) rfl⟩

/-! Round-trip machinery: projections through do_add_volumes, add_object,
clear and the set_deserialized restore fold. -/

theorem do_add_volumes_length (t : SelectionState) (idxs : List Nat) :
    (do_add_volumes t idxs).volumes.length = t.volumes.length := by
  unfold do_add_volumes
  induction idxs generalizing t with
  | nil => rfl
  | cons i l ih =>
    rw [List.foldl_cons, ih]
    by_cases h : i < t.volumes.length
    · rw [if_pos h, do_add_volume_length]
    · rw [if_neg h]

theorem do_add_volumes_valid (t : SelectionState) (idxs : List Nat) :
    (do_add_volumes t idxs).valid = t.valid := by
  unfold do_add_volumes
  induction idxs generalizing t with
  | nil => rfl
  | cons i l ih =>
    rw [List.foldl_cons, ih]
    by_cases h : i < t.volumes.length
    · rw [if_pos h, do_add_volume_valid]
    · rw [if_neg h]

theorem do_add_volumes_volAt_proj {β : Type} (p : GLVolume → β)
    (hp : ∀ v b, p { v with selected := b } = p v) (idxs : List Nat)
    (t : SelectionState) (i : Nat) :
    p ((do_add_volumes t idxs).volAt i) = p (t.volAt i) := by
  unfold do_add_volumes
  induction idxs generalizing t with
  | nil => rfl
  | cons j l ih =>
    rw [List.foldl_cons, ih]
    by_cases h : j < t.volumes.length
    · rw [if_pos h]
      exact do_add_volume_volAt_proj p hp t j i
    · rw [if_neg h]

theorem do_add_volumes_sorted (t : SelectionState) (idxs : List Nat)
    (hs : t.list.Sorted (· < ·)) : (do_add_volumes t idxs).list.Sorted (· < ·) := by
  unfold do_add_volumes
  induction idxs generalizing t with
  | nil => exact hs
  | cons j l ih =>
    rw [List.foldl_cons]
    by_cases h : j < t.volumes.length
    · rw [if_pos h]
      apply ih
      rw [do_add_volume_list]
      exact idxInsert_sorted j t.list hs
    · rw [if_neg h]
      exact ih t hs

theorem take_snapshot_volAt (s : SelectionState) (lbl : String) (j : Nat) :
    (s.take_snapshot lbl).volAt j = s.volAt j := by
  unfold volAt
  rw [take_snapshot_volumes]

theorem update_type_volAt_geom (s : SelectionState) (i : Nat) :
    (((update_type s).volAt i)).geometry_id = ((s.volAt i)).geometry_id :=
  update_type_volAt_proj (fun v => v.geometry_id) (fun _ _ => rfl) s i

theorem clear_volAt_geom (s : SelectionState) (i : Nat) :
    (((clear s).volAt i)).geometry_id = ((s.volAt i)).geometry_id :=
  clear_volAt_proj (fun v => v.geometry_id) (fun _ _ => rfl) (fun _ _ => rfl) s i

theorem do_add_volumes_volAt_geom (t : SelectionState) (idxs : List Nat) (i : Nat) :
    (((do_add_volumes t idxs).volAt i)).geometry_id = ((t.volAt i)).geometry_id :=
  do_add_volumes_volAt_proj (fun v => v.geometry_id) (fun _ _ => rfl) idxs t i

theorem clearFlags_fold_volAt_geom (l : List Nat) (t : SelectionState) (j : Nat) :
    (((l.foldl (fun u i =>
      { setSelected u i false with log := u.log ++ [Event.selErase i] }) t).volAt j)).geometry_id =
      ((t.volAt j)).geometry_id :=
  clearFlags_fold_volAt_proj (fun v => v.geometry_id) (fun _ _ => rfl) l t j

theorem sdFold_mem (pairs : List (Nat × Nat)) (l : List Nat) (t : SelectionState)
    (j : Nat) :
    (j ∈ (l.foldl (fun u i =>
        if binarySearchPairs pairs ((u.volAt i)).geometry_id then do_add_volume u i
        else u) t).list) ↔
      (j ∈ t.list ∨ (j ∈ l ∧
        binarySearchPairs pairs ((t.volAt j)).geometry_id = true)) :=
  condAddFold_mem (fun v => binarySearchPairs pairs v.geometry_id)
    (fun _ _ => rfl) l t j

theorem sdFold_sorted (pairs : List (Nat × Nat)) (l : List Nat) (t : SelectionState)
    (hs : t.list.Sorted (· < ·)) :
    ((l.foldl (fun u i =>
      if binarySearchPairs pairs ((u.volAt i)).geometry_id then do_add_volume u i
      else u) t).list).Sorted (· < ·) :=
  condAddFold_sorted (fun v => binarySearchPairs pairs v.geometry_id) l t hs

theorem binarySearchPairs_true_iff (l : List (Nat × Nat)) (x : Nat × Nat) :
    binarySearchPairs l x = true ↔ x ∈ l := by
  unfold binarySearchPairs
  simp [List.contains]

theorem recordIds_mem (t : SelectionState) (g : Nat × Nat) :
    g ∈ recordIds t ↔ ∃ j ∈ t.list, ((t.volAt j)).geometry_id = g := by
  unfold recordIds
  rw [List.Perm.mem_iff (List.perm_insertionSort _ _)]
  simp

theorem add_object_valid (s : SelectionState) (oi : Int) (b : Bool) :
    (s.add_object oi b).valid = s.valid := by
  unfold add_object
  split
  · rfl
  · dsimp only
    split
    · rfl
    · rw [show ∀ x : SelectionState, x.set_bounding_boxes_dirty.valid = x.valid
        from fun _ => rfl]
      rw [update_type_valid, do_add_volumes_valid]
      show (if b = true then clear (s.take_snapshot "Selection-Add Object")
        else s.take_snapshot "Selection-Add Object").valid = s.valid
      split
      · rw [clear_valid, take_snapshot_valid]
      · rw [take_snapshot_valid]

theorem add_object_length (s : SelectionState) (oi : Int) (b : Bool) :
    (s.add_object oi b).volumes.length = s.volumes.length := by
  unfold add_object
  split
  · rfl
  · dsimp only
    split
    · rfl
    · rw [show ∀ x : SelectionState, x.set_bounding_boxes_dirty.volumes = x.volumes
        from fun _ => rfl]
      rw [update_type_volumes_length, do_add_volumes_length]
      show (if b = true then clear (s.take_snapshot "Selection-Add Object")
        else s.take_snapshot "Selection-Add Object").volumes.length = s.volumes.length
      split
      · rw [clear_length, take_snapshot_volumes]
      · rw [take_snapshot_volumes]

theorem add_object_volAt_geom (s : SelectionState) (oi : Int) (b : Bool) (i : Nat) :
    (((s.add_object oi b).volAt i)).geometry_id = ((s.volAt i)).geometry_id := by
  unfold add_object
  split
  · rfl
  · dsimp only
    split
    · rfl
    · rw [show ∀ x : SelectionState, x.set_bounding_boxes_dirty.volAt i = x.volAt i
        from fun _ => rfl]
      rw [update_type_volAt_geom, do_add_volumes_volAt_geom]
      show ((if b = true then clear (s.take_snapshot "Selection-Add Object")
        else s.take_snapshot "Selection-Add Object").volAt i).geometry_id =
        ((s.volAt i)).geometry_id
      split
      · rw [clear_volAt_geom, take_snapshot_volAt]
      · rw [take_snapshot_volAt]

theorem add_object_sorted (s : SelectionState) (oi : Int) (b : Bool)
    (hs : s.list.Sorted (· < ·)) : (s.add_object oi b).list.Sorted (· < ·) := by
  unfold add_object
  split
  · exact hs
  · dsimp only
    split
    · exact hs
    · rw [show ∀ x : SelectionState, x.set_bounding_boxes_dirty.list = x.list
        from fun _ => rfl]
      rw [update_type_list]
      apply do_add_volumes_sorted
      show (if b = true then clear (s.take_snapshot "Selection-Add Object")
        else s.take_snapshot "Selection-Add Object").list.Sorted (· < ·)
      split
      · rcases clear_list (s.take_snapshot "Selection-Add Object") with h | h
        · rw [h, take_snapshot_list]
          exact hs
        · rw [h]
          exact List.sorted_nil
      · rw [take_snapshot_list]
        exact hs

theorem add_object_geomInj (s : SelectionState) (oi : Int) (b : Bool)
    (h : GeomIdsInjective s) : GeomIdsInjective (s.add_object oi b) := by
  intro i hi j hj hg
  rw [add_object_length] at hi hj
  rw [add_object_volAt_geom, add_object_volAt_geom] at hg
  exact h i hi j hj hg

theorem set_deserialized_clear_roundtrip (t : SelectionState) (m : EMode)
    (hv : t.valid = true) (hs : t.list.Sorted (· < ·)) (hinv : SelInv t)
    (hginj : GeomIdsInjective t) :
    ((clear t).set_deserialized m (recordIds t)).list = t.list := by
  set u := clear t with hu
  have huvalid : u.valid = true := by
    rw [hu, clear_valid]
    exact hv
  unfold set_deserialized
  rw [if_neg (by rw [huvalid]; simp)]
  dsimp only
  set s₂ : SelectionState := u.list.foldl (fun x i =>
    { setSelected x i false with log := x.log ++ [Event.selErase i] })
    { u with mode := m } with hs2
  set s₃ : SelectionState := { s₂ with list := ([] : List Nat) } with hs3
  rw [set_bounding_boxes_dirty_list, update_type_list]
  have hs3list : s₃.list = [] := by
    rw [hs3]
  have hs3len : s₃.volumes.length = t.volumes.length := by
    rw [hs3]
    show s₂.volumes.length = _
    rw [hs2, clearFlags_fold_length]
    show u.volumes.length = _
    rw [hu, clear_length]
  have hs3geom : ∀ j, ((s₃.volAt j)).geometry_id = ((t.volAt j)).geometry_id := by
    intro j
    rw [hs3]
    show ((s₂.volAt j)).geometry_id = _
    rw [hs2, clearFlags_fold_volAt_geom]
    show ((u.volAt j)).geometry_id = _
    rw [hu, clear_volAt_geom]
  apply sorted_lt_ext
  · exact sdFold_sorted (recordIds t) _ s₃ (by rw [hs3list]; exact List.sorted_nil)
  · exact hs
  · intro x
    rw [sdFold_mem, hs3list]
    simp only [List.not_mem_nil, false_or, List.mem_range, hs3len]
    rw [hs3geom x, binarySearchPairs_true_iff]
    constructor
    · rintro ⟨hxlen, hmem⟩
      obtain ⟨j, hj, hjg⟩ := (recordIds_mem t _).1 hmem
      have hjlen : j < t.volumes.length := hinv.1 j hj
      have hjx := hginj j hjlen x hxlen hjg
      exact hjx ▸ hj
    · intro hx
      refine ⟨hinv.1 x hx, ?_⟩
      rw [recordIds_mem]
      exact ⟨x, hx, rfl⟩

/-- C6: round-trip restore.  For every valid state satisfying the selection
invariant, with a sorted index set and pairwise distinct geometry ids,
after add_object, recording the selection as the pair of the mode and the
sorted stable geometry-identifier list of the selected volumes, then
clear, then set_deserialized with the recorded pair, the resulting
selection set is exactly the set recorded after add_object. -/
theorem C6_round_trip (s : SelectionState) (oi : Int) (b : Bool)
    (hv : s.valid = true) (hs : s.list.Sorted (· < ·)) (hinv : SelInv s)
    (hginj : GeomIdsInjective s) :
    ((clear (s.add_object oi b)).set_deserialized (s.add_object oi b).mode
      (recordIds (s.add_object oi b))).list = (s.add_object oi b).list := by
  apply set_deserialized_clear_roundtrip
  · rw [add_object_valid]
    exact hv
  · exact add_object_sorted s oi b hs
  · exact selInv_add_object s oi b hinv
  · exact add_object_geomInj s oi b hginj

/-- C6 witness: the round trip on the base state after selecting object 0
restores the selection of both of its volumes. -/
theorem C6_witness :
    baseState.valid = true ∧ baseState.list.Sorted (· < ·) ∧ SelInv baseState ∧
    GeomIdsInjective baseState ∧
    ((clear (baseState.add_object 0 false)).set_deserialized
      (baseState.add_object 0 false).mode
      (recordIds (baseState.add_object 0 false))).list =
      (baseState.add_object 0 false).list :=
  ⟨rfl, by decide, by unfold SelInv; decide, by unfold GeomIdsInjective; decide,
    C6_round_trip baseState 0 false rfl (by decide) (by unfold SelInv; decide)
      (by unfold GeomIdsInjective; decide)⟩

/-! The ensure_on_bed minimum map and the drop-to-bed postcondition. -/

theorem optMin_none (o : Option ℚ) : optMin o none = o := by
  cases o <;> rfl

theorem lookup_updateMinMap_same (m : List ((Int × Int) × ℚ)) (key : Int × Int)
    (z : ℚ) :
    (updateMinMap m key z).lookup key =
      some (match m.lookup key with
            | none => z
            | some w => min w z) := by
  induction m with
  | nil => simp [updateMinMap, List.lookup]
  | cons p t ih =>
    obtain ⟨k, w⟩ := p
    by_cases hk : k = key
    · subst hk
      simp [updateMinMap, List.lookup]
    · have hkb : (key == k) = false := by
        rw [beq_eq_false_iff_ne]
        intro he
        exact hk he.symm
      rw [show updateMinMap ((k, w) :: t) key z = (k, w) :: updateMinMap t key z from by
        simp only [updateMinMap]
        rw [if_neg hk]]
      simp only [List.lookup, hkb]
      exact ih

theorem lookup_updateMinMap_other (m : List ((Int × Int) × ℚ)) (key k₀ : Int × Int)
    (z : ℚ) (h : k₀ ≠ key) :
    (updateMinMap m key z).lookup k₀ = m.lookup k₀ := by
  induction m with
  | nil =>
    have hkb : (k₀ == key) = false := by
      rw [beq_eq_false_iff_ne]
      exact h
    simp [updateMinMap, List.lookup, hkb]
  | cons p t ih =>
    obtain ⟨k, w⟩ := p
    by_cases hk : k = key
    · subst hk
      have hkb : (k₀ == k) = false := by
        rw [beq_eq_false_iff_ne]
        exact h
      simp only [updateMinMap, if_pos rfl]
      simp only [List.lookup, hkb]
    · rw [show updateMinMap ((k, w) :: t) key z = (k, w) :: updateMinMap t key z from by
        simp only [updateMinMap]
        rw [if_neg hk]]
      cases hkk : (k₀ == k) with
      | true => simp only [List.lookup, hkk]
      | false =>
        simp only [List.lookup, hkk]
        exact ih

theorem minFold_lookup (l : List GLVolume) (m : List ((Int × Int) × ℚ))
    (key : Int × Int) :
    (l.foldl (fun acc v =>
      if !v.is_wipe_tower && !v.is_modifier then
        updateMinMap acc (v.object_idx, v.instance_idx) (tchb_min_z v)
      else acc) m).lookup key =
    optMin (m.lookup key)
      (listMinQ ((l.filter (fun v =>
        (!v.is_wipe_tower && !v.is_modifier) &&
          (v.object_idx, v.instance_idx) = key)).map tchb_min_z)) := by
  induction l generalizing m with
  | nil =>
    rw [List.foldl_nil, List.filter_nil, List.map_nil]
    exact (optMin_none _).symm
  | cons v t ih =>
    rw [List.foldl_cons, List.filter_cons]
    by_cases hq : (!v.is_wipe_tower && !v.is_modifier) = true
    · rw [if_pos hq]
      by_cases hk : (v.object_idx, v.instance_idx) = key
      · have hcond : ((!v.is_wipe_tower && !v.is_modifier) &&
            decide ((v.object_idx, v.instance_idx) = key)) = true := by
          simp [hq, hk]
        rw [if_pos hcond, List.map_cons, hk, ih, lookup_updateMinMap_same]
        simp only [listMinQ]
        cases hmk : m.lookup key with
        | none =>
          cases hr : listMinQ ((t.filter (fun v =>
              (!v.is_wipe_tower && !v.is_modifier) &&
                (v.object_idx, v.instance_idx) = key)).map tchb_min_z) with
          | none => rfl
          | some u => rfl
        | some w =>
          cases hr : listMinQ ((t.filter (fun v =>
              (!v.is_wipe_tower && !v.is_modifier) &&
                (v.object_idx, v.instance_idx) = key)).map tchb_min_z) with
          | none => rfl
          | some u =>
            show some (min (min w (tchb_min_z v)) u) =
              some (min w (min (tchb_min_z v) u))
            rw [min_assoc]
      · have hcond : ((!v.is_wipe_tower && !v.is_modifier) &&
            decide ((v.object_idx, v.instance_idx) = key)) = false := by
          simp [hk]
        rw [if_neg (by simp [hcond]), ih,
          lookup_updateMinMap_other _ _ _ _ (fun he => hk he.symm)]
    · have hqf : (!v.is_wipe_tower && !v.is_modifier) = false := by
        revert hq
        cases (!v.is_wipe_tower && !v.is_modifier) <;> simp
      rw [if_neg hq]
      have hcond : ((!v.is_wipe_tower && !v.is_modifier) &&
          decide ((v.object_idx, v.instance_idx) = key)) = false := by
        simp [hqf]
      rw [if_neg (by simp [hcond])]
      exact ih m

theorem listMinQ_of_ne_nil (l : List ℚ) (h : l ≠ []) : ∃ z, listMinQ l = some z := by
  cases l with
  | nil => exact absurd rfl h
  | cons z t =>
    cases hr : listMinQ t with
    | none => exact ⟨z, by simp [listMinQ, hr]⟩
    | some u => exact ⟨min z u, by simp [listMinQ, hr]⟩

theorem listMinQ_map_sub (l : List ℚ) (c : ℚ) :
    listMinQ (l.map (fun z => z - c)) = (listMinQ l).map (fun z => z - c) := by
  induction l with
  | nil => rfl
  | cons z t ih =>
    rw [List.map_cons]
    simp only [listMinQ, ih]
    cases hr : listMinQ t with
    | none => rfl
    | some u =>
      show some (min (z - c) (u - c)) = some (min z u - c)
      rw [min_sub_sub_right]

theorem ensure_on_bed_volumes (s : SelectionState) :
    (ensure_on_bed s).volumes = s.volumes.map (fun v =>
      match (s.volumes.foldl (fun m v =>
        if !v.is_wipe_tower && !v.is_modifier then
          updateMinMap m (v.object_idx, v.instance_idx) (tchb_min_z v)
        else m) []).lookup (v.object_idx, v.instance_idx) with
      | some mz => v.withInstanceOffset
          { v.instance_trafo.offset with z := v.instance_trafo.offset.z - mz }
      | none => v) := rfl

theorem bedVols_map_filter (s : SelectionState) (f : GLVolume → GLVolume)
    (key : Int × Int)
    (hf : ∀ v, (f v).is_wipe_tower = v.is_wipe_tower ∧
      (f v).is_modifier = v.is_modifier ∧ (f v).object_idx = v.object_idx ∧
      (f v).instance_idx = v.instance_idx) :
    bedVols { s with volumes := s.volumes.map f } key = (bedVols s key).map f := by
  unfold bedVols
  show (s.volumes.map f).filter _ = _
  rw [List.filter_map]
  congr 1
  apply List.filter_congr
  intro v _
  obtain ⟨h1, h2, h3, h4⟩ := hf v
  show ((!(f v).is_wipe_tower && !(f v).is_modifier) &&
    decide (((f v).object_idx, (f v).instance_idx) = key)) = _
  rw [h1, h2, h3, h4]

/-- C7: after ensure_on_bed, every instance owning at least one
non-modifier, non-wipe-tower volume sits on the bed: the previous minimum
mz of the transformed hull-bottom Z over the instance's qualifying volumes
exists, every volume of the instance has its instance Z offset shifted by
exactly minus mz, and the same minimum recomputed on the result equals
zero. -/
theorem C7_ensure_on_bed_min_zero (s : SelectionState) (oi ii : Int)
    (hne : bedVols s (oi, ii) ≠ []) :
    ∃ mz, listMinQ ((bedVols s (oi, ii)).map tchb_min_z) = some mz ∧
      (∀ j, j < s.volumes.length →
        ((s.volAt j).object_idx, (s.volAt j).instance_idx) = (oi, ii) →
        ((ensure_on_bed s).volAt j).instance_trafo.offset.z =
          (s.volAt j).instance_trafo.offset.z - mz) ∧
      listMinQ ((bedVols (ensure_on_bed s) (oi, ii)).map tchb_min_z) = some 0 := by
  obtain ⟨mz, hmz⟩ := listMinQ_of_ne_nil ((bedVols s (oi, ii)).map tchb_min_z)
    (by simpa using hne)
  have hlook : (s.volumes.foldl (fun m v =>
      if !v.is_wipe_tower && !v.is_modifier then
        updateMinMap m (v.object_idx, v.instance_idx) (tchb_min_z v)
      else m) []).lookup (oi, ii) = some mz := by
    rw [minFold_lookup]
    show optMin none _ = some mz
    show listMinQ ((bedVols s (oi, ii)).map tchb_min_z) = some mz
    exact hmz
  have happ : ∀ v : GLVolume, (v.object_idx, v.instance_idx) = (oi, ii) →
      (fun v => match (s.volumes.foldl (fun m v =>
          if !v.is_wipe_tower && !v.is_modifier then
            updateMinMap m (v.object_idx, v.instance_idx) (tchb_min_z v)
          else m) []).lookup (v.object_idx, v.instance_idx) with
        | some mz => v.withInstanceOffset
            { v.instance_trafo.offset with z := v.instance_trafo.offset.z - mz }
        | none => v) v =
      v.withInstanceOffset
        { v.instance_trafo.offset with z := v.instance_trafo.offset.z - mz } := by
    intro v hv
    dsimp only
    rw [hv, hlook]
  refine ⟨mz, hmz, ?_, ?_⟩
  · intro j hj hkey
    have hvol : (ensure_on_bed s).volAt j = (fun v =>
        match (s.volumes.foldl (fun m v =>
          if !v.is_wipe_tower && !v.is_modifier then
            updateMinMap m (v.object_idx, v.instance_idx) (tchb_min_z v)
          else m) []).lookup (v.object_idx, v.instance_idx) with
        | some mz => v.withInstanceOffset
            { v.instance_trafo.offset with z := v.instance_trafo.offset.z - mz }
        | none => v) (s.volAt j) := by
      unfold volAt
      rw [ensure_on_bed_volumes]
      exact getD_map_of_lt _ _ j hj
    rw [hvol, happ (s.volAt j) hkey]
    rfl
  · have hbed : bedVols (ensure_on_bed s) (oi, ii) =
        (bedVols s (oi, ii)).map (fun v =>
          match (s.volumes.foldl (fun m v =>
            if !v.is_wipe_tower && !v.is_modifier then
              updateMinMap m (v.object_idx, v.instance_idx) (tchb_min_z v)
            else m) []).lookup (v.object_idx, v.instance_idx) with
          | some mz => v.withInstanceOffset
              { v.instance_trafo.offset with z := v.instance_trafo.offset.z - mz }
          | none => v) := by
      rw [show ensure_on_bed s = { s with volumes := s.volumes.map _ } from rfl]
      apply bedVols_map_filter
      intro v
      dsimp only
      generalize (s.volumes.foldl (fun m v =>
          if !v.is_wipe_tower && !v.is_modifier then
            updateMinMap m (v.object_idx, v.instance_idx) (tchb_min_z v)
          else m) []).lookup (v.object_idx, v.instance_idx) = o
      cases o
      · exact ⟨rfl, rfl, rfl, rfl⟩
      · exact ⟨rfl, rfl, rfl, rfl⟩
    rw [hbed, List.map_map]
    rw [show ((bedVols s (oi, ii)).map (tchb_min_z ∘ fun v =>
        match (s.volumes.foldl (fun m v =>
          if !v.is_wipe_tower && !v.is_modifier then
            updateMinMap m (v.object_idx, v.instance_idx) (tchb_min_z v)
          else m) []).lookup (v.object_idx, v.instance_idx) with
        | some mz => v.withInstanceOffset
            { v.instance_trafo.offset with z := v.instance_trafo.offset.z - mz }
        | none => v)) =
        ((bedVols s (oi, ii)).map tchb_min_z).map (fun z => z - mz) from ?_]
    · rw [listMinQ_map_sub, hmz]
      show some (mz - mz) = some 0
      rw [sub_self]
    · rw [List.map_map]
      apply List.map_congr_left
      intro v hv
      have hp : ((!v.is_wipe_tower && !v.is_modifier) &&
          decide ((v.object_idx, v.instance_idx) = (oi, ii))) = true :=
        (List.mem_filter.1 hv).2
      have hkeyv : (v.object_idx, v.instance_idx) = (oi, ii) := by
        simp only [Bool.and_eq_true] at hp
        exact of_decide_eq_true hp.2
      show tchb_min_z ((fun v =>
        match (s.volumes.foldl (fun m v =>
          if !v.is_wipe_tower && !v.is_modifier then
            updateMinMap m (v.object_idx, v.instance_idx) (tchb_min_z v)
          else m) []).lookup (v.object_idx, v.instance_idx) with
        | some mz => v.withInstanceOffset
            { v.instance_trafo.offset with z := v.instance_trafo.offset.z - mz }
        | none => v) v) = tchb_min_z v - mz
      rw [happ v hkeyv]
      show (v.instance_trafo.offset.z - mz) + v.chull_rest_min_z =
        (v.instance_trafo.offset.z + v.chull_rest_min_z) - mz
      ring

/-- C7 witness: the floated instance of the bed state (transformed minimum
Z = 4) is dropped onto the bed. -/
theorem C7_witness :
    bedVols bedState (0, 0) ≠ [] ∧
    (∃ mz, listMinQ ((bedVols bedState (0, 0)).map tchb_min_z) = some mz ∧
      (∀ j, j < bedState.volumes.length →
        ((bedState.volAt j).object_idx, (bedState.volAt j).instance_idx) = (0, 0) →
        ((ensure_on_bed bedState).volAt j).instance_trafo.offset.z =
          (bedState.volAt j).instance_trafo.offset.z - mz) ∧
      listMinQ ((bedVols (ensure_on_bed bedState) (0, 0)).map tchb_min_z) = some 0) :=
  ⟨by decide, C7_ensure_on_bed_min_zero bedState 0 0 (by decide)⟩

/-! Non-uniform world scaling on a single full instance: the volume the
loop writes, the untouched-by-synchronization facts and the assertion. -/

theorem foldl_pres {α β : Type} (body : α → β → α) (P : α → Prop) (l : List β)
    (hb : ∀ a x, x ∈ l → P a → P (body a x)) : ∀ a, P a → P (l.foldl body a) := by
  induction l with
  | nil => intro a h; exact h
  | cons x l' ih =>
    intro a h
    rw [List.foldl_cons]
    exact ih (fun u y hy hu => hb u y (List.mem_cons_of_mem _ hy) hu)
      _ (hb a x (List.mem_cons_self _ _) h)

theorem volAt_updateAt_ne (f : GLVolume → GLVolume) (u : SelectionState) (j k : Nat)
    (hne : k ≠ j) :
    ({ u with volumes := updateAt f j u.volumes } : SelectionState).volAt k =
      u.volAt k := by
  unfold volAt
  show (updateAt f j u.volumes).getD k default = u.volumes.getD k default
  rw [List.getD, List.getD, List.get?_eq_getElem?, List.get?_eq_getElem?,
    getElem?_updateAt, if_neg hne]

theorem setInstanceRotation_volAt_ne (u : SelectionState) (j k : Nat) (r : Vec3)
    (h : k ≠ j) : (setInstanceRotation u j r).volAt k = u.volAt k :=
  volAt_updateAt_ne _ u j k h

theorem setInstanceScaling_volAt_ne (u : SelectionState) (j k : Nat) (f : Vec3)
    (h : k ≠ j) : (setInstanceScaling u j f).volAt k = u.volAt k :=
  volAt_updateAt_ne _ u j k h

theorem setInstanceMirror_volAt_ne (u : SelectionState) (j k : Nat) (m : Vec3)
    (h : k ≠ j) : (setInstanceMirror u j m).volAt k = u.volAt k :=
  volAt_updateAt_ne _ u j k h

theorem setVolumeOffset_volAt_ne (u : SelectionState) (j k : Nat) (o : Vec3)
    (h : k ≠ j) : (setVolumeOffset u j o).volAt k = u.volAt k :=
  volAt_updateAt_ne _ u j k h

theorem setVolumeRotation_volAt_ne (u : SelectionState) (j k : Nat) (r : Vec3)
    (h : k ≠ j) : (setVolumeRotation u j r).volAt k = u.volAt k :=
  volAt_updateAt_ne _ u j k h

theorem setVolumeScaling_volAt_ne (u : SelectionState) (j k : Nat) (f : Vec3)
    (h : k ≠ j) : (setVolumeScaling u j f).volAt k = u.volAt k :=
  volAt_updateAt_ne _ u j k h

theorem setVolumeMirror_volAt_ne (u : SelectionState) (j k : Nat) (m : Vec3)
    (h : k ≠ j) : (setVolumeMirror u j m).volAt k = u.volAt k :=
  volAt_updateAt_ne _ u j k h

theorem setInstanceRotation_length (u : SelectionState) (j : Nat) (r : Vec3) :
    (setInstanceRotation u j r).volumes.length = u.volumes.length :=
  updateAt_length _ _ _

theorem setInstanceScaling_length (u : SelectionState) (j : Nat) (f : Vec3) :
    (setInstanceScaling u j f).volumes.length = u.volumes.length :=
  updateAt_length _ _ _

theorem setInstanceMirror_length (u : SelectionState) (j : Nat) (m : Vec3) :
    (setInstanceMirror u j m).volumes.length = u.volumes.length :=
  updateAt_length _ _ _

theorem setVolumeOffset_length (u : SelectionState) (j : Nat) (o : Vec3) :
    (setVolumeOffset u j o).volumes.length = u.volumes.length :=
  updateAt_length _ _ _

theorem setVolumeRotation_length (u : SelectionState) (j : Nat) (r : Vec3) :
    (setVolumeRotation u j r).volumes.length = u.volumes.length :=
  updateAt_length _ _ _

theorem setVolumeScaling_length (u : SelectionState) (j : Nat) (f : Vec3) :
    (setVolumeScaling u j f).volumes.length = u.volumes.length :=
  updateAt_length _ _ _

theorem setVolumeMirror_length (u : SelectionState) (j : Nat) (m : Vec3) :
    (setVolumeMirror u j m).volumes.length = u.volumes.length :=
  updateAt_length _ _ _

theorem checkAssert_list (u : SelectionState) (ok : Bool) :
    (u.checkAssert ok).list = u.list := by
  unfold checkAssert
  split <;> rfl

theorem checkAssert_volumes (u : SelectionState) (ok : Bool) :
    (u.checkAssert ok).volumes = u.volumes := by
  unfold checkAssert
  split <;> rfl

theorem checkAssert_volAt (u : SelectionState) (ok : Bool) (k : Nat) :
    (u.checkAssert ok).volAt k = u.volAt k := by
  unfold volAt
  rw [checkAssert_volumes]

theorem setInstanceScaling_volAt_self (u : SelectionState) (i : Nat) (f : Vec3)
    (hi : i < u.volumes.length) :
    (setInstanceScaling u i f).volAt i = (u.volAt i).withInstanceScaling f := by
  unfold setInstanceScaling volAt
  show (updateAt _ i u.volumes).getD i default = _
  rw [getD_updateAt _ i i _ hi, if_pos rfl]

theorem mem_of_contains_eq_true {l : List Nat} {j : Nat} (h : l.contains j = true) :
    j ∈ l :=
  List.elem_iff.mp h

theorem contains_eq_true_of_mem {l : List Nat} {j : Nat} (h : j ∈ l) :
    l.contains j = true :=
  List.elem_iff.mpr h

theorem sync_inst_preserves (G : GeometryOps) (ty : SyncRotationType)
    (s : SelectionState) (i : Nat) (hi : i ∈ s.list) :
    (synchronize_unselected_instances G ty s).volAt i = s.volAt i ∧
    (synchronize_unselected_instances G ty s).volumes.length = s.volumes.length ∧
    (synchronize_unselected_instances G ty s).log = s.log := by
  unfold synchronize_unselected_instances
  dsimp only
  have h := foldl_pres
    (fun (p : SelectionState × List Nat) x =>
      if (p.1.volAt x).object_idx ≥ 1000 then p
      else
        (List.range p.1.volumes.length).foldl (fun (q : SelectionState × List Nat) j =>
          if q.2.contains j then q
          else
            if (q.1.volAt j).object_idx ≠ (p.1.volAt x).object_idx ∨
               (q.1.volAt j).instance_idx = (p.1.volAt x).instance_idx then q
            else
              ((setInstanceMirror (setInstanceScaling
                  (match ty with
                   | SyncRotationType.NONE => q.1
                   | SyncRotationType.FULL => setInstanceRotation q.1 j
                      (p.1.volAt x).instance_trafo.rotation
                   | SyncRotationType.GENERAL => setInstanceRotation q.1 j
                      ⟨(p.1.volAt x).instance_trafo.rotation.x,
                       (p.1.volAt x).instance_trafo.rotation.y,
                       (p.1.volAt x).instance_trafo.rotation.z +
                         G.rotation_diff_z (q.1.cacheAt x).m_instance.rotation
                           (q.1.cacheAt j).m_instance.rotation⟩)
                  j (p.1.volAt x).instance_trafo.scaling_factor)
                j (p.1.volAt x).instance_trafo.mirror), idxInsert j q.2))
          (p.1, p.2))
    (fun (p : SelectionState × List Nat) =>
      p.1.volAt i = s.volAt i ∧ p.1.volumes.length = s.volumes.length ∧
      p.1.log = s.log ∧ ∀ k ∈ s.list, k ∈ p.2)
    s.list
    (fun p x _ hp => by
      obtain ⟨hp1, hp2, hp3, hp4⟩ := hp
      dsimp only
      split
      · exact ⟨hp1, hp2, hp3, hp4⟩
      · refine foldl_pres _ (fun (q : SelectionState × List Nat) =>
            q.1.volAt i = s.volAt i ∧ q.1.volumes.length = s.volumes.length ∧
            q.1.log = s.log ∧ ∀ k ∈ s.list, k ∈ q.2) _
          (fun q j _ hq => ?_) _ ⟨hp1, hp2, hp3, hp4⟩
        obtain ⟨hq1, hq2, hq3, hq4⟩ := hq
        by_cases hcon : (q.2.contains j) = true
        · rw [if_pos hcon]
          exact ⟨hq1, hq2, hq3, hq4⟩
        · rw [if_neg hcon]
          split
          · exact ⟨hq1, hq2, hq3, hq4⟩
          · have hji : i ≠ j := by
              intro he
              exact hcon (contains_eq_true_of_mem (he ▸ hq4 i hi))
            cases ty with
            | NONE =>
              refine ⟨?_, ?_, hq3, ?_⟩
              · rw [setInstanceMirror_volAt_ne _ _ _ _ hji,
                  setInstanceScaling_volAt_ne _ _ _ _ hji]
                exact hq1
              · rw [setInstanceMirror_length, setInstanceScaling_length]
                exact hq2
              · exact fun k hk => (mem_idxInsert _ _ _).2 (Or.inr (hq4 k hk))
            | FULL =>
              refine ⟨?_, ?_, hq3, ?_⟩
              · rw [setInstanceMirror_volAt_ne _ _ _ _ hji,
                  setInstanceScaling_volAt_ne _ _ _ _ hji,
                  setInstanceRotation_volAt_ne _ _ _ _ hji]
                exact hq1
              · rw [setInstanceMirror_length, setInstanceScaling_length,
                  setInstanceRotation_length]
                exact hq2
              · exact fun k hk => (mem_idxInsert _ _ _).2 (Or.inr (hq4 k hk))
            | GENERAL =>
              refine ⟨?_, ?_, hq3, ?_⟩
              · rw [setInstanceMirror_volAt_ne _ _ _ _ hji,
                  setInstanceScaling_volAt_ne _ _ _ _ hji,
                  setInstanceRotation_volAt_ne _ _ _ _ hji]
                exact hq1
              · rw [setInstanceMirror_length, setInstanceScaling_length,
                  setInstanceRotation_length]
                exact hq2
              · exact fun k hk => (mem_idxInsert _ _ _).2 (Or.inr (hq4 k hk)))
    (s, s.list) ⟨rfl, rfl, rfl, fun _ hk => hk⟩
  exact ⟨h.1, h.2.1, h.2.2.1⟩

theorem sync_vol_preserves (s : SelectionState) (i : Nat) (hl : s.list = [i]) :
    (synchronize_unselected_volumes s).volAt i = s.volAt i ∧
    (synchronize_unselected_volumes s).volumes.length = s.volumes.length ∧
    (synchronize_unselected_volumes s).log = s.log := by
  unfold synchronize_unselected_volumes
  rw [hl, List.foldl_cons, List.foldl_nil]
  dsimp only
  split
  · exact ⟨rfl, rfl, rfl⟩
  · have h := foldl_pres
      (fun (u : SelectionState) j =>
        if j = i then u
        else
          if (u.volAt j).object_idx ≠ (s.volAt i).object_idx ∨
             (u.volAt j).vol_idx ≠ (s.volAt i).vol_idx then u
          else
            setVolumeMirror (setVolumeScaling (setVolumeRotation
                (setVolumeOffset u j (s.volAt i).volume_trafo.offset)
                j (s.volAt i).volume_trafo.rotation)
              j (s.volAt i).volume_trafo.scaling_factor)
            j (s.volAt i).volume_trafo.mirror)
      (fun u : SelectionState =>
        u.volAt i = s.volAt i ∧ u.volumes.length = s.volumes.length ∧ u.log = s.log)
      (List.range s.volumes.length)
      (fun u j _ hu => by
        obtain ⟨hu1, hu2, hu3⟩ := hu
        dsimp only
        by_cases hji : j = i
        · rw [if_pos hji]
          exact ⟨hu1, hu2, hu3⟩
        · rw [if_neg hji]
          split
          · exact ⟨hu1, hu2, hu3⟩
          · have hij : i ≠ j := fun he => hji he.symm
            refine ⟨?_, ?_, hu3⟩
            · rw [setVolumeMirror_volAt_ne _ _ _ _ hij,
                setVolumeScaling_volAt_ne _ _ _ _ hij,
                setVolumeRotation_volAt_ne _ _ _ _ hij,
                setVolumeOffset_volAt_ne _ _ _ _ hij]
              exact hu1
            · rw [setVolumeMirror_length, setVolumeScaling_length,
                setVolumeRotation_length, setVolumeOffset_length]
              exact hu2)
      s ⟨rfl, rfl, rfl⟩
    exact h

theorem bedShift_scaling (u : SelectionState) (v : GLVolume) :
    (((fun v : GLVolume => match (u.volumes.foldl
        (fun (m : List ((Int × Int) × ℚ)) (v : GLVolume) =>
        if !v.is_wipe_tower && !v.is_modifier then
          updateMinMap m (v.object_idx, v.instance_idx) (tchb_min_z v)
        else m) []).lookup (v.object_idx, v.instance_idx) with
      | some mz => v.withInstanceOffset
          { v.instance_trafo.offset with z := v.instance_trafo.offset.z - mz }
      | none => v) v)).instance_trafo.scaling_factor =
      v.instance_trafo.scaling_factor := by
  dsimp only
  generalize (u.volumes.foldl (fun (m : List ((Int × Int) × ℚ)) (v : GLVolume) =>
      if !v.is_wipe_tower && !v.is_modifier then
        updateMinMap m (v.object_idx, v.instance_idx) (tchb_min_z v)
      else m) []).lookup (v.object_idx, v.instance_idx) = o
  cases o
  · rfl
  · rfl

theorem ensure_on_bed_preserves (u : SelectionState) (i : Nat) :
    ((ensure_on_bed u).volAt i).instance_trafo.scaling_factor =
      ((u.volAt i)).instance_trafo.scaling_factor ∧
    (ensure_on_bed u).log = u.log ∧
    (ensure_on_bed u).volumes.length = u.volumes.length := by
  refine ⟨?_, rfl, ?_⟩
  · by_cases hi : i < u.volumes.length
    · unfold volAt
      rw [ensure_on_bed_volumes, getD_map_of_lt _ _ i hi]
      exact bedShift_scaling u (u.volumes.getD i default)
    · have h1 : (ensure_on_bed u).volAt i = default := by
        apply volAt_of_length_le
        rw [ensure_on_bed_volumes]
        rw [List.length_map]
        omega
      have h2 : u.volAt i = default := volAt_of_length_le u i (by omega)
      rw [h1, h2]
  · rw [ensure_on_bed_volumes]
    exact List.length_map _ _

/-- C8: non-uniform world-space scaling of a single full instance routes
through the ninety-degree branch: the selected volume's local scaling
factors become the componentwise absolute values of the transposed
instance rotation applied to the requested factors, the call leaves the
log untouched when the rotation is an exact multiple of ninety degrees,
and it records the assertion violation when it is not. -/
theorem C8_scale_nonuniform_world (G : GeometryOps) (scal : Vec3)
    (tt : TransformationType) (s : SelectionState) (i : Nat)
    (hv : s.valid = true) (hl : s.list = [i]) (hi : i < s.volumes.length)
    (hsfi : is_single_full_instance s = true)
    (hw : tt.world = true) (hrel : tt.relative = false)
    (hnu : |scal.x - scal.y| > EPSILON ∨ |scal.x - scal.z| > EPSILON) :
    ((scale G scal tt s).volAt i).instance_trafo.scaling_factor =
      (G.rot_t_apply (s.volAt i).instance_trafo.rotation scal).cwiseAbs ∧
    (is_rotation_ninety_degrees (s.volAt i).instance_trafo.rotation = true →
      (scale G scal tt s).log = s.log) ∧
    (is_rotation_ninety_degrees (s.volAt i).instance_trafo.rotation = false →
      Event.assertViol ∈ (scale G scal tt s).log.drop s.log.length) := by
  unfold scale
  rw [if_neg (by rw [hv]; simp)]
  dsimp only
  rw [hl, List.foldl_cons, List.foldl_nil]
  rw [if_pos hsfi]
  rw [if_neg (show ¬(tt.relative = true) by rw [hrel]; simp)]
  rw [if_pos (show (tt.world = true) ∧
    (|scal.x - scal.y| > EPSILON ∨ |scal.x - scal.z| > EPSILON) from ⟨hw, hnu⟩)]
  set S1 : SelectionState := setInstanceScaling
    (s.checkAssert (is_rotation_ninety_degrees (s.volAt i).instance_trafo.rotation)) i
    ((G.rot_t_apply (s.volAt i).instance_trafo.rotation scal).cwiseAbs) with hS1
  have hS1list : S1.list = [i] := by
    rw [hS1]
    show (s.checkAssert _).list = [i]
    rw [checkAssert_list]
    exact hl
  have hS1scal : (S1.volAt i).instance_trafo.scaling_factor =
      (G.rot_t_apply (s.volAt i).instance_trafo.rotation scal).cwiseAbs := by
    rw [hS1, setInstanceScaling_volAt_self _ i _
      (by rw [checkAssert_volumes]; exact hi)]
    rfl
  have hS1log : S1.log =
      (s.checkAssert (is_rotation_ninety_degrees (s.volAt i).instance_trafo.rotation)).log := by
    rw [hS1]
    rfl
  have hsync : ((if S1.mode = EMode.Instance then
        synchronize_unselected_instances G SyncRotationType.NONE S1
      else synchronize_unselected_volumes S1)).volAt i = S1.volAt i ∧
      ((if S1.mode = EMode.Instance then
        synchronize_unselected_instances G SyncRotationType.NONE S1
      else synchronize_unselected_volumes S1)).log = S1.log := by
    split
    · obtain ⟨h1, _, h3⟩ := sync_inst_preserves G SyncRotationType.NONE S1 i
        (by rw [hS1list]; exact List.mem_cons_self _ _)
      exact ⟨h1, h3⟩
    · obtain ⟨h1, _, h3⟩ := sync_vol_preserves S1 i hS1list
      exact ⟨h1, h3⟩
  obtain ⟨hsv, hslog⟩ := hsync
  obtain ⟨hbv, hblog, _⟩ := ensure_on_bed_preserves (if S1.mode = EMode.Instance then
      synchronize_unselected_instances G SyncRotationType.NONE S1
    else synchronize_unselected_volumes S1) i
  refine ⟨?_, ?_, ?_⟩
  · show ((ensure_on_bed (if S1.mode = EMode.Instance then
        synchronize_unselected_instances G SyncRotationType.NONE S1
      else synchronize_unselected_volumes S1)).volAt i).instance_trafo.scaling_factor = _
    rw [hbv, hsv]
    exact hS1scal
  · intro hnin
    show (ensure_on_bed (if S1.mode = EMode.Instance then
        synchronize_unselected_instances G SyncRotationType.NONE S1
      else synchronize_unselected_volumes S1)).log = s.log
    rw [hblog, hslog, hS1log]
    unfold checkAssert
    rw [if_pos hnin]
  · intro hnin
    show Event.assertViol ∈ (ensure_on_bed (if S1.mode = EMode.Instance then
        synchronize_unselected_instances G SyncRotationType.NONE S1
      else synchronize_unselected_volumes S1)).log.drop s.log.length
    rw [hblog, hslog, hS1log]
    unfold checkAssert
    rw [if_neg (by rw [hnin]; simp)]
    show Event.assertViol ∈ (s.log ++ [Event.assertViol]).drop s.log.length
    rw [List.drop_left]
    exact List.mem_singleton.mpr rfl

/-- C8 witness: scaling the quarter-turn instance by (2, 3, 4) in absolute
world space permutes the factors to (3, 2, 4) and triggers no assertion. -/
theorem C8_witness :
    c8State.valid = true ∧ c8State.list = [0] ∧ 0 < c8State.volumes.length ∧
    is_single_full_instance c8State = true ∧ ttWorldAbs.world = true ∧
    ttWorldAbs.relative = false ∧
    (|(⟨2, 3, 4⟩ : Vec3).x - (⟨2, 3, 4⟩ : Vec3).y| > EPSILON ∨
      |(⟨2, 3, 4⟩ : Vec3).x - (⟨2, 3, 4⟩ : Vec3).z| > EPSILON) ∧
    ((scale geomOpsZQuarter ⟨2, 3, 4⟩ ttWorldAbs c8State).volAt 0).instance_trafo.scaling_factor =
      (⟨3, 2, 4⟩ : Vec3) ∧
    (scale geomOpsZQuarter ⟨2, 3, 4⟩ ttWorldAbs c8State).log = c8State.log := by
  have habs : |(⟨2, 3, 4⟩ : Vec3).x - (⟨2, 3, 4⟩ : Vec3).y| > EPSILON := by
    show |(2 : ℚ) - 3| > EPSILON
    rw [show (2 : ℚ) - 3 = -1 by norm_num, abs_neg, abs_one,
      show EPSILON = 1 / 10000 from rfl]
    norm_num
  have h := C8_scale_nonuniform_world geomOpsZQuarter ⟨2, 3, 4⟩ ttWorldAbs c8State 0
    rfl rfl (by decide) (by decide) rfl rfl (Or.inl habs)
  refine ⟨rfl, rfl, by decide, by decide, rfl, rfl, Or.inl habs, ?_, ?_⟩
  · rw [h.1]
    decide
  · exact h.2.1 (by decide)

/-! Pure-Z joint rotation of a full instance and the NONE synchronization
dispatch. -/

theorem argmaxAbs_pure_z (θ : ℚ) (h : θ ≠ 0) : (⟨0, 0, θ⟩ : Vec3).argmaxAbs = 2 := by
  unfold Vec3.argmaxAbs
  rw [if_neg (show ¬(|(⟨0, 0, θ⟩ : Vec3).y| > |(⟨0, 0, θ⟩ : Vec3).x|) from by
    show ¬(|(0 : ℚ)| > |(0 : ℚ)|)
    simp)]
  rw [if_pos (show |(⟨0, 0, θ⟩ : Vec3).z| > |(⟨0, 0, θ⟩ : Vec3).x| from by
    show |θ| > |(0 : ℚ)|
    simpa using h)]

theorem volAt_updateAt_proj {β : Type} (g : GLVolume → GLVolume) (p : GLVolume → β)
    (hp : ∀ v, p (g v) = p v) (u : SelectionState) (j k : Nat) :
    p (({ u with volumes := updateAt g j u.volumes } : SelectionState).volAt k) =
      p (u.volAt k) := by
  by_cases hk : k < u.volumes.length
  · show p ((updateAt g j u.volumes).getD k default) = p (u.volumes.getD k default)
    rw [getD_updateAt _ j k _ hk]
    split
    · exact hp _
    · rfl
  · have h1 : ({ u with volumes := updateAt g j u.volumes } : SelectionState).volAt k =
        default := by
      apply volAt_of_length_le
      show (updateAt g j u.volumes).length ≤ k
      rw [updateAt_length]
      omega
    have h2 : u.volAt k = default := volAt_of_length_le u k (by omega)
    rw [h1, h2]

theorem setInstanceScaling_volAt_rotation (u : SelectionState) (j k : Nat) (f : Vec3) :
    (((setInstanceScaling u j f).volAt k)).instance_trafo.rotation =
      ((u.volAt k)).instance_trafo.rotation :=
  volAt_updateAt_proj (fun v => v.withInstanceScaling f)
    (fun v => v.instance_trafo.rotation) (fun _ => rfl) u j k

theorem setInstanceMirror_volAt_rotation (u : SelectionState) (j k : Nat) (m : Vec3) :
    (((setInstanceMirror u j m).volAt k)).instance_trafo.rotation =
      ((u.volAt k)).instance_trafo.rotation :=
  volAt_updateAt_proj (fun v => v.withInstanceMirror m)
    (fun v => v.instance_trafo.rotation) (fun _ => rfl) u j k

theorem setVolumeOffset_volAt_instTrafo (u : SelectionState) (j k : Nat) (o : Vec3) :
    (((setVolumeOffset u j o).volAt k)).instance_trafo = ((u.volAt k)).instance_trafo :=
  volAt_updateAt_proj (fun v => v.withVolumeOffset o)
    (fun v => v.instance_trafo) (fun _ => rfl) u j k

theorem setVolumeRotation_volAt_instTrafo (u : SelectionState) (j k : Nat) (r : Vec3) :
    (((setVolumeRotation u j r).volAt k)).instance_trafo = ((u.volAt k)).instance_trafo :=
  volAt_updateAt_proj (fun v => v.withVolumeRotation r)
    (fun v => v.instance_trafo) (fun _ => rfl) u j k

theorem setVolumeScaling_volAt_instTrafo (u : SelectionState) (j k : Nat) (f : Vec3) :
    (((setVolumeScaling u j f).volAt k)).instance_trafo = ((u.volAt k)).instance_trafo :=
  volAt_updateAt_proj (fun v => v.withVolumeScaling f)
    (fun v => v.instance_trafo) (fun _ => rfl) u j k

theorem setVolumeMirror_volAt_instTrafo (u : SelectionState) (j k : Nat) (m : Vec3) :
    (((setVolumeMirror u j m).volAt k)).instance_trafo = ((u.volAt k)).instance_trafo :=
  volAt_updateAt_proj (fun v => v.withVolumeMirror m)
    (fun v => v.instance_trafo) (fun _ => rfl) u j k

theorem setInstanceOffset_volAt_self (u : SelectionState) (i : Nat) (o : Vec3)
    (hi : i < u.volumes.length) :
    (setInstanceOffset u i o).volAt i = (u.volAt i).withInstanceOffset o := by
  show (updateAt _ i u.volumes).getD i default = _
  rw [getD_updateAt _ i i _ hi, if_pos rfl]
  rfl

theorem setInstanceRotation_volAt_self (u : SelectionState) (i : Nat) (r : Vec3)
    (hi : i < u.volumes.length) :
    (setInstanceRotation u i r).volAt i = (u.volAt i).withInstanceRotation r := by
  show (updateAt _ i u.volumes).getD i default = _
  rw [getD_updateAt _ i i _ hi, if_pos rfl]
  rfl

theorem setInstanceOffset_volAt_ne (u : SelectionState) (j k : Nat) (o : Vec3)
    (h : k ≠ j) : (setInstanceOffset u j o).volAt k = u.volAt k :=
  volAt_updateAt_ne _ u j k h

theorem setInstanceOffset_length (u : SelectionState) (j : Nat) (o : Vec3) :
    (setInstanceOffset u j o).volumes.length = u.volumes.length :=
  updateAt_length _ _ _

theorem sync_inst_none_rotation (G : GeometryOps) (s : SelectionState) (k : Nat) :
    (((synchronize_unselected_instances G SyncRotationType.NONE s).volAt k)).instance_trafo.rotation =
      ((s.volAt k)).instance_trafo.rotation := by
  unfold synchronize_unselected_instances
  dsimp only
  have h := foldl_pres
    (fun (p : SelectionState × List Nat) x =>
      if (p.1.volAt x).object_idx ≥ 1000 then p
      else
        (List.range p.1.volumes.length).foldl (fun (q : SelectionState × List Nat) j =>
          if q.2.contains j then q
          else
            if (q.1.volAt j).object_idx ≠ (p.1.volAt x).object_idx ∨
               (q.1.volAt j).instance_idx = (p.1.volAt x).instance_idx then q
            else
              ((setInstanceMirror (setInstanceScaling q.1 j
                  (p.1.volAt x).instance_trafo.scaling_factor)
                j (p.1.volAt x).instance_trafo.mirror), idxInsert j q.2))
          (p.1, p.2))
    (fun (p : SelectionState × List Nat) =>
      ∀ m, ((p.1.volAt m)).instance_trafo.rotation = ((s.volAt m)).instance_trafo.rotation)
    s.list
    (fun p x _ hp => by
      dsimp only
      split
      · exact hp
      · refine foldl_pres _ (fun (q : SelectionState × List Nat) =>
            ∀ m, ((q.1.volAt m)).instance_trafo.rotation =
              ((s.volAt m)).instance_trafo.rotation) _
          (fun q j _ hq => ?_) _ hp
        by_cases hcon : (q.2.contains j) = true
        · rw [if_pos hcon]
          exact hq
        · rw [if_neg hcon]
          split
          · exact hq
          · intro m
            rw [setInstanceMirror_volAt_rotation, setInstanceScaling_volAt_rotation]
            exact hq m)
    (s, s.list) (fun m => rfl)
  exact h k

theorem sync_vol_inst_trafo (s : SelectionState) (k : Nat) :
    (((synchronize_unselected_volumes s).volAt k)).instance_trafo =
      ((s.volAt k)).instance_trafo := by
  unfold synchronize_unselected_volumes
  dsimp only
  have h := foldl_pres
    (fun (t : SelectionState) i =>
      if (t.volAt i).object_idx ≥ 1000 then t
      else
        (List.range t.volumes.length).foldl (fun u j =>
          if j = i then u
          else
            if (u.volAt j).object_idx ≠ (t.volAt i).object_idx ∨
               (u.volAt j).vol_idx ≠ (t.volAt i).vol_idx then u
            else
              setVolumeMirror (setVolumeScaling (setVolumeRotation
                  (setVolumeOffset u j (t.volAt i).volume_trafo.offset)
                  j (t.volAt i).volume_trafo.rotation)
                j (t.volAt i).volume_trafo.scaling_factor)
              j (t.volAt i).volume_trafo.mirror) t)
    (fun t : SelectionState =>
      ∀ m, ((t.volAt m)).instance_trafo = ((s.volAt m)).instance_trafo)
    s.list
    (fun t i _ ht => by
      dsimp only
      split
      · exact ht
      · refine foldl_pres _ (fun u : SelectionState =>
            ∀ m, ((u.volAt m)).instance_trafo = ((s.volAt m)).instance_trafo) _
          (fun u j _ hu => ?_) _ ht
        by_cases hji : j = i
        · rw [if_pos hji]
          exact hu
        · rw [if_neg hji]
          split
          · exact hu
          · intro m
            rw [setVolumeMirror_volAt_instTrafo, setVolumeScaling_volAt_instTrafo,
              setVolumeRotation_volAt_instTrafo, setVolumeOffset_volAt_instTrafo]
            exact hu m)
    s (fun m => rfl)
  exact h k

theorem isEmpty_eq_of_length_eq {α β : Type} {a : List α} {b : List β}
    (h : a.length = b.length) : a.isEmpty = b.isEmpty := by
  cases a with
  | nil =>
    cases b with
    | nil => rfl
    | cons x t => simp at h
  | cons x t =>
    cases b with
    | nil => simp at h
    | cons y u => rfl

theorem all_congr_of_mem {α : Type} (l : List α) (p q : α → Bool)
    (h : ∀ x ∈ l, p x = q x) : l.all p = l.all q := by
  induction l with
  | nil => rfl
  | cons a t ih =>
    rw [List.all_cons, List.all_cons, h a (List.mem_cons_self a t),
      ih (fun x hx => h x (List.mem_cons_of_mem a hx))]

theorem is_single_full_instance_congr (a b : SelectionState)
    (htype : a.type = b.type) (hlist : a.list = b.list) (hvalid : a.valid = b.valid)
    (hobjects : a.objects = b.objects) (hcontent : a.content = b.content)
    (hlen : a.volumes.length = b.volumes.length)
    (hoid : ∀ k, (a.volAt k).object_idx = (b.volAt k).object_idx)
    (hiid : ∀ k, (a.volAt k).instance_idx = (b.volAt k).instance_idx)
    (hvid : ∀ k, (a.volAt k).vol_idx = (b.volAt k).vol_idx) :
    is_single_full_instance a = is_single_full_instance b := by
  unfold is_single_full_instance get_instance_idx get_object_idx objAt
  dsimp only
  rw [htype, hlist, hvalid, hcontent, hobjects, isEmpty_eq_of_length_eq hlen]
  simp only [hoid, hiid, hvid]

theorem rotZ_ids (G : GeometryOps) (θ : ℚ) (s u : SelectionState)
    (hdisj : ∀ k, u.volAt k = s.volAt k ∨ u.volAt k = rotZWritten G θ s k) :
    ∀ k, (u.volAt k).object_idx = (s.volAt k).object_idx ∧
      (u.volAt k).instance_idx = (s.volAt k).instance_idx ∧
      (u.volAt k).vol_idx = (s.volAt k).vol_idx := by
  intro k
  rcases hdisj k with h | h
  · rw [h]
    exact ⟨rfl, rfl, rfl⟩
  · rw [h]
    exact ⟨rfl, rfl, rfl⟩

theorem rotZ_fold_spec (G : GeometryOps) (θ : ℚ) (tt : TransformationType)
    (s : SelectionState)
    (hdisp : is_single_full_instance s = true ∨
      (s.is_single_volume || s.is_single_modifier) = false)
    (hmode : s.mode = EMode.Instance)
    (hW : tt.world = false) (hrel : tt.relative = true) (hjoint : tt.joint = true) :
    ∀ l : List Nat, (∀ x ∈ l, x < s.volumes.length) →
      ∀ p : SelectionState × List Int, RotZInv G θ s p.1 →
        RotZInv G θ s (l.foldl (rotate_step G ⟨0, 0, θ⟩ tt 2) p).1 ∧
        (∀ k, k ∉ l →
          (l.foldl (rotate_step G ⟨0, 0, θ⟩ tt 2) p).1.volAt k = p.1.volAt k) ∧
        (∀ k, k ∈ l →
          (l.foldl (rotate_step G ⟨0, 0, θ⟩ tt 2) p).1.volAt k = rotZWritten G θ s k) := by
  intro l
  induction l with
  | nil =>
    intro _ p hp
    exact ⟨hp, fun _ _ => rfl, fun k hk => absurd hk (List.not_mem_nil k)⟩
  | cons i l' ih =>
    intro hlt p hp
    obtain ⟨htype, hlist, hmode', hvalid, hobjects, hcontent, hlen, hcache, hcenter, hdisj⟩ := hp
    have hids := rotZ_ids G θ s p.1 hdisj
    have hilt : i < p.1.volumes.length := by
      rw [hlen]
      exact hlt i (List.mem_cons_self i l')
    have hsfi : is_single_full_instance p.1 = is_single_full_instance s :=
      is_single_full_instance_congr p.1 s htype hlist hvalid hobjects hcontent hlen
        (fun k => (hids k).1) (fun k => (hids k).2.1) (fun k => (hids k).2.2)
    have hsv : (p.1.is_single_volume || p.1.is_single_modifier) =
        (s.is_single_volume || s.is_single_modifier) := by
      unfold is_single_volume is_single_modifier
      rw [htype]
    have hcA : ∀ k, p.1.cacheAt k = s.cacheAt k := by
      intro k
      unfold cacheAt
      rw [hcache]
    have hstep : rotate_step G ⟨0, 0, θ⟩ tt 2 p i =
        rotate_instance_step G ⟨0, 0, θ⟩ tt 2 p i := by
      unfold rotate_step
      dsimp only
      rcases hdisp with hd | hd
      · rw [if_pos (hsfi.trans hd)]
      · by_cases hq : is_single_full_instance p.1 = true
        · rw [if_pos hq]
        · rw [if_neg hq, if_neg (show ¬((p.1.is_single_volume || p.1.is_single_modifier)
            = true) from by rw [hsv, hd]; exact Bool.false_ne_true),
            if_pos (hmode'.trans hmode)]
    have hW1 : (rotate_instance_step G ⟨0, 0, θ⟩ tt 2 p i).1 =
        setInstanceRotation (setInstanceOffset p.1 i
          (p.1.dragging_center.add (G.rot_apply
            ⟨0, 0, G.rotation_diff_z (p.1.cacheAt i).m_instance.rotation
              ((⟨0, 0, θ⟩ : Vec3).add (p.1.cacheAt i).m_instance.rotation)⟩
            ((p.1.cacheAt i).m_instance.offset.sub p.1.dragging_center)))) i
          ((⟨0, 0, θ⟩ : Vec3).add (p.1.cacheAt i).m_instance.rotation) := by
      unfold rotate_instance_step
      dsimp only
      rw [if_neg (show ¬((2 : Nat) ≠ 2 ∧
        p.2.getD (p.1.volAt i).object_idx.toNat (-1) ≠ -1) from by simp)]
      dsimp only
      rw [if_neg (show ¬(tt.world = true) from by rw [hW]; simp)]
      rw [if_neg (show ¬(tt.absolute = true) from by
        unfold TransformationType.absolute
        rw [hrel]
        simp)]
      rw [if_pos (show (2 : Nat) = 2 ∧ tt.joint = true from ⟨rfl, hjoint⟩)]
    rw [hcA i, hcenter] at hW1
    have hstep1 : (rotate_step G ⟨0, 0, θ⟩ tt 2 p i).1 =
        setInstanceRotation (setInstanceOffset p.1 i
          (s.dragging_center.add (G.rot_apply
            ⟨0, 0, G.rotation_diff_z (s.cacheAt i).m_instance.rotation
              ((⟨0, 0, θ⟩ : Vec3).add (s.cacheAt i).m_instance.rotation)⟩
            ((s.cacheAt i).m_instance.offset.sub s.dragging_center)))) i
          ((⟨0, 0, θ⟩ : Vec3).add (s.cacheAt i).m_instance.rotation) := by
      rw [hstep]
      exact hW1
    have hvols_i : (rotate_step G ⟨0, 0, θ⟩ tt 2 p i).1.volAt i = rotZWritten G θ s i := by
      rw [hstep1, setInstanceRotation_volAt_self _ i _
        (by rw [setInstanceOffset_length]; exact hilt),
        setInstanceOffset_volAt_self _ i _ hilt]
      rcases hdisj i with h | h
      · rw [h]
      · rw [h]
        rfl
    have hvols_ne : ∀ k, k ≠ i →
        (rotate_step G ⟨0, 0, θ⟩ tt 2 p i).1.volAt k = p.1.volAt k := by
      intro k hk
      rw [hstep1, setInstanceRotation_volAt_ne _ _ _ _ hk,
        setInstanceOffset_volAt_ne _ _ _ _ hk]
    have hINV' : RotZInv G θ s (rotate_step G ⟨0, 0, θ⟩ tt 2 p i).1 := by
      refine ⟨?_, ?_, ?_, ?_, ?_, ?_, ?_, ?_, ?_, ?_⟩
      · rw [hstep1]
        exact htype
      · rw [hstep1]
        exact hlist
      · rw [hstep1]
        exact hmode'
      · rw [hstep1]
        exact hvalid
      · rw [hstep1]
        exact hobjects
      · rw [hstep1]
        exact hcontent
      · rw [hstep1, setInstanceRotation_length, setInstanceOffset_length]
        exact hlen
      · rw [hstep1]
        exact hcache
      · rw [hstep1]
        exact hcenter
      · intro k
        by_cases hk : k = i
        · subst hk
          exact Or.inr hvols_i
        · rw [hvols_ne k hk]
          exact hdisj k
    obtain ⟨ih1, ih2, ih3⟩ := ih (fun x hx => hlt x (List.mem_cons_of_mem i hx))
      (rotate_step G ⟨0, 0, θ⟩ tt 2 p i) hINV'
    refine ⟨?_, ?_, ?_⟩
    · rw [List.foldl_cons]
      exact ih1
    · intro k hk
      rw [List.foldl_cons, ih2 k (fun hm => hk (List.mem_cons_of_mem i hm))]
      exact hvols_ne k (fun he => hk (he ▸ List.mem_cons_self i l'))
    · intro k hk
      rw [List.foldl_cons]
      by_cases hk2 : k ∈ l'
      · exact ih3 k hk2
      · rcases List.mem_cons.mp hk with he | hm
        · rw [ih2 k hk2, he]
          exact hvols_i
        · exact absurd hm hk2

/-- C2 (amended): rotating a valid Instance-mode selection — a single full
instance, or any Instance-mode selection that is not a single
volume/modifier — by a pure-Z angle θ with local joint semantics moves the
instance offset of every selected volume to
dragging_center + Rz(θ)·(cached_offset − dragging_center) and adds θ to its
cached rotation; but because a dominant Z axis selects the NONE
synchronization policy, every unselected volume — in particular every
unselected sibling instance of a touched object — keeps its instance
rotation completely unchanged, receiving no Z-rotation delta at all. -/
theorem C2_rotate_pure_z (G : GeometryOps) (θ : ℚ) (tt : TransformationType)
    (s : SelectionState)
    (hv : s.valid = true)
    (hwt : s.is_wipe_tower = false)
    (hmode : s.mode = EMode.Instance)
    (hdisp : is_single_full_instance s = true ∨
      (s.is_single_volume || s.is_single_modifier) = false)
    (hin : ∀ i ∈ s.list, i < s.volumes.length)
    (hW : tt.world = false) (hrel : tt.relative = true) (hjoint : tt.joint = true)
    (hθ : θ ≠ 0)
    (hG : ∀ c d : Vec3, G.rotation_diff_z c d = d.z - c.z) :
    (∀ i ∈ s.list,
      ((rotate G ⟨0, 0, θ⟩ tt s).volAt i).instance_trafo.offset =
        s.dragging_center.add (G.rot_apply ⟨0, 0, θ⟩
          ((s.cacheAt i).m_instance.offset.sub s.dragging_center)) ∧
      ((rotate G ⟨0, 0, θ⟩ tt s).volAt i).instance_trafo.rotation =
        (⟨0, 0, θ⟩ : Vec3).add (s.cacheAt i).m_instance.rotation) ∧
    (∀ j, j ∉ s.list →
      ((rotate G ⟨0, 0, θ⟩ tt s).volAt j).instance_trafo.rotation =
        ((s.volAt j)).instance_trafo.rotation) := by
  unfold rotate
  rw [if_neg (by rw [hv]; simp)]
  dsimp only
  rw [show s.checkAssert (!tt.world || tt.relative) = s from by
    unfold checkAssert
    rw [if_pos (by rw [hW, hrel]; rfl)]]
  rw [if_pos (show (!s.is_wipe_tower) = true from by rw [hwt]; rfl)]
  have hne : ¬((⟨0, 0, θ⟩ : Vec3) = Vec3.zero) := by
    intro he
    apply hθ
    have hz := congrArg Vec3.z he
    simpa using hz
  simp only [if_neg hne]
  rw [argmaxAbs_pure_z θ hθ]
  rw [show (if (2 : Nat) = 2 then SyncRotationType.NONE else SyncRotationType.GENERAL) =
    SyncRotationType.NONE from if_pos rfl]
  obtain ⟨hINV, huntouch, hproc⟩ := rotZ_fold_spec G θ tt s hdisp hmode hW hrel hjoint
    s.list hin (s, (List.replicate s.objects.length (-1 : Int)))
    ⟨rfl, rfl, rfl, rfl, rfl, rfl, rfl, rfl, rfl, fun _ => Or.inl rfl⟩
  obtain ⟨hFtype, hFlist, hFmode, hFvalid, hFobj, hFcont, hFlen, hFcache, hFcenter, hFdisj⟩ :=
    hINV
  rw [if_pos (hFmode.trans hmode)]
  refine ⟨?_, ?_⟩
  · intro i hi
    have hz : G.rotation_diff_z (s.cacheAt i).m_instance.rotation
        ((⟨0, 0, θ⟩ : Vec3).add (s.cacheAt i).m_instance.rotation) = θ := by
      rw [hG]
      show θ + (s.cacheAt i).m_instance.rotation.z - (s.cacheAt i).m_instance.rotation.z = θ
      ring
    have hiF : i ∈ (s.list.foldl (rotate_step G ⟨0, 0, θ⟩ tt 2)
        (s, (List.replicate s.objects.length (-1 : Int)))).1.list := by
      rw [hFlist]
      exact hi
    obtain ⟨hp1, _, _⟩ := sync_inst_preserves G SyncRotationType.NONE _ i hiF
    refine ⟨?_, ?_⟩
    · show ((synchronize_unselected_instances G SyncRotationType.NONE
        ((s.list.foldl (rotate_step G ⟨0, 0, θ⟩ tt 2)
          (s, (List.replicate s.objects.length (-1 : Int)))).1)).volAt
          i).instance_trafo.offset = _
      rw [hp1, hproc i hi]
      show s.dragging_center.add (G.rot_apply
        ⟨0, 0, G.rotation_diff_z (s.cacheAt i).m_instance.rotation
          ((⟨0, 0, θ⟩ : Vec3).add (s.cacheAt i).m_instance.rotation)⟩
        ((s.cacheAt i).m_instance.offset.sub s.dragging_center)) = _
      rw [hz]
    · show ((synchronize_unselected_instances G SyncRotationType.NONE
        ((s.list.foldl (rotate_step G ⟨0, 0, θ⟩ tt 2)
          (s, (List.replicate s.objects.length (-1 : Int)))).1)).volAt
          i).instance_trafo.rotation = _
      rw [hp1, hproc i hi]
      rfl
  · intro j hj
    show ((synchronize_unselected_instances G SyncRotationType.NONE
      ((s.list.foldl (rotate_step G ⟨0, 0, θ⟩ tt 2)
        (s, (List.replicate s.objects.length (-1 : Int)))).1)).volAt
        j).instance_trafo.rotation = _
    rw [sync_inst_none_rotation, huntouch j hj]

/-- C2 counterexample: rotating the fully selected first instance of a
two-instance object by the pure-Z angle 1 leaves the unselected sibling's
instance rotation exactly as it was; the sibling does not receive the
Z-rotation delta the claim promises under the GENERAL policy. -/
theorem C2_counterexample :
    c2State.valid = true ∧ c2State.mode = EMode.Instance ∧
    (c2State.volAt 1).object_idx = (c2State.volAt 0).object_idx ∧
    (c2State.volAt 1).instance_idx ≠ (c2State.volAt 0).instance_idx ∧
    c2State.contains_volume 1 = false ∧
    ((c2State.volAt 1)).instance_trafo.rotation = ⟨0, 0, 0⟩ ∧
    ((rotate geomOpsId ⟨0, 0, 1⟩ ttLocalJoint c2State).volAt 1).instance_trafo.rotation =
      ((c2State.volAt 1)).instance_trafo.rotation ∧
    ((rotate geomOpsId ⟨0, 0, 1⟩ ttLocalJoint c2State).volAt 1).instance_trafo.rotation ≠
      ⟨0, 0, 1⟩ := by
  refine ⟨rfl, rfl, rfl, by decide, rfl, by decide, by decide, by decide⟩

/-- C2 witness: the amended statement at the concrete three-instance state
whose first two instances are selected, with θ = 1 and the identity
geometry action. -/
theorem C2_witness :
    c2StateM.valid = true ∧ c2StateM.list = [0, 1] ∧ (1 : ℚ) ≠ 0 ∧
    (∀ i ∈ c2StateM.list,
      ((rotate geomOpsId ⟨0, 0, 1⟩ ttLocalJoint c2StateM).volAt i).instance_trafo.offset =
        c2StateM.dragging_center.add (geomOpsId.rot_apply ⟨0, 0, 1⟩
          ((c2StateM.cacheAt i).m_instance.offset.sub c2StateM.dragging_center)) ∧
      ((rotate geomOpsId ⟨0, 0, 1⟩ ttLocalJoint c2StateM).volAt i).instance_trafo.rotation =
        (⟨0, 0, 1⟩ : Vec3).add (c2StateM.cacheAt i).m_instance.rotation) ∧
    (∀ j, j ∉ c2StateM.list →
      ((rotate geomOpsId ⟨0, 0, 1⟩ ttLocalJoint c2StateM).volAt j).instance_trafo.rotation =
        ((c2StateM.volAt j)).instance_trafo.rotation) := by
  have h := C2_rotate_pure_z geomOpsId 1 ttLocalJoint c2StateM rfl (by decide) rfl
    (Or.inr (by decide)) (by decide) rfl rfl rfl (by decide) (fun c d => rfl)
  exact ⟨rfl, rfl, by decide, h.1, h.2⟩

end SelectionState

end Slic3r
